import Mathlib

/-!
# Smart Local Service Booking Platform: booking lifecycle

A shallow embedding of the backend route handlers
(`backend/src/routes/*.js`) and of the document schemas
(`backend/src/models/*.js`) they act on.

Conventions of the embedding

* A collection is a list of documents; `findOne` is the first match,
  `save` replaces the document that carries the same `_id`, `create`
  appends.  Document ids are natural numbers (`ObjId`); request fields
  that name a document carry a value of this type.
* A JavaScript `Number` is a rational; a numeric request field is a JSON
  number or is absent (`Option ℚ`).  `NaN`, where the source can produce
  it, is the `none` result of an arithmetic helper.  Arithmetic is exact,
  with one exception: the balance of the wallet handlers is a running sum
  that is compared with an amount, and each of its additions is rounded to
  the nearest binary64 value as `+` on two `Number`s is (`jsAdd`).
* `Date.now()`, `new Date()`, `Math.random()`, freshly generated document
  ids and the settlement hash are arguments of the handler that uses them.
* A handler returns the store it leaves behind, the ordered list of its
  store writes and socket emissions, and the HTTP response.  An exception
  that reaches `next(err)` is answered by the global error handler of
  `server.js` with status 500.
* The text of a QR code is represented by what `JSON.parse` makes of it, so
  that `JSON.parse (JSON.stringify payload)` is `payload`.
* Stored documents satisfy their schema.  The schema validators are
  modelled where a handler assigns a request value to a validated path
  (`rating`, `paymentMethod`, the fields of a created claim).
-/

namespace SmartBooking

/-- Document identifier (`mongoose.Schema.Types.ObjectId`). -/
abbrev ObjId := Nat

/-- The `role` enum of `models/User.js`. -/
inductive Role where
  | provider
  | customer
  | admin
  deriving DecidableEq, Repr

/-- The `status` enum of `models/Booking.js`. -/
inductive Status where
  | pending
  | accepted
  | rejected
  | in_progress
  | completed
  | cancelled
  deriving DecidableEq, Repr

/-- The `paymentMethod` enum of `models/Booking.js`. -/
inductive PaymentMethod where
  | offline
  | online
  | blockchain
  deriving DecidableEq, Repr

/-- The `paymentStatus` enum of `models/Booking.js`. -/
inductive PaymentStatus where
  | pending
  | paid
  deriving DecidableEq, Repr

/-- The `type` enum of `models/InsuranceClaim.js`. -/
inductive ClaimType where
  | damage
  | injury
  | delay
  | fraud
  | other
  deriving DecidableEq, Repr

/-- The `status` enum of `models/InsuranceClaim.js`. -/
inductive ClaimStatus where
  | pending
  | reviewing
  | approved
  | rejected
  deriving DecidableEq, Repr

/-- The `direction` enum of `models/WalletTransaction.js`. -/
inductive Direction where
  | incoming
  | outgoing
  deriving DecidableEq, Repr

/-- The `status` enum of `models/WalletTransaction.js`. -/
inductive TxStatus where
  | pending
  | confirmed
  | failed
  deriving DecidableEq, Repr

/-- A `{ lat, lng }` pair (`currentLocation`, `location`). -/
structure Location where
  lat : Option ℚ
  lng : Option ℚ
  deriving DecidableEq

/-- Document of `models/User.js`. -/
structure User where
  _id : ObjId
  fullName : String
  mobileNumber : String
  passwordHash : String
  role : Role
  deriving DecidableEq

/-- Document of `models/Provider.js`. -/
structure Provider where
  _id : ObjId
  user : ObjId
  age : ℚ
  serviceType : String
  specialization : String
  identityProof : String
  serviceArea : String
  availableTimings : String
  experienceYears : ℚ
  rating : ℚ
  ratingCount : Nat
  totalJobs : Nat
  blockchainProviderId : String
  emergencyService : Bool
  currentLocation : Location
  deriving DecidableEq

/-- Document of `models/Customer.js`. -/
structure Customer where
  _id : ObjId
  user : ObjId
  email : String
  servicePreference : String
  address : String
  location : Location
  walletBalance : ℚ
  deriving DecidableEq

/-- The object serialised by `POST /:id/generate-qr`
(`bookingRoutes.js` lines 121-131), also the shape `JSON.parse` yields for
a scanned text; `none` is a key that is not present. -/
structure QrPayload where
  bookingId : Option ObjId
  providerId : Option ObjId
  blockchainProviderId : Option String
  name : Option String
  serviceType : Option String
  specialization : Option String
  experience : Option ℚ
  rating : Option ℚ
  timestamp : Option Nat
  deriving DecidableEq

/-- The text of a QR code as the handlers see it: the empty (or missing)
string, a text that `JSON.parse` rejects, a JSON text that is not an object
(no property can be read from it), or the JSON text of an object. -/
inductive QrText where
  | empty
  | notJson (raw : String)
  | nonObject
  | object (p : QrPayload)
  deriving DecidableEq

/-- The `priceRange` sub-object of a booking. -/
structure PriceRange where
  min : Option ℚ
  max : Option ℚ
  deriving DecidableEq

/-- The `insurance` sub-object of a booking. -/
structure Insurance where
  opted : Bool
  cost : ℚ
  policyId : Option String
  coverageDetails : Option String
  deriving DecidableEq

/-- An element of `providerLocationSnapshots`. -/
structure Snapshot where
  lat : ℚ
  lng : ℚ
  timestamp : Nat
  deriving DecidableEq

/-- Document of `models/Booking.js`. -/
structure Booking where
  _id : ObjId
  customer : ObjId
  provider : ObjId
  serviceType : Option String
  description : String
  status : Status
  scheduledTime : Option Nat
  priceRange : PriceRange
  isPriceAccepted : Bool
  isLocationShared : Bool
  insurance : Insurance
  providerLocationSnapshots : List Snapshot
  verificationQrData : Option QrText
  verifiedAt : Option Nat
  paymentMethod : Option PaymentMethod
  paymentStatus : PaymentStatus
  amount : ℚ
  rating : Option ℚ
  review : Option String
  createdAt : Nat
  deriving DecidableEq

/-- Document of `models/InsuranceClaim.js`. -/
structure InsuranceClaim where
  _id : ObjId
  booking : ObjId
  customer : ObjId
  policyId : String
  type : ClaimType
  description : String
  evidenceImages : List String
  status : ClaimStatus
  adminComments : Option String
  refundAmount : Option ℚ
  createdAt : Nat
  deriving DecidableEq

/-- Document of `models/WalletTransaction.js`. -/
structure WalletTransaction where
  _id : ObjId
  user : ObjId
  booking : Option ObjId
  direction : Direction
  amount : ℚ
  blockchainTxHash : Option String
  status : TxStatus
  createdAt : Nat
  deriving DecidableEq

/-- The database: one list of documents per model. -/
structure Store where
  users : List User
  providers : List Provider
  customers : List Customer
  bookings : List Booking
  claims : List InsuranceClaim
  walletTransactions : List WalletTransaction
  deriving DecidableEq

/-! ## Responses and effects -/

/-- The exceptions a handler can hand to `next(err)`. -/
inductive ErrKind where
  | validationError
  | typeError
  | syntaxError
  deriving DecidableEq, Repr

/-- The populated `user` of a provider as selected by
`populate('user', 'fullName mobileNumber role')`. -/
structure UserView where
  _id : ObjId
  fullName : String
  mobileNumber : String
  role : Role
  deriving DecidableEq

/-- The `provider` object of a successful QR verification
(`bookingRoutes.js` lines 183-199). -/
structure ProviderView where
  _id : ObjId
  blockchainProviderId : String
  age : ℚ
  serviceType : String
  specialization : String
  identityProof : String
  serviceArea : String
  availableTimings : String
  experienceYears : ℚ
  rating : ℚ
  totalJobs : Nat
  emergencyService : Bool
  user : Option UserView
  deriving DecidableEq

/-- JSON bodies of the responses. -/
inductive Body where
  | message (m : String)
  | booking (b : Booking)
  | claim (c : InsuranceClaim)
  | qr (qrData : QrText)
  | verified (bookingId : ObjId) (providerLocation : Option Location)
      (provider : Option ProviderView)
  | reviewed (m : String) (b : Booking)
  | paid (b : Booking) (walletTransaction : Option WalletTransaction)
  | tracking (providerLocation : Location) (providerId : ObjId)
      (blockchainProviderId : String) (status : Status)
  | providerVerified (providerLocation : Location) (provider : ProviderView)
  | jobs (list : List Booking)
  | transaction (t : WalletTransaction)
  | thrown (e : ErrKind)
  deriving DecidableEq

/-- HTTP response: status code and JSON body. -/
structure Response where
  status : Nat
  body : Body
  deriving DecidableEq

/-- Socket.IO rooms addressed by the handlers. -/
inductive Room where
  | user (id : ObjId)
  | booking (id : ObjId)
  deriving DecidableEq

/-- The `message` of a `booking:notification`
(`providerRoutes.js` lines 165-170). -/
inductive NotifyMessage where
  | plain (status : Status)
  | withRange (status : Status) (min : ℚ) (max : Option ℚ)
  | forAmount (status : Status) (amount : ℚ)
  deriving DecidableEq

/-- Events emitted by the handlers, with their payloads. -/
inductive Event where
  | newRequest (bookingId customerId : ObjId) (description : String)
      (serviceType : Option String) (amount : ℚ) (timestamp : Nat)
  | statusChanged (bookingId : ObjId) (status : Status) (timestamp : Nat)
  | notification (bookingId : ObjId) (status : Status) (message : NotifyMessage)
      (amount : ℚ) (priceRange : PriceRange) (timestamp : Nat)
  | priceConfirmed (bookingId : ObjId) (timestamp : Nat)
  deriving DecidableEq

/-- The collections of the store. -/
inductive Coll where
  | bookings
  | providers
  | claims
  | walletTransactions
  deriving DecidableEq, Repr

/-- One observable step of a handler: a store write (`save` or `create`)
or an emission to a room. -/
inductive Effect where
  | write (c : Coll) (id : ObjId)
  | emit (room : Room) (e : Event)
  deriving DecidableEq

/-- What a handler leaves behind. -/
structure Outcome where
  store : Store
  trace : List Effect
  res : Response
  deriving DecidableEq

/-- The handler answers `res.status(code).json({ message })` before any
write. -/
def refuse (s : Store) (code : Nat) (m : String) : Outcome :=
  { store := s, trace := [], res := { status := code, body := .message m } }

/-- An exception reaches the global error handler:
`res.status(err.status || 500)`. -/
def throwErr (s : Store) (tr : List Effect) (e : ErrKind) : Outcome :=
  { store := s, trace := tr, res := { status := 500, body := .thrown e } }

/-! ## Store operations -/

/-- `User.findById(id)`. -/
def Store.findUser (s : Store) (id : ObjId) : Option User :=
  s.users.find? (fun u => u._id = id)

/-- `Provider.findById(id)`. -/
def Store.findProviderById (s : Store) (id : ObjId) : Option Provider :=
  s.providers.find? (fun p => p._id = id)

/-- `Provider.findOne({ user })`. -/
def Store.findProviderByUser (s : Store) (user : ObjId) : Option Provider :=
  s.providers.find? (fun p => p.user = user)

/-- `Customer.findOne({ user })`. -/
def Store.findCustomerByUser (s : Store) (user : ObjId) : Option Customer :=
  s.customers.find? (fun c => c.user = user)

/-- `Customer.findById(id)` (used by `populate('customer')`). -/
def Store.findCustomerById (s : Store) (id : ObjId) : Option Customer :=
  s.customers.find? (fun c => c._id = id)

/-- `Booking.findById(id)`. -/
def Store.findBookingById (s : Store) (id : ObjId) : Option Booking :=
  s.bookings.find? (fun b => b._id = id)

/-- `Booking.findOne({ _id: id, customer })`. -/
def Store.findBookingOfCustomer (s : Store) (id customer : ObjId) : Option Booking :=
  s.bookings.find? (fun b => b._id = id ∧ b.customer = customer)

/-- `Booking.findOne({ _id: id, provider })`. -/
def Store.findBookingOfProvider (s : Store) (id provider : ObjId) : Option Booking :=
  s.bookings.find? (fun b => b._id = id ∧ b.provider = provider)

/-- `Booking.findOne({ _id, $or: [{ provider: p1 }, { provider: p2 }] })`. -/
def Store.findBookingOfEither (s : Store) (id p1 p2 : ObjId) : Option Booking :=
  s.bookings.find? (fun b => b._id = id ∧ (b.provider = p1 ∨ b.provider = p2))

/-- `InsuranceClaim.findOne({ booking })`. -/
def Store.findClaimByBooking (s : Store) (booking : ObjId) : Option InsuranceClaim :=
  s.claims.find? (fun c => c.booking = booking)

/-- `booking.save()`: the stored document with this `_id` is replaced. -/
def Store.saveBooking (s : Store) (b : Booking) : Store :=
  { s with bookings := s.bookings.map (fun x => if x._id = b._id then b else x) }

/-- `provider.save()`. -/
def Store.saveProvider (s : Store) (p : Provider) : Store :=
  { s with providers := s.providers.map (fun x => if x._id = p._id then p else x) }

/-- `Booking.create(doc)`. -/
def Store.createBooking (s : Store) (b : Booking) : Store :=
  { s with bookings := s.bookings ++ [b] }

/-- `InsuranceClaim.create(doc)`. -/
def Store.createClaim (s : Store) (c : InsuranceClaim) : Store :=
  { s with claims := s.claims ++ [c] }

/-- `WalletTransaction.create(doc)`. -/
def Store.createWalletTransaction (s : Store) (t : WalletTransaction) : Store :=
  { s with walletTransactions := s.walletTransactions ++ [t] }

/-! ## Authentication middleware (`middleware/authMiddleware.js`) -/

/-- The `req.user` object set by `authRequired`. -/
structure ReqUser where
  id : ObjId
  role : Role
  mobileNumber : String
  fullName : String
  deriving DecidableEq

/-- What `authRequired` finds in the `Authorization` header: no bearer
header, a token that `jwt.verify` rejects as expired or as invalid, or a
token that verifies and decodes to `userId`. -/
inductive Credential where
  | missing
  | expired
  | invalid
  | token (userId : ObjId)
  deriving DecidableEq

/-- `authRequired`. -/
def authRequired (s : Store) (cred : Credential) : Except Response ReqUser :=
  match cred with
  | .missing =>
    .error { status := 401, body := .message "Missing authorization header. Please login again." }
  | .expired => .error { status := 401, body := .message "Token expired. Please login again." }
  | .invalid => .error { status := 401, body := .message "Invalid token. Please login again." }
  | .token userId =>
    match s.findUser userId with
    | none => .error { status := 401, body := .message "User not found. Please login again." }
    | some user =>
      .ok { id := user._id, role := user.role, mobileNumber := user.mobileNumber,
            fullName := user.fullName }

/-- `requireRole(roles)`. -/
def requireRole (allowed : List Role) (user : ReqUser) : Except Response Unit :=
  if allowed.contains user.role then .ok ()
  else .error { status := 403, body := .message "Forbidden: insufficient permissions" }

/-- A route guarded by `authRequired` only. -/
def withAuth (s : Store) (cred : Credential) (handler : ReqUser → Outcome) : Outcome :=
  match authRequired s cred with
  | .error r => { store := s, trace := [], res := r }
  | .ok user => handler user

/-- A route guarded by `authRequired, requireRole(role)`. -/
def withRole (s : Store) (cred : Credential) (role : Role)
    (handler : ReqUser → Outcome) : Outcome :=
  match authRequired s cred with
  | .error r => { store := s, trace := [], res := r }
  | .ok user =>
    match requireRole [role] user with
    | .error r => { store := s, trace := [], res := r }
    | .ok _ => handler user

/-! ## JavaScript helpers -/

/-- Truthiness of a numeric request field: absent and `0` are falsy. -/
def truthy (x : Option ℚ) : Bool :=
  match x with
  | some q => decide (q ≠ 0)
  | none => false

/-- `JSON.stringify(payload)`. -/
def jsonStringify (payload : QrPayload) : QrText := .object payload

/-- The payload with no key, what reading a property of a JSON value that is
not an object amounts to. -/
def QrPayload.absent : QrPayload :=
  { bookingId := none, providerId := none, blockchainProviderId := none, name := none,
    serviceType := none, specialization := none, experience := none, rating := none,
    timestamp := none }

/-- `JSON.parse(qrData)`; `none` is a thrown `SyntaxError`. -/
def jsonParse (qrData : QrText) : Option QrPayload :=
  match qrData with
  | .empty => none
  | .notJson _ => none
  | .nonObject => some QrPayload.absent
  | .object p => some p

/-- The `min: 1, max: 5` validators of `Booking.rating`; they do not run on
a missing value. -/
def ratingValid (rating : Option ℚ) : Bool :=
  match rating with
  | none => true
  | some r => decide (1 ≤ r ∧ r ≤ 5)

/-- Cast of a string to the `paymentMethod` enum. -/
def parsePaymentMethod (m : String) : Option PaymentMethod :=
  if m = "offline" then some .offline
  else if m = "online" then some .online
  else if m = "blockchain" then some .blockchain
  else none

/-- Cast of a string to the claim `type` enum. -/
def parseClaimType (t : String) : Option ClaimType :=
  if t = "damage" then some .damage
  else if t = "injury" then some .injury
  else if t = "delay" then some .delay
  else if t = "fraud" then some .fraud
  else if t = "other" then some .other
  else none

/-- The display-safe user selected by `populate`. -/
def userView (u : User) : UserView :=
  { _id := u._id, fullName := u.fullName, mobileNumber := u.mobileNumber, role := u.role }

/-- The provider object returned by a successful verification. -/
def providerView (s : Store) (p : Provider) : ProviderView :=
  { _id := p._id, blockchainProviderId := p.blockchainProviderId, age := p.age,
    serviceType := p.serviceType, specialization := p.specialization,
    identityProof := p.identityProof, serviceArea := p.serviceArea,
    availableTimings := p.availableTimings, experienceYears := p.experienceYears,
    rating := p.rating, totalJobs := p.totalJobs, emergencyService := p.emergencyService,
    user := (s.findUser p.user).map userView }

/-! ## Handlers of `routes/bookingRoutes.js` -/

/-- `POST /api/bookings/:id/complete`. -/
def completeBooking (s : Store) (cred : Credential) (id : ObjId) (now : Nat) : Outcome :=
  withAuth s cred fun user =>
    match s.findProviderByUser user.id with
    | none => refuse s 403 "Only providers can complete bookings"
    | some provider =>
      match s.findBookingOfProvider id provider._id with
      | none => refuse s 404 "Booking not found"
      | some found =>
        let booking := { found with status := .completed }
        { store := s.saveBooking booking
          trace := [.write .bookings booking._id,
                    .emit (.booking id) (.statusChanged id .completed now)]
          res := { status := 200, body := .booking booking } }

/-- `POST /api/bookings/:id/confirm-price`. -/
def confirmPrice (s : Store) (cred : Credential) (id : ObjId) (accepted : Bool)
    (now : Nat) : Outcome :=
  withAuth s cred fun user =>
    match s.findCustomerByUser user.id with
    | none => refuse s 403 "Only customers can confirm price"
    | some customer =>
      match s.findBookingOfCustomer id customer._id with
      | none => refuse s 404 "Booking not found"
      | some found =>
        if accepted then
          let booking := { found with isPriceAccepted := true, isLocationShared := true }
          let notify : List Effect :=
            match s.findProviderById booking.provider with
            | some provider => [.emit (.user provider.user) (.priceConfirmed id now)]
            | none => []
          { store := s.saveBooking booking
            trace := notify ++ [.write .bookings booking._id]
            res := { status := 200, body := .booking booking } }
        else
          let booking := { found with status := .rejected, isPriceAccepted := false }
          { store := s.saveBooking booking
            trace := [.write .bookings booking._id]
            res := { status := 200, body := .booking booking } }

/-- `POST /api/bookings/:id/generate-qr`. -/
def generateQr (s : Store) (cred : Credential) (id : ObjId) (now : Nat) : Outcome :=
  withAuth s cred fun user =>
    match s.findProviderByUser user.id with
    | none => refuse s 403 "Only providers can generate QR"
    | some provider =>
      match s.findBookingOfProvider id provider._id with
      | none => refuse s 404 "Booking not found"
      | some found =>
        match s.findUser provider.user with
        | none => throwErr s [] .typeError
        | some owner =>
          let payload : QrPayload :=
            { bookingId := some found._id
              providerId := some provider._id
              blockchainProviderId := some provider.blockchainProviderId
              name := some owner.fullName
              serviceType := some provider.serviceType
              specialization := some provider.specialization
              experience := some provider.experienceYears
              rating := some provider.rating
              timestamp := some now }
          let payloadString := jsonStringify payload
          let booking := { found with verificationQrData := some payloadString }
          { store := s.saveBooking booking
            trace := [.write .bookings booking._id]
            res := { status := 200, body := .qr payloadString } }

/-- `POST /api/bookings/verify-qr`. -/
def verifyQr (s : Store) (cred : Credential) (qrData : QrText) (now : Nat) : Outcome :=
  withAuth s cred fun _ =>
    if qrData = .empty then refuse s 400 "Missing qrData"
    else
      match jsonParse qrData with
      | none => throwErr s [] .syntaxError
      | some parsed =>
        match parsed.bookingId with
        | none => refuse s 400 "Invalid QR payload: missing bookingId"
        | some bookingId =>
          match s.findBookingById bookingId with
          | none => refuse s 404 "Booking not found"
          | some found =>
            let provider := s.findProviderById found.provider
            if provider.map (fun p => p._id) ≠ parsed.providerId ∨
                provider.map (fun p => p.blockchainProviderId) ≠ parsed.blockchainProviderId then
              refuse s 400 "QR verification failed"
            else
              let booking := { found with verifiedAt := some now }
              { store := s.saveBooking booking
                trace := [.write .bookings booking._id]
                res := { status := 200
                         body := .verified booking._id
                           (provider.map (fun p => p.currentLocation))
                           (provider.map (providerView s)) } }

/-- `POST /api/bookings/:id/review`. -/
def submitReview (s : Store) (cred : Credential) (id : ObjId) (rating : Option ℚ)
    (review : Option String) : Outcome :=
  withAuth s cred fun user =>
    match s.findCustomerByUser user.id with
    | none => refuse s 403 "Only customers can submit reviews"
    | some customer =>
      match s.findBookingOfCustomer id customer._id with
      | none => refuse s 404 "Booking not found"
      | some found =>
        if found.status ≠ .completed then refuse s 400 "Can only review completed bookings"
        else
          let booking := { found with rating := rating, review := review }
          if ratingValid booking.rating = false then throwErr s [] .validationError
          else
            let s1 := s.saveBooking booking
            match s1.findProviderById booking.provider with
            | none =>
              { store := s1
                trace := [.write .bookings booking._id]
                res := { status := 200
                         body := .reviewed "Review submitted successfully" booking } }
            | some p =>
              let counted := { p with ratingCount := p.ratingCount + 1 }
              match rating with
              -- `undefined - provider.rating` is `NaN`, which `provider.save()` rejects
              | none => throwErr s1 [.write .bookings booking._id] .validationError
              | some r =>
                let provider :=
                  { counted with
                    rating := counted.rating + (r - counted.rating) / counted.ratingCount }
                { store := s1.saveProvider provider
                  trace := [.write .bookings booking._id, .write .providers provider._id]
                  res := { status := 200
                           body := .reviewed "Review submitted successfully" booking } }

/-! ## Handler of `routes/providerRoutes.js` -/

/-- The message of the customer notification, from the saved booking. -/
def notifyMessage (b : Booking) : NotifyMessage :=
  match b.priceRange.min with
  | some lo =>
    if lo ≠ 0 then .withRange b.status lo b.priceRange.max
    else if b.amount ≠ 0 then .forAmount b.status b.amount
    else .plain b.status
  | none => if b.amount ≠ 0 then .forAmount b.status b.amount else .plain b.status

/-- The tail of the decision handler (lines 152-183): save, emit to the
booking room, notify the customer when `populate('customer')` resolved. -/
def decisionCommit (s : Store) (bookingId : ObjId) (booking : Booking) (now : Nat) : Outcome :=
  let notify : List Effect :=
    match s.findCustomerById booking.customer with
    | some customer =>
      [.emit (.user customer.user)
        (.notification bookingId booking.status (notifyMessage booking) booking.amount
          booking.priceRange now)]
    | none => []
  { store := s.saveBooking booking
    trace := [.write .bookings booking._id,
              .emit (.booking bookingId) (.statusChanged bookingId booking.status now)] ++ notify
    res := { status := 200, body := .booking booking } }

/-- `POST /api/providers/jobs/:bookingId/decision`. -/
def jobDecision (s : Store) (cred : Credential) (bookingId : ObjId) (decision : String)
    (amount priceMin priceMax : Option ℚ) (now : Nat) : Outcome :=
  withRole s cred .provider fun user =>
    match s.findProviderByUser user.id with
    | none => refuse s 404 "Provider profile not found"
    | some provider =>
      match s.findBookingOfEither bookingId provider._id provider.user with
      | none => refuse s 404 "Booking not found"
      | some found =>
        if decision = "accept" then
          let accepted := { found with status := .accepted }
          let booking :=
            if truthy priceMin ∧ truthy priceMax then
              { accepted with
                priceRange := { min := priceMin, max := priceMax }
                isPriceAccepted := false
                isLocationShared := true }
            else if truthy amount then
              { accepted with amount := amount.getD 0, isLocationShared := true }
            else accepted
          decisionCommit s bookingId booking now
        else if decision = "reject" then
          decisionCommit s bookingId { found with status := .rejected } now
        else refuse s 400 "Invalid decision"

/-! ## Handler of `routes/payoutRoutes.js` -/

/-- `POST /api/payouts/wallet/booking/:bookingId/pay`; `txId` and `txHash`
are the id of the ledger entry and the hash returned by
`recordWalletTransactionOnChain`. -/
def payBooking (s : Store) (cred : Credential) (bookingId : ObjId) (amount : Option ℚ)
    (method : Option String) (txId : ObjId) (txHash : String) (now : Nat) : Outcome :=
  withAuth s cred fun _ =>
    match s.findBookingById bookingId with
    | none => refuse s 404 "Booking not found"
    | some found =>
      let methodName : String :=
        match method with
        | some m => if m = "" then "offline" else m
        | none => "offline"
      let newAmount : ℚ := if truthy amount then amount.getD 0 else found.amount
      match parsePaymentMethod methodName with
      | none => throwErr s [] .validationError
      | some pm =>
        let booking :=
          { found with paymentMethod := some pm, amount := newAmount, paymentStatus := .paid }
        let s1 := s.saveBooking booking
        if method = some "blockchain" then
          match s1.findProviderById booking.provider with
          -- `provider.user` on `null`
          | none => throwErr s1 [.write .bookings booking._id] .typeError
          | some provider =>
            let tx : WalletTransaction :=
              { _id := txId
                user := provider.user
                booking := some booking._id
                direction := .incoming
                amount := booking.amount
                blockchainTxHash := some txHash
                status := .confirmed
                createdAt := now }
            { store := s1.createWalletTransaction tx
              trace := [.write .bookings booking._id, .write .walletTransactions tx._id]
              res := { status := 200, body := .paid booking (some tx) } }
        else
          { store := s1
            trace := [.write .bookings booking._id]
            res := { status := 200, body := .paid booking none } }

/-! ## Handler of `routes/customerRoutes.js` -/

/-- The insurance premium, `insuranceCost = 49`. -/
def insuranceCost : ℚ := 49

/-- `POST /api/customers/bookings`; `newId` is the id of the created
document, `rnd` is `Math.floor(Math.random() * 1000)`. -/
def createBooking (s : Store) (cred : Credential) (providerId : Option ObjId)
    (description : Option String) (scheduledTime : Option Nat) (amount : Option ℚ)
    (serviceType : Option String) (insuranceOpted : Bool) (newId : ObjId) (now rnd : Nat) :
    Outcome :=
  withRole s cred .customer fun user =>
    match providerId, description with
    | some providerId, some description =>
      if description = "" then refuse s 400 "Missing provider or description"
      else
        match s.findCustomerByUser user.id with
        | none => refuse s 404 "Customer profile not found"
        | some customer =>
          -- normalize provider reference: accept either Provider._id or User._id
          let resolved :=
            match s.findProviderById providerId with
            | some p => some p
            | none => s.findProviderByUser providerId
          match resolved with
          | none => refuse s 404 "Provider not found"
          | some provider =>
            let requested : ℚ := if truthy amount then amount.getD 0 else 0
            let insuranceData : Insurance :=
              if insuranceOpted then
                { opted := true
                  cost := insuranceCost
                  policyId := some ("INS-" ++ toString now ++ "-" ++ toString rnd)
                  coverageDetails := some "Standard Protection: Damage, Injury, Fraud" }
              else { opted := false, cost := 0, policyId := none, coverageDetails := none }
            let finalAmount : ℚ :=
              if insuranceOpted then requested + insuranceCost else requested
            let booking : Booking :=
              { _id := newId
                customer := customer._id
                provider := provider._id
                serviceType := serviceType
                description := description
                status := .pending
                scheduledTime := scheduledTime
                priceRange := { min := none, max := none }
                isPriceAccepted := false
                isLocationShared := false
                insurance := insuranceData
                providerLocationSnapshots := []
                verificationQrData := none
                verifiedAt := none
                paymentMethod := none
                paymentStatus := .pending
                amount := finalAmount
                rating := none
                review := none
                createdAt := now }
            let notify : List Effect :=
              match s.findUser provider.user with
              | some owner =>
                [.emit (.user owner._id)
                  (.newRequest booking._id customer._id booking.description booking.serviceType
                    booking.amount now)]
              | none => []
            { store := s.createBooking booking
              trace := [.write .bookings booking._id] ++ notify
              res := { status := 201, body := .booking booking } }
    | _, _ => refuse s 400 "Missing provider or description"

/-- `GET /api/customers/bookings/:bookingId/tracking`. -/
def getTracking (s : Store) (cred : Credential) (bookingId : ObjId) : Outcome :=
  withRole s cred .customer fun user =>
    match s.findCustomerByUser user.id with
    | none => refuse s 404 "Customer profile not found"
    | some customer =>
      match s.findBookingOfCustomer bookingId customer._id with
      | none => refuse s 404 "Booking not found"
      | some booking =>
        -- check if location sharing is allowed
        if booking.isLocationShared = false ∧ booking.status ≠ .in_progress ∧
            booking.status ≠ .completed then
          refuse s 403 "Location sharing not active yet"
        else
          match s.findProviderById booking.provider with
          -- `booking.provider.currentLocation` on `null`
          | none => throwErr s [] .typeError
          | some provider =>
            { store := s
              trace := []
              res := { status := 200
                       body := .tracking provider.currentLocation provider._id
                         provider.blockchainProviderId booking.status } }

/-! ## More handlers of `routes/providerRoutes.js` and `routes/payoutRoutes.js` -/

/-- `GET /api/providers/jobs`: the bookings that refer to the provider by
profile id or by user id, `sort({ createdAt: -1 })`. -/
def getJobs (s : Store) (cred : Credential) : Outcome :=
  withRole s cred .provider fun user =>
    match s.findProviderByUser user.id with
    | none => refuse s 404 "Provider profile not found"
    | some provider =>
      let jobs :=
        (s.bookings.filter
          (fun b => b.provider = provider._id ∨ b.provider = provider.user)).insertionSort
          (fun a b => b.createdAt ≤ a.createdAt)
      { store := s, trace := [], res := { status := 200, body := .jobs jobs } }

/-- A string request value that is truthy: present and not empty. -/
def truthyText (x : Option String) : Option String :=
  match x with
  | some t => if t = "" then none else some t
  | none => none

/-- The text of a document id (`toString()` of an `ObjectId`). -/
def idText (id : ObjId) : String := toString id

/-- `POST /api/providers/verify-qr`, the verification of a provider's
digital-id QR without a booking. -/
def providerVerifyQr (s : Store) (cred : Credential) (qrData : QrText) : Outcome :=
  withAuth s cred fun _ =>
    if qrData = .empty then refuse s 400 "Missing qrData"
    else
      let blockchainProviderId : Option String :=
        match jsonParse qrData with
        | some parsed =>
          match truthyText parsed.blockchainProviderId with
          | some t => some t
          | none => parsed.providerId.map idText
        | none =>
          -- not JSON: treat qrData as the blockchain provider id
          match qrData with
          | .notJson raw => truthyText (some raw)
          | _ => none
      match blockchainProviderId with
      | none => refuse s 400 "Invalid QR payload"
      | some key =>
        match s.providers.find? (fun p => p.blockchainProviderId = key) with
        | none => refuse s 404 "Provider not found"
        | some provider =>
          { store := s
            trace := []
            res := { status := 200
                     body := .providerVerified provider.currentLocation
                       (providerView s provider) } }

/-! ### Addition of two `Number`s

A finite `Number` is a binary64 value: a rational `m * 2 ^ e` with `m` an
integer, `|m| < 2 ^ 53` and `-1074 ≤ e`, of magnitude below `2 ^ 1024`.  The
sum of two of them is their exact sum rounded to the nearest binary64 value,
a tie going to the value with the even `m`.  Sums of magnitude `2 ^ 1024` and
more (`Infinity`) are outside the model. -/

/-- The integer nearest to `q`, a tie going to the even one. -/
def roundHalfEven (q : ℚ) : ℤ :=
  let f := ⌊q⌋
  let d := q - f
  if d < 1 / 2 then f else if 1 / 2 < d then f + 1 else if f % 2 = 0 then f else f + 1

/-- The number of times `n` can be halved before it falls below 2, which for
`1 ≤ n ≤ fuel` is `⌊log₂ n⌋`. -/
def log2Floor : Nat → Nat → Nat
  | 0, _ => 0
  | fuel + 1, n => if 2 ≤ n then log2Floor fuel (n / 2) + 1 else 0

/-- For `q ≠ 0`, the exponent `e` with `2 ^ e ≤ |q| < 2 ^ (e + 1)`: the
difference of the binary logarithms of numerator and denominator, or one
less. -/
def binExponent (q : ℚ) : ℤ :=
  let e0 : ℤ := (log2Floor q.num.natAbs q.num.natAbs : ℤ) - (log2Floor q.den q.den : ℤ)
  if (2 : ℚ) ^ e0 ≤ |q| then e0 else e0 - 1

/-- The binary64 value nearest to `q`, a tie going to the even significand.
With `e` the exponent of `q`, at least `-1022` (below it the values are
subnormal and equally spaced), the values near `q` are the multiples of
`2 ^ (e - 52)`. -/
def toDouble (q : ℚ) : ℚ :=
  if q = 0 then 0
  else
    let e := max (binExponent q) (-1022)
    let ulp : ℚ := 2 ^ (e - 52)
    (roundHalfEven (q / ulp) : ℚ) * ulp

/-- The value of `a + b` for two `Number`s `a` and `b`. -/
def jsAdd (a b : ℚ) : ℚ := toDouble (a + b)

/-- The balance the withdraw and payout handlers compute:
`txs.reduce((sum, t) => sum + (t.direction === 'in' ? t.amount : -t.amount), 0)`
over `WalletTransaction.find({ user })`. -/
def ledgerBalance (s : Store) (user : ObjId) : ℚ :=
  (s.walletTransactions.filter (fun t => t.user = user)).foldl
    (fun sum t => jsAdd sum (if t.direction = .incoming then t.amount else -t.amount)) 0

/-- The common body of `POST /wallet/withdraw` and `POST /wallet/payout`; the
`description` the two handlers pass is not a path of the schema and is not
stored. -/
def recordDebit (s : Store) (cred : Credential) (amount : Option ℚ) (newId : ObjId)
    (now : Nat) : Outcome :=
  withAuth s cred fun user =>
    match amount with
    | none => refuse s 400 "Invalid amount"
    | some a =>
      if a = 0 ∨ a ≤ 0 then refuse s 400 "Invalid amount"
      else if ledgerBalance s user.id < a then refuse s 400 "Insufficient balance"
      else
        let tx : WalletTransaction :=
          { _id := newId
            user := user.id
            booking := none
            direction := .outgoing
            amount := a
            blockchainTxHash := none
            status := .confirmed
            createdAt := now }
        { store := s.createWalletTransaction tx
          trace := [.write .walletTransactions tx._id]
          res := { status := 200, body := .transaction tx } }

/-- `POST /api/payouts/wallet/withdraw`. -/
def walletWithdraw (s : Store) (cred : Credential) (amount : Option ℚ) (newId : ObjId)
    (now : Nat) : Outcome :=
  recordDebit s cred amount newId now

/-- `POST /api/payouts/wallet/payout`. -/
def walletPayout (s : Store) (cred : Credential) (amount : Option ℚ) (newId : ObjId)
    (now : Nat) : Outcome :=
  recordDebit s cred amount newId now

/-! ## Handler of `routes/claimRoutes.js` -/

/-- `POST /api/claims`; `newId` is the id of the created document. -/
def createClaim (s : Store) (cred : Credential) (bookingId : Option ObjId)
    (type description : Option String) (evidenceImages : Option (List String))
    (newId : ObjId) (now : Nat) : Outcome :=
  withRole s cred .customer fun user =>
    match s.findCustomerByUser user.id with
    | none => refuse s 404 "Customer profile not found"
    | some customer =>
      match bookingId.bind (fun id => s.findBookingOfCustomer id customer._id) with
      | none => refuse s 404 "Booking not found"
      | some booking =>
        if booking.insurance.opted = false then refuse s 400 "This booking is not insured."
        else
          -- check if claim already exists for this booking
          match s.findClaimByBooking booking._id with
          | some _ => refuse s 400 "A claim has already been raised for this booking."
          | none =>
            -- schema validation of `InsuranceClaim.create`: required policyId,
            -- required type of the enum, required description
            match booking.insurance.policyId, type.bind parseClaimType, description with
            | some policyId, some claimType, some text =>
              if policyId = "" ∨ text = "" then throwErr s [] .validationError
              else
                let claim : InsuranceClaim :=
                  { _id := newId
                    booking := booking._id
                    customer := customer._id
                    policyId := policyId
                    type := claimType
                    description := text
                    evidenceImages := evidenceImages.getD []
                    status := .pending
                    adminComments := none
                    refundAmount := none
                    createdAt := now }
                { store := s.createClaim claim
                  trace := [.write .claims claim._id]
                  res := { status := 201, body := .claim claim } }
            | _, _, _ => throwErr s [] .validationError

/-! ## The operations as one transition function -/

/-- A request to one of the booking-affecting routes, with the values the
environment contributes to it (fresh ids, random suffix, settlement
hash). -/
inductive Request where
  | createBooking (providerId : Option ObjId) (description : Option String)
      (scheduledTime : Option Nat) (amount : Option ℚ) (serviceType : Option String)
      (insuranceOpted : Bool) (newId : ObjId) (rnd : Nat)
  | decision (bookingId : ObjId) (decision : String) (amount priceMin priceMax : Option ℚ)
  | confirmPrice (id : ObjId) (accepted : Bool)
  | complete (id : ObjId)
  | generateQr (id : ObjId)
  | verifyQr (qrData : QrText)
  | review (id : ObjId) (rating : Option ℚ) (review : Option String)
  | pay (bookingId : ObjId) (amount : Option ℚ) (method : Option String) (txId : ObjId)
      (txHash : String)
  | createClaim (bookingId : Option ObjId) (type description : Option String)
      (evidenceImages : Option (List String)) (newId : ObjId)

/-- The server handling one request of caller `cred` at time `now`. -/
def step (s : Store) (cred : Credential) (now : Nat) : Request → Outcome
  | .createBooking providerId description scheduledTime amount serviceType insuranceOpted
      newId rnd =>
    createBooking s cred providerId description scheduledTime amount serviceType
      insuranceOpted newId now rnd
  | .decision bookingId decision amount priceMin priceMax =>
    jobDecision s cred bookingId decision amount priceMin priceMax now
  | .confirmPrice id accepted => confirmPrice s cred id accepted now
  | .complete id => completeBooking s cred id now
  | .generateQr id => generateQr s cred id now
  | .verifyQr qrData => verifyQr s cred qrData now
  | .review id rating review => submitReview s cred id rating review
  | .pay bookingId amount method txId txHash =>
    payBooking s cred bookingId amount method txId txHash now
  | .createClaim bookingId type description evidenceImages newId =>
    createClaim s cred bookingId type description evidenceImages newId now

/-! ## Properties stated by the specification -/

/-- Acceptance unlocks sharing, for one booking. -/
def Booking.AcceptanceUnlocksSharing (b : Booking) : Prop :=
  b.isPriceAccepted = true → b.isLocationShared = true

/-- Acceptance unlocks sharing, for every stored booking. -/
def Store.AcceptanceUnlocksSharing (s : Store) : Prop :=
  ∀ b ∈ s.bookings, b.AcceptanceUnlocksSharing

instance (b : Booking) : Decidable b.AcceptanceUnlocksSharing :=
  inferInstanceAs (Decidable (b.isPriceAccepted = true → b.isLocationShared = true))

instance (s : Store) : Decidable s.AcceptanceUnlocksSharing :=
  inferInstanceAs (Decidable (∀ b ∈ s.bookings, b.AcceptanceUnlocksSharing))

/-! ## Sequences of reviews -/

/-- The arguments of one `POST /:id/review` that carries a numeric rating. -/
structure ReviewRequest where
  cred : Credential
  id : ObjId
  rating : ℚ
  review : Option String

/-- Reviews submitted one after another, each answered with status 200;
`none` as soon as one of them is not. -/
def submitReviews (s : Store) : List ReviewRequest → Option Store
  | [] => some s
  | q :: qs =>
    let o := submitReview s q.cred q.id (some q.rating) q.review
    if o.res.status = 200 then submitReviews o.store qs else none

/-! ## The gate of claim creation -/

/-- The three conditions the specification puts on claim creation: the
referenced booking exists, its customer reference is the customer profile of
the caller, and its `insurance.opted` is true. -/
def claimGate (s : Store) (cred : Credential) (bookingId : Option ObjId) : Prop :=
  ∃ user customer b, authRequired s cred = .ok user ∧
    s.findCustomerByUser user.id = some customer ∧
    b ∈ s.bookings ∧ bookingId = some b._id ∧ b.customer = customer._id ∧
    b.insurance.opted = true

/-! ## A concrete store

The scenario of `backend/test_booking_flow.js`, continued: a registered
provider and a registered customer, with bookings of the customer at
different points of the lifecycle. -/

/-- The provider's user account. -/
def providerUser : User :=
  { _id := 1, fullName := "Test Provider", mobileNumber := "9990000001",
    passwordHash := "hash-p", role := .provider }

/-- The customer's user account. -/
def customerUser : User :=
  { _id := 2, fullName := "Test Customer", mobileNumber := "8880000002",
    passwordHash := "hash-c", role := .customer }

/-- The provider profile of `providerUser`, with two ratings averaging 4. -/
def testProvider : Provider :=
  { _id := 10, user := 1, age := 30, serviceType := "Home Repair & Maintenance",
    specialization := "", identityProof := "", serviceArea := "Mumbai",
    availableTimings := "9-5", experienceYears := 0, rating := 4, ratingCount := 2,
    totalJobs := 0, blockchainProviderId := "prov_0123456789abcdef",
    emergencyService := false, currentLocation := { lat := none, lng := none } }

/-- The customer profile of `customerUser`. -/
def testCustomer : Customer :=
  { _id := 20, user := 2, email := "test@example.com", servicePreference := "home",
    address := "Test Address", location := { lat := none, lng := none }, walletBalance := 0 }

/-- A pending, uninsured booking as `POST /bookings` creates it. -/
def pendingBooking : Booking :=
  { _id := 32, customer := 20, provider := 10,
    serviceType := some "Home Repair & Maintenance", description := "Fix my leak",
    status := .pending, scheduledTime := some 1700000000000,
    priceRange := { min := none, max := none }, isPriceAccepted := false,
    isLocationShared := false,
    insurance := { opted := false, cost := 0, policyId := none, coverageDetails := none },
    providerLocationSnapshots := [], verificationQrData := none, verifiedAt := none,
    paymentMethod := none, paymentStatus := .pending, amount := 0, rating := none,
    review := none, createdAt := 1700000000300 }

/-- A booking the provider accepted with the price range 500 to 800. -/
def acceptedBooking : Booking :=
  { pendingBooking with
    _id := 31, status := .accepted, priceRange := { min := some 500, max := some 800 },
    isLocationShared := true, createdAt := 1700000000200 }

/-- A completed, insured booking that has not been reviewed. -/
def completedBooking : Booking :=
  { pendingBooking with
    _id := 30, status := .completed, isPriceAccepted := true, isLocationShared := true,
    insurance :=
      { opted := true, cost := 49, policyId := some "INS-1700000000100-42",
        coverageDetails := some "Standard Protection: Damage, Injury, Fraud" },
    amount := 49, createdAt := 1700000000100 }

/-- The store of the scenario. -/
def testStore : Store :=
  { users := [providerUser, customerUser]
    providers := [testProvider]
    customers := [testCustomer]
    bookings := [completedBooking, acceptedBooking, pendingBooking]
    claims := []
    walletTransactions := [] }

/-- A provider profile that has not been rated yet. -/
def unratedProvider : Provider := { testProvider with rating := 0, ratingCount := 0 }

/-- A store with an unrated provider and five completed bookings of the
customer. -/
def reviewStore : Store :=
  { testStore with
    providers := [unratedProvider]
    bookings :=
      [{ completedBooking with _id := 41 }, { completedBooking with _id := 42 },
       { completedBooking with _id := 43 }, { completedBooking with _id := 44 },
       { completedBooking with _id := 45 }] }

/-- Five reviews of the customer, one per completed booking. -/
def fiveReviews : List ReviewRequest :=
  [{ cred := .token 2, id := 41, rating := 5, review := some "Great" },
   { cred := .token 2, id := 42, rating := 4, review := none },
   { cred := .token 2, id := 43, rating := 3, review := some "Late" },
   { cred := .token 2, id := 44, rating := 5, review := none },
   { cred := .token 2, id := 45, rating := 4, review := some "Fine" }]

/-- The payload generate-qr produces for the accepted booking 31 of the
scenario at time 1700000000700. -/
def genuinePayload : QrPayload :=
  { bookingId := some 31, providerId := some 10
    blockchainProviderId := some "prov_0123456789abcdef", name := some "Test Provider"
    serviceType := some "Home Repair & Maintenance", specialization := some ""
    experience := some 0, rating := some 4, timestamp := some 1700000000700 }

/-! ## Status vocabulary of the specification -/

/-- The gate of the tracking read: sharing is on, or the job is under way or
done. -/
def Booking.locationVisible (b : Booking) : Prop :=
  b.isLocationShared = true ∨ b.status = .in_progress ∨ b.status = .completed

instance (b : Booking) : Decidable b.locationVisible :=
  inferInstanceAs (Decidable (_ ∨ _ ∨ _))

/-- The terminal states of the specification: rejected, completed,
cancelled. -/
def Status.terminal : Status → Bool
  | .rejected => true
  | .completed => true
  | .cancelled => true
  | _ => false

/-- The requests whose handler assigns no booking status: review, pay,
generate-qr, booking verify-qr, and confirm-price with `accepted = true`. -/
def Request.assignsNoStatus : Request → Bool
  | .review _ _ _ => true
  | .pay _ _ _ _ _ => true
  | .generateQr _ => true
  | .verifyQr _ => true
  | .confirmPrice _ accepted => accepted
  | _ => false

/-! ## A store with a booking that refers to its provider by user id -/

/-- An accepted booking whose `provider` field holds the user id of the
provider (1) in place of the profile id (10), the case the `$or` queries of
`providerRoutes.js` and `fix_bookings.js` are written for. -/
def legacyBooking : Booking := { acceptedBooking with _id := 34, provider := 1 }

/-- The scenario store with the legacy booking added. -/
def legacyStore : Store :=
  { testStore with
    bookings := [completedBooking, acceptedBooking, pendingBooking, legacyBooking] }

/-- The user account of a second provider. -/
def otherProviderUser : User :=
  { _id := 3, fullName := "Other Provider", mobileNumber := "9990000003",
    passwordHash := "hash-o", role := .provider }

/-- The provider profile of `otherProviderUser`. -/
def otherProvider : Provider :=
  { testProvider with _id := 11, user := 3, blockchainProviderId := "prov_fedcba9876543210" }

/-- The store of the legacy booking with the second provider registered. -/
def twoProviderStore : Store :=
  { legacyStore with
    users := [providerUser, customerUser, otherProviderUser]
    providers := [testProvider, otherProvider] }

/-- The booking `B` is still stored in `s'`, and every booking stored in `s'`
under `B`'s id has `B`'s status. -/
def Store.KeepsStatusOf (s' : Store) (B : Booking) : Prop :=
  (∀ x ∈ s'.bookings, x._id = B._id → x.status = B.status) ∧
  ∃ x ∈ s'.bookings, x._id = B._id

/-! ## Vocabulary of the wallet, listing, display and amount properties -/

/-- The signed amount of a ledger entry: `+amount` for direction `in`,
`-amount` for `out`. -/
def WalletTransaction.signed (t : WalletTransaction) : ℚ :=
  if t.direction = .incoming then t.amount else -t.amount

/-- The balance as the specification defines it: the sum of the signed
amounts of the user's entries. -/
def derivedBalance (ledger : List WalletTransaction) (user : ObjId) : ℚ :=
  ((ledger.filter (fun t => t.user = user)).map WalletTransaction.signed).sum

/-- No partial sum of the user's signed amounts, taken in the order of the
ledger, needs rounding: each is a binary64 value. -/
def sumsUnrounded (ledger : List WalletTransaction) (user : ObjId) : Prop :=
  ∀ p ∈ (ledger.filter (fun t => t.user = user)).inits,
    toDouble ((p.map WalletTransaction.signed).sum) = (p.map WalletTransaction.signed).sum

instance (ledger : List WalletTransaction) (user : ObjId) :
    Decidable (sumsUnrounded ledger user) :=
  inferInstanceAs (Decidable (∀ p ∈
    (ledger.filter (fun t : WalletTransaction => t.user = user)).inits,
    toDouble ((p.map WalletTransaction.signed).sum) = (p.map WalletTransaction.signed).sum))

/-- The user's amounts are whole numbers and their absolute values sum to
less than `2 ^ 53`, the range in which every whole number is a binary64
value. -/
def wholeAmounts (ledger : List WalletTransaction) (user : ObjId) : Prop :=
  (∀ t ∈ ledger.filter (fun t => t.user = user), t.amount.den = 1) ∧
  ((ledger.filter (fun t => t.user = user)).map (fun t => |t.amount|)).sum < 2 ^ 53

instance (ledger : List WalletTransaction) (user : ObjId) :
    Decidable (wholeAmounts ledger user) :=
  inferInstanceAs (Decidable
    ((∀ t ∈ ledger.filter (fun t : WalletTransaction => t.user = user), t.amount.den = 1) ∧
      ((ledger.filter (fun t : WalletTransaction => t.user = user)).map
        (fun t => |t.amount|)).sum < 2 ^ 53))

/-- A user document with the password hash blanked. -/
def User.withoutPassword (u : User) : User := { u with passwordHash := "" }

/-- Two stores that differ at most in the `passwordHash` values of their
users. -/
def Store.SameUpToPasswords (s1 s2 : Store) : Prop :=
  s1.users.map User.withoutPassword = s2.users.map User.withoutPassword ∧
  s1.providers = s2.providers ∧ s1.customers = s2.customers ∧ s1.bookings = s2.bookings ∧
  s1.claims = s2.claims ∧ s1.walletTransactions = s2.walletTransactions

/-- Every stored booking has a non-negative amount. -/
def Store.AmountsNonneg (s : Store) : Prop := ∀ b ∈ s.bookings, 0 ≤ b.amount

instance (s : Store) : Decidable s.AmountsNonneg :=
  inferInstanceAs (Decidable (∀ b ∈ s.bookings, 0 ≤ b.amount))

/-- The amount a request asks to store on a booking, when it carries one. -/
def Request.amountInput : Request → Option ℚ
  | .createBooking _ _ _ amount _ _ _ _ => amount
  | .decision _ _ amount _ _ => amount
  | .pay _ amount _ _ _ => amount
  | _ => none

/-- The scenario store with a ledger of the customer: 500 in, 200 out. -/
def walletStore : Store :=
  { testStore with
    walletTransactions :=
      [{ _id := 70, user := 2, booking := none, direction := .incoming, amount := 500
         blockchainTxHash := none, status := .confirmed, createdAt := 1700000000010 },
       { _id := 71, user := 2, booking := none, direction := .outgoing, amount := 200
         blockchainTxHash := none, status := .confirmed, createdAt := 1700000000020 },
       { _id := 72, user := 1, booking := none, direction := .incoming, amount := 900
         blockchainTxHash := none, status := .confirmed, createdAt := 1700000000030 }] }

/-- The `Number` the JSON text `0.1` is read as: the binary64 value nearest
to one tenth, `0.1000000000000000055511151231257827…`. -/
def tenth : ℚ := 3602879701896397 / 36028797018963968

/-- A deposit of `0.1` as `POST /wallet/deposit` records it for the customer. -/
def tenthDeposit (id : ObjId) : WalletTransaction :=
  { _id := id, user := 2, booking := none, direction := .incoming, amount := tenth
    blockchainTxHash := none, status := .confirmed, createdAt := 1700000000000 + id }

/-- The scenario store after ten deposits of `0.1` by the customer. -/
def tenthsStore : Store :=
  { testStore with
    walletTransactions := (List.range 10).map (fun i => tenthDeposit (80 + i)) }

/-- The scenario store with other password hashes. -/
def rehashedStore : Store :=
  { testStore with
    users := [{ providerUser with passwordHash := "other-p" },
              { customerUser with passwordHash := "other-c" }] }

/-! ## Lemmas on the store operations -/

theorem mem_saveBooking {s : Store} {x b : Booking} (h : b ∈ (s.saveBooking x).bookings) :
    b = x ∨ b ∈ s.bookings := by
  simp only [Store.saveBooking, List.mem_map] at h
  obtain ⟨y, hy, rfl⟩ := h
  by_cases hid : y._id = x._id
  · left; simp [hid]
  · right; simpa [hid] using hy

theorem sharing_saveBooking {s : Store} {x : Booking} (h : s.AcceptanceUnlocksSharing)
    (hx : x.AcceptanceUnlocksSharing) : (s.saveBooking x).AcceptanceUnlocksSharing := by
  intro b hb
  rcases mem_saveBooking hb with rfl | hmem
  · exact hx
  · exact h b hmem

theorem sharing_createBooking {s : Store} {x : Booking} (h : s.AcceptanceUnlocksSharing)
    (hx : x.AcceptanceUnlocksSharing) : (s.createBooking x).AcceptanceUnlocksSharing := by
  intro b hb
  simp only [Store.createBooking, List.mem_append, List.mem_singleton] at hb
  rcases hb with hmem | rfl
  · exact h b hmem
  · exact hx

theorem mem_of_findBookingById {s : Store} {id : ObjId} {b : Booking}
    (h : s.findBookingById id = some b) : b ∈ s.bookings :=
  List.mem_of_find?_eq_some h

theorem mem_of_findBookingOfCustomer {s : Store} {id c : ObjId} {b : Booking}
    (h : s.findBookingOfCustomer id c = some b) : b ∈ s.bookings :=
  List.mem_of_find?_eq_some h

theorem mem_of_findBookingOfProvider {s : Store} {id p : ObjId} {b : Booking}
    (h : s.findBookingOfProvider id p = some b) : b ∈ s.bookings :=
  List.mem_of_find?_eq_some h

theorem mem_of_findBookingOfEither {s : Store} {id p q : ObjId} {b : Booking}
    (h : s.findBookingOfEither id p q = some b) : b ∈ s.bookings :=
  List.mem_of_find?_eq_some h

/-! ## Acceptance unlocks sharing, handler by handler -/

theorem sharing_completeBooking (s : Store) (cred : Credential) (id : ObjId) (now : Nat)
    (h : s.AcceptanceUnlocksSharing) :
    (completeBooking s cred id now).store.AcceptanceUnlocksSharing := by
  unfold completeBooking withAuth
  cases authRequired s cred with
  | error r => exact h
  | ok user =>
    simp only
    cases s.findProviderByUser user.id with
    | none => exact h
    | some provider =>
      simp only
      cases hb : s.findBookingOfProvider id provider._id with
      | none => exact h
      | some found =>
        exact sharing_saveBooking h (h found (mem_of_findBookingOfProvider hb))

theorem sharing_confirmPrice (s : Store) (cred : Credential) (id : ObjId) (accepted : Bool)
    (now : Nat) (h : s.AcceptanceUnlocksSharing) :
    (confirmPrice s cred id accepted now).store.AcceptanceUnlocksSharing := by
  unfold confirmPrice withAuth
  cases authRequired s cred with
  | error r => exact h
  | ok user =>
    simp only
    cases s.findCustomerByUser user.id with
    | none => exact h
    | some customer =>
      simp only
      cases hb : s.findBookingOfCustomer id customer._id with
      | none => exact h
      | some found =>
        cases accepted with
        | true => exact sharing_saveBooking h (fun _ => rfl)
        | false => exact sharing_saveBooking h (fun hacc => by simp at hacc)

theorem sharing_generateQr (s : Store) (cred : Credential) (id : ObjId) (now : Nat)
    (h : s.AcceptanceUnlocksSharing) :
    (generateQr s cred id now).store.AcceptanceUnlocksSharing := by
  unfold generateQr withAuth
  cases authRequired s cred with
  | error r => exact h
  | ok user =>
    simp only
    cases s.findProviderByUser user.id with
    | none => exact h
    | some provider =>
      simp only
      cases hb : s.findBookingOfProvider id provider._id with
      | none => exact h
      | some found =>
        simp only
        cases s.findUser provider.user with
        | none => exact h
        | some owner =>
          exact sharing_saveBooking h (h found (mem_of_findBookingOfProvider hb))

theorem sharing_verifyQr (s : Store) (cred : Credential) (qrData : QrText) (now : Nat)
    (h : s.AcceptanceUnlocksSharing) :
    (verifyQr s cred qrData now).store.AcceptanceUnlocksSharing := by
  unfold verifyQr withAuth
  cases authRequired s cred with
  | error r => exact h
  | ok user =>
    simp only
    split
    · exact h
    · cases jsonParse qrData with
      | none => exact h
      | some parsed =>
        simp only
        cases parsed.bookingId with
        | none => exact h
        | some bookingId =>
          simp only
          cases hb : s.findBookingById bookingId with
          | none => exact h
          | some found =>
            simp only
            split
            · exact h
            · exact sharing_saveBooking h (h found (mem_of_findBookingById hb))

theorem sharing_submitReview (s : Store) (cred : Credential) (id : ObjId) (rating : Option ℚ)
    (review : Option String) (h : s.AcceptanceUnlocksSharing) :
    (submitReview s cred id rating review).store.AcceptanceUnlocksSharing := by
  unfold submitReview withAuth
  cases authRequired s cred with
  | error r => exact h
  | ok user =>
    simp only
    cases s.findCustomerByUser user.id with
    | none => exact h
    | some customer =>
      simp only
      cases hb : s.findBookingOfCustomer id customer._id with
      | none => exact h
      | some found =>
        have hsaved : (s.saveBooking { found with rating := rating, review := review
            }).AcceptanceUnlocksSharing :=
          sharing_saveBooking h (h found (mem_of_findBookingOfCustomer hb))
        simp only
        split
        · exact h
        · split
          · exact h
          · split
            · exact hsaved
            · cases rating with
              | none => exact hsaved
              | some r => exact hsaved

theorem sharing_decisionCommit (s : Store) (bookingId : ObjId) (booking : Booking) (now : Nat)
    (h : s.AcceptanceUnlocksSharing) (hb : booking.AcceptanceUnlocksSharing) :
    (decisionCommit s bookingId booking now).store.AcceptanceUnlocksSharing :=
  sharing_saveBooking h hb

theorem sharing_jobDecision (s : Store) (cred : Credential) (bookingId : ObjId)
    (decision : String) (amount priceMin priceMax : Option ℚ) (now : Nat)
    (h : s.AcceptanceUnlocksSharing) :
    (jobDecision s cred bookingId decision amount priceMin priceMax now
      ).store.AcceptanceUnlocksSharing := by
  unfold jobDecision withRole
  cases authRequired s cred with
  | error r => exact h
  | ok user =>
    simp only
    cases requireRole [Role.provider] user with
    | error r => exact h
    | ok _ =>
      simp only
      cases s.findProviderByUser user.id with
      | none => exact h
      | some provider =>
        simp only
        cases hb : s.findBookingOfEither bookingId provider._id provider.user with
        | none => exact h
        | some found =>
          have hf := h found (mem_of_findBookingOfEither hb)
          simp only
          by_cases hacc : decision = "accept"
          · rw [if_pos hacc]
            apply sharing_decisionCommit _ _ _ _ h
            by_cases hr : (truthy priceMin = true ∧ truthy priceMax = true)
            · rw [if_pos hr]; exact fun _ => rfl
            · rw [if_neg hr]
              by_cases ha : truthy amount = true
              · rw [if_pos ha]; exact fun _ => rfl
              · rw [if_neg ha]; exact hf
          · rw [if_neg hacc]
            by_cases hrej : decision = "reject"
            · rw [if_pos hrej]
              exact sharing_decisionCommit _ _ _ _ h hf
            · rw [if_neg hrej]; exact h

theorem sharing_payBooking (s : Store) (cred : Credential) (bookingId : ObjId)
    (amount : Option ℚ) (method : Option String) (txId : ObjId) (txHash : String) (now : Nat)
    (h : s.AcceptanceUnlocksSharing) :
    (payBooking s cred bookingId amount method txId txHash now
      ).store.AcceptanceUnlocksSharing := by
  unfold payBooking withAuth
  cases authRequired s cred with
  | error r => exact h
  | ok user =>
    simp only
    cases hb : s.findBookingById bookingId with
    | none => exact h
    | some found =>
      have hf := h found (mem_of_findBookingById hb)
      simp only
      split
      · exact h
      · rename_i pm _
        have hsaved : (s.saveBooking { found with
            paymentMethod := some pm
            amount := if truthy amount = true then amount.getD 0 else found.amount
            paymentStatus := .paid }).AcceptanceUnlocksSharing :=
          sharing_saveBooking h hf
        split
        · split
          · exact hsaved
          · exact hsaved
        · exact hsaved

theorem sharing_createBooking_route (s : Store) (cred : Credential) (providerId : Option ObjId)
    (description : Option String) (scheduledTime : Option Nat) (amount : Option ℚ)
    (serviceType : Option String) (insuranceOpted : Bool) (newId : ObjId) (now rnd : Nat)
    (h : s.AcceptanceUnlocksSharing) :
    (createBooking s cred providerId description scheduledTime amount serviceType
      insuranceOpted newId now rnd).store.AcceptanceUnlocksSharing := by
  unfold createBooking withRole
  cases authRequired s cred with
  | error r => exact h
  | ok user =>
    simp only
    cases requireRole [Role.customer] user with
    | error r => exact h
    | ok _ =>
      simp only
      split
      · split
        · exact h
        · cases s.findCustomerByUser user.id with
          | none => exact h
          | some customer =>
            simp only
            split
            · exact h
            · exact sharing_createBooking h (fun hacc => by simp at hacc)
      · exact h

theorem sharing_createClaim (s : Store) (cred : Credential) (bookingId : Option ObjId)
    (type description : Option String) (evidenceImages : Option (List String))
    (newId : ObjId) (now : Nat) (h : s.AcceptanceUnlocksSharing) :
    (createClaim s cred bookingId type description evidenceImages newId now
      ).store.AcceptanceUnlocksSharing := by
  unfold createClaim withRole
  cases authRequired s cred with
  | error r => exact h
  | ok user =>
    simp only
    cases requireRole [Role.customer] user with
    | error r => exact h
    | ok _ =>
      simp only
      cases s.findCustomerByUser user.id with
      | none => exact h
      | some customer =>
        simp only
        split
        · exact h
        · split
          · exact h
          · split
            · exact h
            · split
              · split
                · exact h
                · exact h
              · exact h

/-! ## C1: acceptance unlocks sharing -/

/-- C1. Acceptance unlocks sharing: every booking that `POST /bookings` adds
to the store satisfies `isPriceAccepted = true → isLocationShared = true`,
and when every stored booking satisfies it, so does every booking of the
store left by any request (creation, provider decision, confirm-price,
complete, generate-qr, booking verify-qr, review, pay, claim creation),
whoever the caller and whatever the arguments. -/
theorem acceptance_unlocks_sharing :
    (∀ (s : Store) (cred : Credential) (providerId : Option ObjId)
        (description : Option String) (scheduledTime : Option Nat) (amount : Option ℚ)
        (serviceType : Option String) (insuranceOpted : Bool) (newId : ObjId) (now rnd : Nat),
        ∀ b ∈ (createBooking s cred providerId description scheduledTime amount serviceType
            insuranceOpted newId now rnd).store.bookings,
          b ∉ s.bookings → b.AcceptanceUnlocksSharing) ∧
    (∀ (s : Store) (cred : Credential) (now : Nat) (req : Request),
        s.AcceptanceUnlocksSharing → (step s cred now req).store.AcceptanceUnlocksSharing) := by
  refine ⟨?_, ?_⟩
  · intro s cred providerId description scheduledTime amount serviceType insuranceOpted newId
      now rnd
    unfold createBooking withRole
    cases authRequired s cred with
    | error r => exact fun b hb hn => absurd hb hn
    | ok user =>
      simp only
      cases requireRole [Role.customer] user with
      | error r => exact fun b hb hn => absurd hb hn
      | ok _ =>
        simp only
        split
        · split
          · exact fun b hb hn => absurd hb hn
          · cases s.findCustomerByUser user.id with
            | none => exact fun b hb hn => absurd hb hn
            | some customer =>
              simp only
              split
              · exact fun b hb hn => absurd hb hn
              · intro b hb hn
                simp only [Store.createBooking, List.mem_append, List.mem_singleton] at hb
                rcases hb with hmem | rfl
                · exact absurd hmem hn
                · exact fun hacc => by simp at hacc
        · exact fun b hb hn => absurd hb hn
  · intro s cred now req h
    cases req with
    | createBooking providerId description scheduledTime amount serviceType insuranceOpted
        newId rnd => exact sharing_createBooking_route _ _ _ _ _ _ _ _ _ _ _ h
    | decision bookingId decision amount priceMin priceMax =>
      exact sharing_jobDecision _ _ _ _ _ _ _ _ h
    | confirmPrice id accepted => exact sharing_confirmPrice _ _ _ _ _ h
    | complete id => exact sharing_completeBooking _ _ _ _ h
    | generateQr id => exact sharing_generateQr _ _ _ _ h
    | verifyQr qrData => exact sharing_verifyQr _ _ _ _ h
    | review id rating review => exact sharing_submitReview _ _ _ _ _ h
    | pay bookingId amount method txId txHash => exact sharing_payBooking _ _ _ _ _ _ _ _ h
    | createClaim bookingId type description evidenceImages newId =>
      exact sharing_createClaim _ _ _ _ _ _ _ _ h

/-- Witness of C1: the scenario store satisfies the invariant, and still does
after the customer accepts the price range of the accepted booking, which
sets `isPriceAccepted`. -/
theorem acceptance_unlocks_sharing_witness :
    testStore.AcceptanceUnlocksSharing ∧
    (step testStore (.token 2) 1700000000400 (.confirmPrice 31 true)
      ).store.AcceptanceUnlocksSharing ∧
    ((step testStore (.token 2) 1700000000400 (.confirmPrice 31 true)
      ).store.findBookingById 31).map (fun b => b.isPriceAccepted) = some true :=
  ⟨by decide,
   acceptance_unlocks_sharing.2 testStore (.token 2) 1700000000400 (.confirmPrice 31 true)
     (by decide),
   by decide⟩

/-! ## Reviews -/

/-- Saving a document in place of the first one found under its key makes
the same lookup return the saved document. -/
theorem find_replace {α : Type} (key : α → ObjId) (k : ObjId) (p q : α) (hq : key q = k) :
    ∀ xs : List α, xs.find? (fun x => decide (key x = k)) = some p →
      (xs.map (fun x => if key x = key q then q else x)).find?
        (fun x => decide (key x = k)) = some q := by
  intro xs
  induction xs with
  | nil => intro h; simp at h
  | cons x xs ih =>
    intro h
    by_cases hx : key x = k
    · simp [List.find?, hx, hq]
    · have hx' : ¬ key x = key q := by rw [hq]; exact hx
      have h' : xs.find? (fun x => decide (key x = k)) = some p := by
        simpa [List.find?, hx] using h
      simp only [List.map_cons, if_neg hx', List.find?, hx, decide_False]
      exact ih h'

@[simp] theorem findProviderById_saveBooking (s : Store) (b : Booking) (id : ObjId) :
    (s.saveBooking b).findProviderById id = s.findProviderById id := rfl

theorem findProviderById_saveProvider {s : Store} {p q : Provider}
    (h : s.findProviderById q._id = some p) :
    (s.saveProvider q).findProviderById q._id = some q :=
  find_replace (fun x : Provider => x._id) q._id p q rfl s.providers h

theorem providerId_of_find {s : Store} {id : ObjId} {p : Provider}
    (h : s.findProviderById id = some p) : p._id = id := by
  have := List.find?_some h
  simpa using this

/-- C3. Review only when completed: when the caller authenticates, has a
customer profile and owns the booking `b` the handler resolves for `id`, and
`b.status` is not `completed`, the review is answered with status 400
"Can only review completed bookings" and the store is left as it was, so the
booking's rating and review and the provider's rating and ratingCount stay
as they were, for every submitted rating and text. -/
theorem review_requires_completed (s : Store) (cred : Credential) (id : ObjId)
    (rating : Option ℚ) (review : Option String) (user : ReqUser) (customer : Customer)
    (b : Booking) (hauth : authRequired s cred = .ok user)
    (hc : s.findCustomerByUser user.id = some customer)
    (hb : s.findBookingOfCustomer id customer._id = some b)
    (hs : b.status ≠ .completed) :
    (submitReview s cred id rating review).res =
        { status := 400, body := .message "Can only review completed bookings" } ∧
    (submitReview s cred id rating review).store = s ∧
    (submitReview s cred id rating review).trace = [] := by
  simp [submitReview, withAuth, hauth, hc, hb, hs, refuse]

/-- Witness of C3: in the scenario store the customer's review of the
accepted (not completed) booking 31 is refused and nothing is written. -/
theorem review_requires_completed_witness :
    (submitReview testStore (.token 2) 31 (some 5) (some "Great")).res =
        { status := 400, body := .message "Can only review completed bookings" } ∧
    (submitReview testStore (.token 2) 31 (some 5) (some "Great")).store = testStore ∧
    (submitReview testStore (.token 2) 31 (some 5) (some "Great")).trace = [] :=
  review_requires_completed testStore (.token 2) 31 (some 5) (some "Great")
    { id := 2, role := .customer, mobileNumber := "8880000002", fullName := "Test Customer" }
    testCustomer acceptedBooking rfl (by decide) (by decide) (by decide)

/-- The provider document a counted review of rating `r` stores. -/
theorem submitReview_rated (s : Store) (cred : Credential) (id : ObjId) (r : ℚ)
    (review : Option String) (user : ReqUser) (customer : Customer) (b : Booking)
    (p : Provider) (hauth : authRequired s cred = .ok user)
    (hc : s.findCustomerByUser user.id = some customer)
    (hb : s.findBookingOfCustomer id customer._id = some b)
    (hs : b.status = .completed) (hr : 1 ≤ r ∧ r ≤ 5)
    (hp : s.findProviderById b.provider = some p) :
    submitReview s cred id (some r) review =
      { store := (s.saveBooking { b with rating := some r, review := review }).saveProvider
          { p with
            ratingCount := p.ratingCount + 1
            rating := p.rating + (r - p.rating) / ((p.ratingCount + 1 : ℕ) : ℚ) }
        trace := [.write .bookings b._id, .write .providers p._id]
        res := { status := 200
                 body := .reviewed "Review submitted successfully"
                   { b with rating := some r, review := review } } } := by
  simp only [submitReview, withAuth, hauth, hc, hb, hs, ratingValid, hr, ne_eq,
    not_true_eq_false, if_false, and_self, decide_True, findProviderById_saveBooking, hp,
    Bool.true_eq_false]

/-- What a review answered with status 200 has passed. -/
theorem submitReview_ok_inv (s : Store) (cred : Credential) (id : ObjId) (r : ℚ)
    (review : Option String)
    (h : (submitReview s cred id (some r) review).res.status = 200) :
    ∃ user customer b, authRequired s cred = .ok user ∧
      s.findCustomerByUser user.id = some customer ∧
      s.findBookingOfCustomer id customer._id = some b ∧
      b.status = .completed ∧ (1 ≤ r ∧ r ≤ 5) := by
  unfold submitReview withAuth at h
  cases hauth : authRequired s cred with
  | error e =>
    rw [hauth] at h
    cases cred <;> simp [authRequired] at hauth
    all_goals first
      | (subst hauth; simp at h)
      | (split at hauth <;> simp at hauth; subst hauth; simp at h)
  | ok user =>
    rw [hauth] at h
    simp only at h
    cases hc : s.findCustomerByUser user.id with
    | none => rw [hc] at h; simp [refuse] at h
    | some customer =>
      rw [hc] at h
      simp only at h
      cases hb : s.findBookingOfCustomer id customer._id with
      | none => rw [hb] at h; simp [refuse] at h
      | some b =>
        rw [hb] at h
        simp only at h
        by_cases hs : b.status = .completed
        · by_cases hr : (1 ≤ r ∧ r ≤ 5)
          · exact ⟨user, customer, b, rfl, hc, hb, hs, hr⟩
          · simp [hs, ratingValid, hr, throwErr] at h
        · simp [hs, refuse] at h

/-- C4. Incremental mean step: when the caller owns the completed booking `b`
resolved for `id`, the submitted rating `r` passes the schema bounds
`1 ≤ r ≤ 5`, and `b.provider` resolves to the provider `p`, the review is
answered with status 200 and the stored provider becomes `p` with
`ratingCount = p.ratingCount + 1` and
`rating = p.rating + (r - p.rating) / (p.ratingCount + 1)`, every other
field of the provider kept. -/
theorem review_incremental_mean (s : Store) (cred : Credential) (id : ObjId) (r : ℚ)
    (review : Option String) (user : ReqUser) (customer : Customer) (b : Booking)
    (p : Provider) (hauth : authRequired s cred = .ok user)
    (hc : s.findCustomerByUser user.id = some customer)
    (hb : s.findBookingOfCustomer id customer._id = some b)
    (hs : b.status = .completed) (hr : 1 ≤ r ∧ r ≤ 5)
    (hp : s.findProviderById b.provider = some p) :
    (submitReview s cred id (some r) review).res.status = 200 ∧
    (submitReview s cred id (some r) review).store.findProviderById b.provider =
      some { p with
        ratingCount := p.ratingCount + 1
        rating := p.rating + (r - p.rating) / ((p.ratingCount + 1 : ℕ) : ℚ) } := by
  have hid : p._id = b.provider := providerId_of_find hp
  rw [submitReview_rated s cred id r review user customer b p hauth hc hb hs hr hp]
  refine ⟨rfl, ?_⟩
  have hfound : (s.saveBooking { b with rating := some r, review := review }).findProviderById
      b.provider = some p := hp
  rw [← hid] at hfound ⊢
  exact findProviderById_saveProvider
    (q := { p with
      ratingCount := p.ratingCount + 1
      rating := p.rating + (r - p.rating) / ((p.ratingCount + 1 : ℕ) : ℚ) }) hfound

/-- Witness of C4, the example of the specification: rating 4 with
ratingCount 2 and a new rating 5 give rating 13/3 and ratingCount 3. -/
theorem review_incremental_mean_witness :
    (submitReview testStore (.token 2) 30 (some 5) (some "Great")).res.status = 200 ∧
    (submitReview testStore (.token 2) 30 (some 5) (some "Great")).store.findProviderById 10 =
      some { testProvider with ratingCount := 3, rating := 13 / 3 } := by
  have h := review_incremental_mean testStore (.token 2) 30 5 (some "Great")
    { id := 2, role := .customer, mobileNumber := "8880000002", fullName := "Test Customer" }
    testCustomer completedBooking testProvider rfl (by decide) (by decide) (by decide)
    (by norm_num) (by decide)
  refine ⟨h.1, ?_⟩
  have h2 := h.2
  rw [show completedBooking.provider = 10 from rfl] at h2
  rw [h2]
  simp [testProvider]
  norm_num

/-- C2, the handler evaluated: the customer reviews the completed booking 30
with rating 5 twice.  Both submissions are answered with status 200; the
booking carries a rating after the first one, and the provider's
ratingCount goes from 2 to 3 and then to 4, its rating from 4 to 13/3 and
then to 9/2. -/
theorem review_twice_counts_twice :
    (submitReview testStore (.token 2) 30 (some 5) (some "Great")).res.status = 200 ∧
    ((submitReview testStore (.token 2) 30 (some 5) (some "Great")).store.findBookingById
      30).map (fun b => b.rating) = some (some 5) ∧
    ((submitReview testStore (.token 2) 30 (some 5) (some "Great")).store.findProviderById
      10).map (fun p => (p.ratingCount, p.rating)) = some (3, 13 / 3) ∧
    (submitReview (submitReview testStore (.token 2) 30 (some 5) (some "Great")).store
      (.token 2) 30 (some 5) (some "Great")).res.status = 200 ∧
    ((submitReview (submitReview testStore (.token 2) 30 (some 5) (some "Great")).store
      (.token 2) 30 (some 5) (some "Great")).store.findProviderById 10).map
        (fun p => (p.ratingCount, p.rating)) = some (4, 9 / 2) := by
  refine ⟨by decide, by decide, ?_, by decide, ?_⟩
  · simp [submitReview, withAuth, authRequired, Store.findUser, Store.findCustomerByUser,
      Store.findBookingOfCustomer, Store.findProviderById, Store.saveBooking,
      Store.saveProvider, ratingValid, testStore, providerUser, customerUser, testProvider,
      testCustomer, completedBooking, acceptedBooking, pendingBooking]
    norm_num
  · simp [submitReview, withAuth, authRequired, Store.findUser, Store.findCustomerByUser,
      Store.findBookingOfCustomer, Store.findProviderById, Store.saveBooking,
      Store.saveProvider, ratingValid, testStore, providerUser, customerUser, testProvider,
      testCustomer, completedBooking, acceptedBooking, pendingBooking]
    norm_num

/-! ## C5: the running average is the batch average -/

/-- One counted review, on the provider all reviewed bookings refer to. -/
theorem submitReview_ok_step (s : Store) (cred : Credential) (id : ObjId) (r : ℚ)
    (review : Option String) (pid : ObjId) (p : Provider)
    (h : (submitReview s cred id (some r) review).res.status = 200)
    (htarget : ∀ b ∈ s.bookings, b._id = id → b.provider = pid)
    (hp : s.findProviderById pid = some p) :
    (submitReview s cred id (some r) review).store.findProviderById pid =
        some { p with
          ratingCount := p.ratingCount + 1
          rating := p.rating + (r - p.rating) / ((p.ratingCount + 1 : ℕ) : ℚ) } ∧
    ∀ x ∈ (submitReview s cred id (some r) review).store.bookings,
      ∃ b ∈ s.bookings, b._id = x._id ∧ b.provider = x.provider := by
  obtain ⟨user, customer, b, hauth, hc, hb, hs, hr⟩ := submitReview_ok_inv s cred id r review h
  have hmem : b ∈ s.bookings := mem_of_findBookingOfCustomer hb
  have hbid : b._id = id := by
    have := List.find?_some hb
    simp at this
    exact this.1
  have hprov : b.provider = pid := htarget b hmem hbid
  have hp' : s.findProviderById b.provider = some p := by rw [hprov]; exact hp
  have hid : p._id = pid := providerId_of_find hp
  rw [submitReview_rated s cred id r review user customer b p hauth hc hb hs hr hp']
  refine ⟨?_, ?_⟩
  · have hfound : (s.saveBooking { b with rating := some r, review := review
        }).findProviderById pid = some p := hp
    rw [← hid] at hfound ⊢
    exact findProviderById_saveProvider
      (q := { p with
        ratingCount := p.ratingCount + 1
        rating := p.rating + (r - p.rating) / ((p.ratingCount + 1 : ℕ) : ℚ) }) hfound
  · intro x hx
    have hx' : x ∈ (s.saveBooking { b with rating := some r, review := review }).bookings := hx
    rcases mem_saveBooking hx' with rfl | hold
    · exact ⟨b, hmem, rfl, rfl⟩
    · exact ⟨x, hold, rfl, rfl⟩

/-- After a run of counted reviews on one provider, `rating * ratingCount`
has grown by the sum of the submitted ratings. -/
theorem submitReviews_sum (pid : ObjId) :
    ∀ (reqs : List ReviewRequest) (s s' : Store) (p : Provider),
      s.findProviderById pid = some p →
      (∀ q ∈ reqs, ∀ b ∈ s.bookings, b._id = q.id → b.provider = pid) →
      submitReviews s reqs = some s' →
      ∃ p', s'.findProviderById pid = some p' ∧
        p'.ratingCount = p.ratingCount + reqs.length ∧
        p'.rating * (p'.ratingCount : ℚ) =
          p.rating * (p.ratingCount : ℚ) + (reqs.map (fun q => q.rating)).sum := by
  intro reqs
  induction reqs with
  | nil =>
    intro s s' p hp _ hrun
    simp only [submitReviews, Option.some.injEq] at hrun
    subst hrun
    exact ⟨p, hp, by simp, by simp⟩
  | cons q qs ih =>
    intro s s' p hp htarget hrun
    simp only [submitReviews] at hrun
    by_cases hok : (submitReview s q.cred q.id (some q.rating) q.review).res.status = 200
    · rw [if_pos hok] at hrun
      obtain ⟨hp1, hbook⟩ := submitReview_ok_step s q.cred q.id q.rating q.review pid p hok
        (htarget q (List.mem_cons_self _ _)) hp
      have htarget' : ∀ q' ∈ qs,
          ∀ x ∈ (submitReview s q.cred q.id (some q.rating) q.review).store.bookings,
            x._id = q'.id → x.provider = pid := by
        intro q' hq' x hx hxid
        obtain ⟨b, hb, hbid, hbp⟩ := hbook x hx
        rw [← hbp]
        exact htarget q' (List.mem_cons_of_mem _ hq') b hb (hbid.trans hxid)
      obtain ⟨p', hfind, hcount, hsum⟩ := ih _ s' _ hp1 htarget' hrun
      dsimp only at hcount hsum
      refine ⟨p', hfind, ?_, ?_⟩
      · rw [hcount]; simp only [List.length_cons]; omega
      · rw [hsum]
        simp only [List.map_cons, List.sum_cons]
        have hne : ((p.ratingCount + 1 : ℕ) : ℚ) ≠ 0 :=
          Nat.cast_ne_zero.mpr (Nat.succ_ne_zero p.ratingCount)
        have hmul : (p.rating + (q.rating - p.rating) / ((p.ratingCount + 1 : ℕ) : ℚ)) *
            ((p.ratingCount + 1 : ℕ) : ℚ) = p.rating * (p.ratingCount : ℚ) + q.rating := by
          field_simp
          ring
        rw [hmul]
        ring
    · rw [if_neg hok] at hrun
      exact absurd hrun (by simp)

/-- C5. Incremental mean equals batch mean: when the provider `pid` is stored
with rating 0 and ratingCount 0, and a non-empty sequence of reviews, each
with a numeric rating and each naming a booking of that provider, is
submitted one after another and every one is answered with status 200, the
provider stored at the end has ratingCount equal to the number of reviews
and rating equal to the sum of the submitted ratings divided by that
number. -/
theorem incremental_mean_eq_batch_mean (s s' : Store) (pid : ObjId) (p : Provider)
    (reqs : List ReviewRequest) (hp : s.findProviderById pid = some p)
    (hrating : p.rating = 0) (hcount : p.ratingCount = 0)
    (htarget : ∀ q ∈ reqs, ∀ b ∈ s.bookings, b._id = q.id → b.provider = pid)
    (hne : reqs ≠ []) (hrun : submitReviews s reqs = some s') :
    ∃ p', s'.findProviderById pid = some p' ∧
      p'.ratingCount = reqs.length ∧
      p'.rating = (reqs.map (fun q => q.rating)).sum / (reqs.length : ℚ) := by
  obtain ⟨p', hfind, hc, hsum⟩ := submitReviews_sum pid reqs s s' p hp htarget hrun
  have hlen : (reqs.length : ℚ) ≠ 0 := by
    have : reqs.length ≠ 0 := fun h0 => hne (List.length_eq_zero.mp h0)
    exact_mod_cast this
  have hc' : p'.ratingCount = reqs.length := by rw [hc, hcount]; simp
  refine ⟨p', hfind, hc', ?_⟩
  rw [hc', hrating, zero_mul, zero_add] at hsum
  rw [← hsum]
  field_simp

/-- Witness of C5: five reviews with ratings 5, 4, 3, 5, 4 of an unrated
provider are all answered with status 200 and leave ratingCount 5 and
rating 21/5. -/
theorem incremental_mean_eq_batch_mean_witness :
    ∃ s' p', submitReviews reviewStore fiveReviews = some s' ∧
      s'.findProviderById 10 = some p' ∧ p'.ratingCount = 5 ∧ p'.rating = 21 / 5 := by
  have hsome : (submitReviews reviewStore fiveReviews).isSome = true := by decide
  obtain ⟨s', hs'⟩ := Option.isSome_iff_exists.mp hsome
  obtain ⟨p', hfind, hc, hr⟩ := incremental_mean_eq_batch_mean reviewStore s' 10
    unratedProvider fiveReviews (by decide) rfl rfl (by decide) (by simp [fiveReviews]) hs'
  refine ⟨s', p', hs', hfind, by simpa [fiveReviews] using hc, ?_⟩
  rw [hr]
  norm_num [fiveReviews]

/-! ## Insurance claims -/

theorem authRequired_createClaim (s : Store) (c : InsuranceClaim) (cred : Credential) :
    authRequired (s.createClaim c) cred = authRequired s cred := by
  cases cred <;> rfl

theorem findClaimByBooking_none {s : Store} {id : ObjId}
    (h : ∀ c ∈ s.claims, c.booking ≠ id) : s.findClaimByBooking id = none := by
  simp only [Store.findClaimByBooking, List.find?_eq_none]
  intro c hc
  simpa using h c hc

theorem requireRole_self (user : ReqUser) (role : Role) (h : user.role = role) :
    requireRole [role] user = .ok () := by
  simp [requireRole, h]

/-- C6. One claim per booking: when the caller is an authenticated customer
with a customer profile, `id` resolves to a booking `b` of that profile with
`insurance.opted = true` and a non-empty policy id, no stored claim refers to
`b`, and the request carries a claim type of the enum and a non-empty
description, then the creation is answered with status 201 and appends one
claim that refers to `b`; every further creation attempt of the caller for
the same booking, whatever its other fields, is answered with status 400
"A claim has already been raised for this booking." and leaves the store as
it was, holding exactly one claim for `b`. -/
theorem one_claim_per_booking (s : Store) (cred : Credential) (id : ObjId)
    (type description : Option String) (evidenceImages : Option (List String))
    (newId : ObjId) (now : Nat) (user : ReqUser) (customer : Customer) (b : Booking)
    (policyId text : String) (claimType : ClaimType)
    (hauth : authRequired s cred = .ok user) (hrole : user.role = .customer)
    (hc : s.findCustomerByUser user.id = some customer)
    (hb : s.findBookingOfCustomer id customer._id = some b)
    (hins : b.insurance.opted = true)
    (hpol : b.insurance.policyId = some policyId) (hpolne : policyId ≠ "")
    (hnone : ∀ c ∈ s.claims, c.booking ≠ b._id)
    (htype : type.bind parseClaimType = some claimType)
    (hdesc : description = some text) (htext : text ≠ "") :
    ∃ claim : InsuranceClaim,
      (createClaim s cred (some id) type description evidenceImages newId now).res =
        { status := 201, body := .claim claim } ∧
      (createClaim s cred (some id) type description evidenceImages newId now).store.claims =
        s.claims ++ [claim] ∧
      claim.booking = b._id ∧ claim.customer = customer._id ∧
      ∀ (type2 description2 : Option String) (evidenceImages2 : Option (List String))
        (newId2 : ObjId) (now2 : Nat),
        (createClaim
          (createClaim s cred (some id) type description evidenceImages newId now).store
          cred (some id) type2 description2 evidenceImages2 newId2 now2).res =
          { status := 400
            body := .message "A claim has already been raised for this booking." } ∧
        (createClaim
          (createClaim s cred (some id) type description evidenceImages newId now).store
          cred (some id) type2 description2 evidenceImages2 newId2 now2).store =
          (createClaim s cred (some id) type description evidenceImages newId now).store ∧
        ((createClaim
          (createClaim s cred (some id) type description evidenceImages newId now).store
          cred (some id) type2 description2 evidenceImages2 newId2 now2).store.claims.filter
            (fun c => c.booking = b._id)).length = 1 := by
  have hfirst : createClaim s cred (some id) type description evidenceImages newId now =
      { store := s.createClaim
          { _id := newId, booking := b._id, customer := customer._id, policyId := policyId
            type := claimType, description := text, evidenceImages := evidenceImages.getD []
            status := .pending, adminComments := none, refundAmount := none, createdAt := now }
        trace := [.write .claims newId]
        res := { status := 201
                 body := .claim
                  { _id := newId, booking := b._id, customer := customer._id
                    policyId := policyId, type := claimType, description := text
                    evidenceImages := evidenceImages.getD [], status := .pending
                    adminComments := none, refundAmount := none, createdAt := now } } } := by
    simp [createClaim, withRole, hauth, requireRole_self user .customer hrole, hc, hb, hins,
      findClaimByBooking_none hnone, hpol, htype, hdesc, hpolne, htext]
  rw [hfirst]
  refine ⟨_, rfl, rfl, rfl, rfl, ?_⟩
  intro type2 description2 evidenceImages2 newId2 now2
  have hfilter : (s.claims.filter (fun c => decide (c.booking = b._id))) = [] := by
    rw [List.filter_eq_nil_iff]
    intro c hc
    simpa using hnone c hc
  have hsecond : ∀ c : InsuranceClaim, c.booking = b._id →
      createClaim (s.createClaim c) cred (some id) type2 description2 evidenceImages2 newId2
        now2 = refuse (s.createClaim c) 400
          "A claim has already been raised for this booking." := by
    intro c hcb
    have hfind : (s.createClaim c).findClaimByBooking b._id = some c := by
      have hn := findClaimByBooking_none hnone
      simp only [Store.findClaimByBooking] at hn
      simp [Store.findClaimByBooking, Store.createClaim, List.find?_append, hn, hcb]
    have hc' : (s.createClaim c).findCustomerByUser user.id = some customer := hc
    have hb' : (s.createClaim c).findBookingOfCustomer id customer._id = some b := hb
    simp [createClaim, withRole, authRequired_createClaim, hauth,
      requireRole_self user .customer hrole, hc', hb', hins, hfind]
  rw [hsecond _ rfl]
  refine ⟨rfl, rfl, ?_⟩
  simp [refuse, Store.createClaim, List.filter_append, hfilter]

/-- Witness of C6: in the scenario store the customer's first claim on the
insured booking 30 is created, the second attempt is answered with status 400
and one claim for booking 30 is stored. -/
theorem one_claim_per_booking_witness :
    (createClaim testStore (.token 2) (some 30) (some "damage") (some "Pipe burst") none 50
      1700000000500).res.status = 201 ∧
    (createClaim
      (createClaim testStore (.token 2) (some 30) (some "damage") (some "Pipe burst") none 50
        1700000000500).store
      (.token 2) (some 30) (some "fraud") (some "Again") none 51 1700000000600).res =
      { status := 400, body := .message "A claim has already been raised for this booking." } ∧
    ((createClaim
      (createClaim testStore (.token 2) (some 30) (some "damage") (some "Pipe burst") none 50
        1700000000500).store
      (.token 2) (some 30) (some "fraud") (some "Again") none 51
        1700000000600).store.claims.filter (fun c => c.booking = 30)).length = 1 := by
  obtain ⟨claim, h1, _, _, _, h5⟩ := one_claim_per_booking testStore (.token 2) 30
    (some "damage") (some "Pipe burst") none 50 1700000000500
    { id := 2, role := .customer, mobileNumber := "8880000002", fullName := "Test Customer" }
    testCustomer completedBooking "INS-1700000000100-42" "Pipe burst" .damage
    rfl rfl (by decide) (by decide) (by decide) rfl (by decide) (by decide) (by decide) rfl
    (by decide)
  have h2 := h5 (some "fraud") (some "Again") none 51 1700000000600
  exact ⟨by rw [h1], h2.1, h2.2.2⟩

/-- A claim creation either leaves the store as it was and answers with a
failure status, or has passed the gate. -/
theorem createClaim_refused_or_gate (s : Store) (cred : Credential) (bookingId : Option ObjId)
    (type description : Option String) (evidenceImages : Option (List String))
    (newId : ObjId) (now : Nat) :
    ((createClaim s cred bookingId type description evidenceImages newId now).store = s ∧
      400 ≤ (createClaim s cred bookingId type description evidenceImages newId now
        ).res.status) ∨
    claimGate s cred bookingId := by
  unfold createClaim withRole
  cases hauth : authRequired s cred with
  | error e =>
    left
    refine ⟨rfl, ?_⟩
    cases cred <;> simp [authRequired] at hauth
    all_goals first
      | (subst hauth; simp)
      | (split at hauth <;> simp at hauth; subst hauth; simp)
  | ok user =>
    simp only
    cases hrole : requireRole [Role.customer] user with
    | error e =>
      left
      refine ⟨rfl, ?_⟩
      simp only [requireRole] at hrole
      split at hrole <;> simp at hrole
      subst hrole
      simp
    | ok _ =>
      simp only
      cases hc : s.findCustomerByUser user.id with
      | none => left; simp [refuse]
      | some customer =>
        simp only
        cases hb : bookingId.bind (fun id => s.findBookingOfCustomer id customer._id) with
        | none => left; simp [refuse]
        | some booking =>
          simp only
          by_cases hins : booking.insurance.opted = false
          · left; simp [hins, refuse]
          · right
            obtain ⟨id, hid, hfind⟩ := Option.bind_eq_some.mp hb
            have hmem : booking ∈ s.bookings := mem_of_findBookingOfCustomer hfind
            have hkey := List.find?_some hfind
            simp only [decide_eq_true_eq] at hkey
            refine ⟨user, customer, booking, hauth, hc, hmem, ?_, hkey.2, ?_⟩
            · rw [hid, hkey.1]
            · simpa using hins

/-- C7. Claim gating: a claim creation changes the claim store only if the
referenced booking exists, its customer reference is the customer profile of
the caller, and its `insurance.opted` is true; whenever these conditions do
not all hold, the answer is a failure status and the whole store, the claim
store in particular, is left as it was. -/
theorem claim_gating (s : Store) (cred : Credential) (bookingId : Option ObjId)
    (type description : Option String) (evidenceImages : Option (List String))
    (newId : ObjId) (now : Nat) :
    ((createClaim s cred bookingId type description evidenceImages newId now).store.claims ≠
        s.claims → claimGate s cred bookingId) ∧
    (¬ claimGate s cred bookingId →
      400 ≤ (createClaim s cred bookingId type description evidenceImages newId now
        ).res.status ∧
      (createClaim s cred bookingId type description evidenceImages newId now).store = s) := by
  rcases createClaim_refused_or_gate s cred bookingId type description evidenceImages newId now
    with ⟨hstore, hstatus⟩ | hgate
  · exact ⟨fun hne => absurd (by rw [hstore]) hne, fun _ => ⟨hstatus, hstore⟩⟩
  · exact ⟨fun _ => hgate, fun hn => absurd hgate hn⟩

/-- The accepted booking 31 of the scenario is not insured, so a claim on it
does not pass the gate. -/
theorem claimGate_uninsured : ¬ claimGate testStore (.token 2) (some 31) := by
  rintro ⟨user, customer, b, _, _, hmem, hid, _, hins⟩
  simp only [testStore, List.mem_cons, List.mem_singleton, List.not_mem_nil, or_false] at hmem
  rcases hmem with rfl | rfl | rfl
  · simp [completedBooking] at hid
  · simp [acceptedBooking, pendingBooking] at hins
  · simp [pendingBooking] at hid

/-- Witness of C7: the claim on the uninsured booking 31 is refused with
status 400 and nothing is stored, while the claim on the insured booking 30
changes the claim store and has passed the gate. -/
theorem claim_gating_witness :
    (400 ≤ (createClaim testStore (.token 2) (some 31) (some "damage") (some "Pipe burst")
        none 50 1700000000500).res.status ∧
      (createClaim testStore (.token 2) (some 31) (some "damage") (some "Pipe burst") none 50
        1700000000500).store = testStore) ∧
    claimGate testStore (.token 2) (some 30) :=
  ⟨(claim_gating testStore (.token 2) (some 31) (some "damage") (some "Pipe burst") none 50
      1700000000500).2 claimGate_uninsured,
   (claim_gating testStore (.token 2) (some 30) (some "damage") (some "Pipe burst") none 50
      1700000000500).1 (by decide)⟩

/-! ## QR verification -/

/-- An authenticated caller is a stored user. -/
theorem authRequired_ok_inv {s : Store} {cred : Credential} {user : ReqUser}
    (h : authRequired s cred = .ok user) : ∃ u, s.findUser user.id = some u := by
  cases cred with
  | missing => simp [authRequired] at h
  | expired => simp [authRequired] at h
  | invalid => simp [authRequired] at h
  | token userId =>
    simp only [authRequired] at h
    cases hu : s.findUser userId with
    | none => rw [hu] at h; simp at h
    | some u =>
      rw [hu] at h
      simp only [Except.ok.injEq] at h
      have hid : u._id = userId := by
        have := List.find?_some hu
        simpa using this
      refine ⟨u, ?_⟩
      rw [← h]
      simp only
      rw [hid]
      exact hu

theorem findBookingById_saveBooking {s : Store} {b q : Booking}
    (h : s.findBookingById q._id = some b) :
    (s.saveBooking q).findBookingById q._id = some q :=
  find_replace (fun x : Booking => x._id) q._id b q rfl s.bookings h

theorem bookingId_of_find {s : Store} {id : ObjId} {b : Booking}
    (h : s.findBookingById id = some b) : b._id = id := by
  have := List.find?_some h
  simpa using this

/-- C8. QR round trip: when the caller's provider profile is `P` and `id`
resolves to a booking `B` of `P`, generate-qr is answered with status 200 and
a payload text `q`, stored on `B`; and in every later store in which `B`'s id
still resolves to a booking of provider `P`, and `P`'s id resolves to a
profile with the identity string `P` had, verify-qr of the unchanged text `q`
by any authenticated caller is answered with status 200, `verified` with
`bookingId = B._id`, and stores the booking with `verifiedAt` stamped. -/
theorem qr_round_trip (s : Store) (cred : Credential) (id : ObjId) (now : Nat)
    (user : ReqUser) (P : Provider) (B : Booking)
    (hauth : authRequired s cred = .ok user)
    (hP : s.findProviderByUser user.id = some P)
    (hB : s.findBookingOfProvider id P._id = some B) :
    ∃ q : QrText,
      (generateQr s cred id now).res = { status := 200, body := .qr q } ∧
      (generateQr s cred id now).store =
        s.saveBooking { B with verificationQrData := some q } ∧
      ∀ (s' : Store) (cred' : Credential) (now' : Nat) (user' : ReqUser) (B' : Booking)
        (P' : Provider),
        authRequired s' cred' = .ok user' →
        s'.findBookingById B._id = some B' →
        B'.provider = P._id →
        s'.findProviderById P._id = some P' →
        P'.blockchainProviderId = P.blockchainProviderId →
        (verifyQr s' cred' q now').res =
          { status := 200
            body := .verified B._id (some P'.currentLocation) (some (providerView s' P')) } ∧
        (verifyQr s' cred' q now').store = s'.saveBooking { B' with verifiedAt := some now' } ∧
        (verifyQr s' cred' q now').store.findBookingById B._id =
          some { B' with verifiedAt := some now' } := by
  obtain ⟨owner, howner⟩ := authRequired_ok_inv hauth
  have hPuser : P.user = user.id := by
    have := List.find?_some hP
    simpa using this
  have howner' : s.findUser P.user = some owner := by rw [hPuser]; exact howner
  refine ⟨jsonStringify
    { bookingId := some B._id, providerId := some P._id
      blockchainProviderId := some P.blockchainProviderId, name := some owner.fullName
      serviceType := some P.serviceType, specialization := some P.specialization
      experience := some P.experienceYears, rating := some P.rating, timestamp := some now },
    ?_, ?_, ?_⟩
  · simp [generateQr, withAuth, hauth, hP, hB, howner']
  · simp [generateQr, withAuth, hauth, hP, hB, howner']
  · intro s' cred' now' user' B' P' hauth' hB' hprov hP' hbc
    have hP'id : P'._id = P._id := providerId_of_find hP'
    have hB'id : B'._id = B._id := bookingId_of_find hB'
    have hP'' : s'.findProviderById B'.provider = some P' := by rw [hprov]; exact hP'
    have hout : verifyQr s' cred'
        (jsonStringify
          { bookingId := some B._id, providerId := some P._id
            blockchainProviderId := some P.blockchainProviderId, name := some owner.fullName
            serviceType := some P.serviceType, specialization := some P.specialization
            experience := some P.experienceYears, rating := some P.rating
            timestamp := some now }) now' =
        { store := s'.saveBooking { B' with verifiedAt := some now' }
          trace := [.write .bookings B'._id]
          res := { status := 200
                   body := .verified B'._id (some P'.currentLocation)
                     (some (providerView s' P')) } } := by
      simp [verifyQr, withAuth, hauth', jsonStringify, jsonParse, hB', hP'', hP'id, hbc]
    rw [hout]
    refine ⟨by rw [hB'id], rfl, ?_⟩
    have hfind : s'.findBookingById ({ B' with verifiedAt := some now' } : Booking)._id =
        some B' := by
      show s'.findBookingById B'._id = some B'
      rw [hB'id]; exact hB'
    have := findBookingById_saveBooking hfind
    rw [← hB'id]
    exact this

/-- Witness of C8: in the scenario store the provider generates the QR text
of the accepted booking 31, and the customer's verification of that text
against the store generate-qr left is answered with status 200 and stamps
`verifiedAt`. -/
theorem qr_round_trip_witness :
    ∃ q : QrText,
      (generateQr testStore (.token 1) 31 1700000000700).res =
        { status := 200, body := .qr q } ∧
      (verifyQr (generateQr testStore (.token 1) 31 1700000000700).store (.token 2) q
        1700000000800).res.status = 200 ∧
      ((verifyQr (generateQr testStore (.token 1) 31 1700000000700).store (.token 2) q
        1700000000800).store.findBookingById 31).map (fun b => b.verifiedAt) =
        some (some 1700000000800) := by
  obtain ⟨q, hres, hstore, hverify⟩ := qr_round_trip testStore (.token 1) 31 1700000000700
    { id := 1, role := .provider, mobileNumber := "9990000001", fullName := "Test Provider" }
    testProvider acceptedBooking rfl (by decide) (by decide)
  have hq : q = jsonStringify
      { bookingId := some 31, providerId := some 10
        blockchainProviderId := some "prov_0123456789abcdef", name := some "Test Provider"
        serviceType := some "Home Repair & Maintenance", specialization := some ""
        experience := some 0, rating := some 4, timestamp := some 1700000000700 } := by
    have h0 : (generateQr testStore (.token 1) 31 1700000000700).res =
        { status := 200
          body := .qr (jsonStringify
            { bookingId := some 31, providerId := some 10
              blockchainProviderId := some "prov_0123456789abcdef"
              name := some "Test Provider"
              serviceType := some "Home Repair & Maintenance", specialization := some ""
              experience := some 0, rating := some 4, timestamp := some 1700000000700 }) } :=
      rfl
    rw [h0] at hres
    simp only [Response.mk.injEq, Body.qr.injEq, true_and] at hres
    exact hres.symm
  obtain ⟨h1, _, h3⟩ := hverify (generateQr testStore (.token 1) 31 1700000000700).store
    (.token 2) 1700000000800
    { id := 2, role := .customer, mobileNumber := "8880000002", fullName := "Test Customer" }
    { acceptedBooking with verificationQrData := some q } testProvider rfl
    (by rw [hq]; rfl) rfl (by decide) rfl
  exact ⟨q, hres, by rw [h1], congrArg (Option.map fun b => b.verifiedAt) h3⟩

/-- C9. QR tamper rejection: when the payload's `bookingId` names a stored
booking `B` whose provider reference resolves to the profile `P`, and the
payload's `providerId` is not `P`'s id or its `blockchainProviderId` is not
`P`'s identity string, verify-qr is answered with status 400
"QR verification failed", writes nothing and leaves the store as it was, so
`B` is still stored with its `verifiedAt` untouched. -/
theorem qr_tamper_rejected (s : Store) (cred : Credential) (payload : QrPayload) (now : Nat)
    (user : ReqUser) (bid : ObjId) (B : Booking) (P : Provider)
    (hauth : authRequired s cred = .ok user)
    (hbid : payload.bookingId = some bid)
    (hB : s.findBookingById bid = some B)
    (hP : s.findProviderById B.provider = some P)
    (htamper : payload.providerId ≠ some P._id ∨
      payload.blockchainProviderId ≠ some P.blockchainProviderId) :
    (verifyQr s cred (.object payload) now).res =
        { status := 400, body := .message "QR verification failed" } ∧
    (verifyQr s cred (.object payload) now).store = s ∧
    (verifyQr s cred (.object payload) now).trace = [] ∧
    (verifyQr s cred (.object payload) now).store.findBookingById bid = some B := by
  have hcheck : (Option.map (fun p => p._id) (some P) ≠ payload.providerId ∨
      Option.map (fun p => p.blockchainProviderId) (some P) ≠
        payload.blockchainProviderId) := by
    rcases htamper with h | h
    · left; exact fun heq => h heq.symm
    · right; exact fun heq => h heq.symm
  have hout : verifyQr s cred (.object payload) now = refuse s 400 "QR verification failed" := by
    simp only [verifyQr, withAuth, hauth, jsonParse, hbid, hB, hP]
    rw [if_neg (by simp), if_pos hcheck]
  rw [hout]
  exact ⟨rfl, rfl, rfl, hB⟩

/-- Witness of C9: the genuine payload of booking 31 with only the provider
id changed, and with only the identity string changed, are both answered
with status 400 and leave the scenario store as it was. -/
theorem qr_tamper_rejected_witness :
    ((verifyQr testStore (.token 2) (.object { genuinePayload with providerId := some 11 })
        1700000000800).res = { status := 400, body := .message "QR verification failed" } ∧
      (verifyQr testStore (.token 2) (.object { genuinePayload with providerId := some 11 })
        1700000000800).store = testStore) ∧
    ((verifyQr testStore (.token 2)
        (.object { genuinePayload with blockchainProviderId := some "prov_ffffffffffffffff" })
        1700000000800).res = { status := 400, body := .message "QR verification failed" } ∧
      (verifyQr testStore (.token 2)
        (.object { genuinePayload with blockchainProviderId := some "prov_ffffffffffffffff" })
        1700000000800).store = testStore) :=
  by
  have h1 := qr_tamper_rejected testStore (.token 2)
    { genuinePayload with providerId := some 11 } 1700000000800
    { id := 2, role := .customer, mobileNumber := "8880000002", fullName := "Test Customer" }
    31 acceptedBooking testProvider rfl rfl (by decide) (by decide) (Or.inl (by decide))
  have h2 := qr_tamper_rejected testStore (.token 2)
    { genuinePayload with blockchainProviderId := some "prov_ffffffffffffffff" }
    1700000000800
    { id := 2, role := .customer, mobileNumber := "8880000002", fullName := "Test Customer" }
    31 acceptedBooking testProvider rfl rfl (by decide) (by decide) (Or.inr (by decide))
  exact ⟨⟨h1.1, h1.2.1⟩, ⟨h2.1, h2.2.1⟩⟩

/-! ## Booking creation -/

theorem findProviderById_of_mem {s : Store} {P : Provider} (hP : P ∈ s.providers) :
    ∃ P1, s.findProviderById P._id = some P1 ∧ P1._id = P._id := by
  cases h : s.findProviderById P._id with
  | none =>
    simp only [Store.findProviderById, List.find?_eq_none] at h
    exact absurd (by simp) (h P hP)
  | some P1 => exact ⟨P1, rfl, providerId_of_find h⟩

theorem findProviderByUser_of_mem {s : Store} {P : Provider} (hP : P ∈ s.providers) :
    ∃ P2, s.findProviderByUser P.user = some P2 ∧ P2 ∈ s.providers ∧ P2.user = P.user := by
  cases h : s.findProviderByUser P.user with
  | none =>
    simp only [Store.findProviderByUser, List.find?_eq_none] at h
    exact absurd (by simp) (h P hP)
  | some P2 =>
    refine ⟨P2, rfl, List.mem_of_find?_eq_some h, ?_⟩
    have := List.find?_some h
    simpa using this

/-- C10. Provider-id normalization: for an authenticated customer with a
customer profile and a non-empty description, and every stored provider
profile `P` whose owner has no other profile and whose owner's id is not the
id of a provider profile, creation with `providerId = P._id` and creation
with `providerId = P.user` are both answered with status 201 and both append
one booking whose `provider` is `P._id`; and for every `providerId` that is
neither the id nor the owner of a stored provider profile, creation is
answered with status 404 "Provider not found" and the store is left as it
was. -/
theorem provider_id_normalization (s : Store) (cred : Credential) (description : Option String)
    (scheduledTime : Option Nat) (amount : Option ℚ) (serviceType : Option String)
    (insuranceOpted : Bool) (newId : ObjId) (now rnd : Nat) (user : ReqUser)
    (customer : Customer) (text : String)
    (hauth : authRequired s cred = .ok user) (hrole : user.role = .customer)
    (hc : s.findCustomerByUser user.id = some customer)
    (hdesc : description = some text) (htext : text ≠ "") :
    (∀ P ∈ s.providers,
      (∀ q ∈ s.providers, q.user = P.user → q._id = P._id) →
      (∀ q ∈ s.providers, q._id ≠ P.user) →
      (∃ b : Booking,
        (createBooking s cred (some P._id) description scheduledTime amount serviceType
          insuranceOpted newId now rnd).res = { status := 201, body := .booking b } ∧
        (createBooking s cred (some P._id) description scheduledTime amount serviceType
          insuranceOpted newId now rnd).store.bookings = s.bookings ++ [b] ∧
        b.provider = P._id) ∧
      (∃ b : Booking,
        (createBooking s cred (some P.user) description scheduledTime amount serviceType
          insuranceOpted newId now rnd).res = { status := 201, body := .booking b } ∧
        (createBooking s cred (some P.user) description scheduledTime amount serviceType
          insuranceOpted newId now rnd).store.bookings = s.bookings ++ [b] ∧
        b.provider = P._id)) ∧
    (∀ providerId : ObjId,
      (∀ q ∈ s.providers, q._id ≠ providerId ∧ q.user ≠ providerId) →
      (createBooking s cred (some providerId) description scheduledTime amount serviceType
        insuranceOpted newId now rnd).res =
          { status := 404, body := .message "Provider not found" } ∧
      (createBooking s cred (some providerId) description scheduledTime amount serviceType
        insuranceOpted newId now rnd).store = s) := by
  have hrole' := requireRole_self user .customer hrole
  subst hdesc
  refine ⟨?_, ?_⟩
  · intro P hP hone hU
    refine ⟨?_, ?_⟩
    · obtain ⟨P1, hP1, hid1⟩ := findProviderById_of_mem hP
      simp [createBooking, withRole, hauth, hrole', hc, htext, hP1, hid1, Store.createBooking]
    · obtain ⟨P2, hP2, hmem2, huser2⟩ := findProviderByUser_of_mem hP
      have hnone : s.findProviderById P.user = none := by
        simp only [Store.findProviderById, List.find?_eq_none]
        intro q hq
        simpa using hU q hq
      have hid2 : P2._id = P._id := hone P2 hmem2 huser2
      simp [createBooking, withRole, hauth, hrole', hc, htext, hP2, hnone, hid2,
        Store.createBooking]
  · intro providerId hno
    have hnone1 : s.findProviderById providerId = none := by
      simp only [Store.findProviderById, List.find?_eq_none]
      intro q hq
      simpa using (hno q hq).1
    have hnone2 : s.findProviderByUser providerId = none := by
      simp only [Store.findProviderByUser, List.find?_eq_none]
      intro q hq
      simpa using (hno q hq).2
    simp [createBooking, withRole, hauth, hrole', hc, htext, hnone1, hnone2, refuse]

/-- Witness of C10: in the scenario store the customer's bookings created with
the provider profile id 10 and with its owner's user id 1 both store
`provider = 10`, and a booking for the unknown id 99 is answered with status
404 and stores nothing. -/
theorem provider_id_normalization_witness :
    (∃ b : Booking,
      (createBooking testStore (.token 2) (some 10) (some "Fix my leak") none none none true
        33 1700000000900 7).res = { status := 201, body := .booking b } ∧
      b.provider = 10) ∧
    (∃ b : Booking,
      (createBooking testStore (.token 2) (some 1) (some "Fix my leak") none none none true
        33 1700000000900 7).res = { status := 201, body := .booking b } ∧
      b.provider = 10) ∧
    (createBooking testStore (.token 2) (some 99) (some "Fix my leak") none none none true
        33 1700000000900 7).res = { status := 404, body := .message "Provider not found" } ∧
    (createBooking testStore (.token 2) (some 99) (some "Fix my leak") none none none true
        33 1700000000900 7).store = testStore := by
  have h := provider_id_normalization testStore (.token 2) (some "Fix my leak") none none none
    true 33 1700000000900 7
    { id := 2, role := .customer, mobileNumber := "8880000002", fullName := "Test Customer" }
    testCustomer "Fix my leak" rfl rfl (by decide) rfl (by decide)
  obtain ⟨⟨b1, hb1, _, hp1⟩, ⟨b2, hb2, _, hp2⟩⟩ :=
    h.1 testProvider (by decide) (by decide) (by decide)
  have h404 := h.2 99 (by decide)
  exact ⟨⟨b1, hb1, hp1⟩, ⟨b2, hb2, hp2⟩, h404.1, h404.2⟩

/-! ## C11: location gating -/

/-- The condition the tracking handler tests is the negation of the gate. -/
theorem locationVisible_iff (b : Booking) :
    ¬ (b.isLocationShared = false ∧ b.status ≠ .in_progress ∧ b.status ≠ .completed) ↔
      b.locationVisible := by
  unfold Booking.locationVisible
  cases b.isLocationShared
  · simp only [true_and, Bool.false_eq_true, false_or]
    tauto
  · simp

/-- The gate of the tracking read where the provider reference resolves: for
an authenticated customer with a customer profile and the booking `b` of that
profile resolved for `bookingId`: when neither `isLocationShared` is true nor
the status is `in_progress` or `completed`, the tracking read is answered with
status 403 "Location sharing not active yet" and nothing else; when one of
them holds and the booking's provider resolves to `p`, it is answered with
status 200 and `p.currentLocation`; and a status 200 answer is given only when
the gate holds. -/
theorem location_gating (s : Store) (cred : Credential) (bookingId : ObjId) (user : ReqUser)
    (customer : Customer) (b : Booking)
    (hauth : authRequired s cred = .ok user) (hrole : user.role = .customer)
    (hc : s.findCustomerByUser user.id = some customer)
    (hb : s.findBookingOfCustomer bookingId customer._id = some b) :
    (¬ b.locationVisible →
      getTracking s cred bookingId = refuse s 403 "Location sharing not active yet") ∧
    (b.locationVisible → ∀ p : Provider, s.findProviderById b.provider = some p →
      (getTracking s cred bookingId).res =
        { status := 200
          body := .tracking p.currentLocation p._id p.blockchainProviderId b.status }) ∧
    ((getTracking s cred bookingId).res.status = 200 → b.locationVisible) := by
  have hrole' := requireRole_self user .customer hrole
  refine ⟨?_, ?_, ?_⟩
  · intro hgate
    have hcond : b.isLocationShared = false ∧ b.status ≠ .in_progress ∧
        b.status ≠ .completed := by
      by_contra hn
      exact hgate ((locationVisible_iff b).mp hn)
    simp only [getTracking, withRole, hauth, hrole', hc, hb]
    rw [if_pos hcond]
  · intro hgate p hp
    have hcond := (locationVisible_iff b).mpr hgate
    simp only [getTracking, withRole, hauth, hrole', hc, hb]
    rw [if_neg hcond]
    simp only [hp]
  · intro hstatus
    by_contra hgate
    have hcond : b.isLocationShared = false ∧ b.status ≠ .in_progress ∧
        b.status ≠ .completed := by
      by_contra hn
      exact hgate ((locationVisible_iff b).mp hn)
    simp only [getTracking, withRole, hauth, hrole', hc, hb] at hstatus
    rw [if_pos hcond] at hstatus
    simp [refuse] at hstatus

/-- In the scenario store the customer's tracking read of the pending booking
32 is answered with status 403, that of the accepted booking 31, whose
location sharing is on, with status 200 and the provider's location. -/
theorem location_gating_witness :
    getTracking testStore (.token 2) 32 =
      refuse testStore 403 "Location sharing not active yet" ∧
    (getTracking testStore (.token 2) 31).res =
      { status := 200
        body := .tracking testProvider.currentLocation 10 "prov_0123456789abcdef"
          .accepted } :=
  ⟨(location_gating testStore (.token 2) 32
      { id := 2, role := .customer, mobileNumber := "8880000002", fullName := "Test Customer" }
      testCustomer pendingBooking rfl rfl (by decide) (by decide)).1 (by decide),
   (location_gating testStore (.token 2) 31
      { id := 2, role := .customer, mobileNumber := "8880000002", fullName := "Test Customer" }
      testCustomer acceptedBooking rfl rfl (by decide) (by decide)).2.1 (by decide)
      testProvider (by decide)⟩

/-- C11, the handler evaluated: booking 34 belongs to the calling customer,
has location sharing on, and its `provider` field resolves to no provider
profile.  The customer's tracking read of it is answered neither with the
provider's location nor with status 403: reading
`booking.provider.currentLocation` throws a `TypeError`, which is answered
with status 500. -/
theorem tracking_throws_without_provider :
    legacyStore.findCustomerByUser 2 = some testCustomer ∧
    legacyStore.findBookingOfCustomer 34 testCustomer._id = some legacyBooking ∧
    legacyBooking.locationVisible ∧
    legacyStore.findProviderById legacyBooking.provider = none ∧
    getTracking legacyStore (.token 2) 34 = throwErr legacyStore [] .typeError ∧
    (getTracking legacyStore (.token 2) 34).res =
      { status := 500, body := .thrown .typeError } := by
  refine ⟨by decide, by decide, by decide, by decide, rfl, rfl⟩

/-! ## C12: ownership of the decision action -/

/-- A query that only one stored document satisfies returns that document. -/
theorem find_unique {α : Type} (p : α → Bool) (xs : List α) (B : α) (hB : B ∈ xs)
    (hp : p B = true) (huniq : ∀ b ∈ xs, p b = true → b = B) : xs.find? p = some B := by
  cases h : xs.find? p with
  | none =>
    rw [List.find?_eq_none] at h
    exact absurd hp (h B hB)
  | some b =>
    have hb : b ∈ xs := List.mem_of_find?_eq_some h
    have hpb : p b = true := List.find?_some h
    rw [huniq b hb hpb]

theorem findBookingOfEither_own {s : Store} {B : Booking} {p1 p2 : ObjId}
    (hB : B ∈ s.bookings) (huniq : ∀ b ∈ s.bookings, b._id = B._id → b = B)
    (hown : B.provider = p1 ∨ B.provider = p2) :
    s.findBookingOfEither B._id p1 p2 = some B := by
  apply find_unique _ _ _ hB
  · simpa using hown
  · intro b hb hpb
    simp only [decide_eq_true_eq] at hpb
    exact huniq b hb hpb.1

theorem findBookingOfEither_other {s : Store} {B : Booking} {p1 p2 : ObjId}
    (huniq : ∀ b ∈ s.bookings, b._id = B._id → b = B)
    (hown : ¬ (B.provider = p1 ∨ B.provider = p2)) :
    s.findBookingOfEither B._id p1 p2 = none := by
  simp only [Store.findBookingOfEither, List.find?_eq_none, decide_eq_true_eq]
  intro b hb hpb
  have := huniq b hb hpb.1
  subst this
  exact hown hpb.2

/-- C12. Ownership of the decision action: for a stored booking `B` (the only
stored booking with its id), an authenticated caller of role provider whose
provider profile is `P`, and a decision that is "accept" or "reject", the
decision is answered with status 200 exactly when `B.provider` is `P`'s id or
the id of `P`'s owning user; when it is neither, the answer is status 404
"Booking not found", nothing is written or emitted and the store, `B`
included, is left as it was. -/
theorem decision_ownership (s : Store) (cred : Credential) (decision : String)
    (amount priceMin priceMax : Option ℚ) (now : Nat) (user : ReqUser) (P : Provider)
    (B : Booking)
    (hauth : authRequired s cred = .ok user) (hrole : user.role = .provider)
    (hP : s.findProviderByUser user.id = some P)
    (hB : B ∈ s.bookings) (huniq : ∀ b ∈ s.bookings, b._id = B._id → b = B)
    (hdec : decision = "accept" ∨ decision = "reject") :
    ((jobDecision s cred B._id decision amount priceMin priceMax now).res.status = 200 ↔
      (B.provider = P._id ∨ B.provider = P.user)) ∧
    (¬ (B.provider = P._id ∨ B.provider = P.user) →
      jobDecision s cred B._id decision amount priceMin priceMax now =
        refuse s 404 "Booking not found") := by
  have hrole' := requireRole_self user .provider hrole
  by_cases hown : B.provider = P._id ∨ B.provider = P.user
  · have hfind := findBookingOfEither_own hB huniq hown
    refine ⟨⟨fun _ => hown, fun _ => ?_⟩, fun hn => absurd hown hn⟩
    rcases hdec with rfl | rfl
    · simp [jobDecision, withRole, hauth, hrole', hP, hfind, decisionCommit]
    · simp [jobDecision, withRole, hauth, hrole', hP, hfind, decisionCommit]
  · have hfind := findBookingOfEither_other (s := s) huniq hown
    have hout : jobDecision s cred B._id decision amount priceMin priceMax now =
        refuse s 404 "Booking not found" := by
      simp [jobDecision, withRole, hauth, hrole', hP, hfind]
    refine ⟨⟨fun h200 => ?_, fun h => absurd h hown⟩, fun _ => hout⟩
    rw [hout] at h200
    simp [refuse] at h200

/-- Witness of C12: with two providers registered, the first provider's accept
of booking 34, whose `provider` field holds that provider's user id, is
answered with status 200, and the second provider's accept of the same
booking is answered with status 404 and leaves the store as it was. -/
theorem decision_ownership_witness :
    (jobDecision twoProviderStore (.token 1) 34 "accept" none (some 500) (some 800)
      1700000001000).res.status = 200 ∧
    jobDecision twoProviderStore (.token 3) 34 "accept" none (some 500) (some 800)
      1700000001000 = refuse twoProviderStore 404 "Booking not found" :=
  ⟨(decision_ownership twoProviderStore (.token 1) "accept" none (some 500) (some 800)
      1700000001000
      { id := 1, role := .provider, mobileNumber := "9990000001", fullName := "Test Provider" }
      testProvider legacyBooking rfl rfl (by decide) (by decide) (by decide)
      (Or.inl rfl)).1.mpr (Or.inr (by decide)),
   (decision_ownership twoProviderStore (.token 3) "accept" none (some 500) (some 800)
      1700000001000
      { id := 3, role := .provider, mobileNumber := "9990000003", fullName := "Other Provider" }
      otherProvider legacyBooking rfl rfl (by decide) (by decide) (by decide)
      (Or.inl rfl)).2 (by decide)⟩

/-! ## C13, C14, C15: the handlers evaluated -/

/-- C13, the handler evaluated: booking 34 stores the provider's user id (1)
in its `provider` field.  The provider's decision on it, which queries with
`$or` over the profile id and the user id, is answered with status 200; the
same provider's complete, which queries with the profile id only, is answered
with status 404 "Booking not found" and completes nothing. -/
theorem complete_misses_owner_id_form :
    legacyBooking.provider = testProvider.user ∧
    (jobDecision legacyStore (.token 1) 34 "accept" none none none
      1700000001000).res.status = 200 ∧
    completeBooking legacyStore (.token 1) 34 1700000001000 =
      refuse legacyStore 404 "Booking not found" := by
  refine ⟨rfl, by decide, rfl⟩

/-- C14, the handlers evaluated: pay with method "blockchain" on booking 34,
whose provider reference resolves to no provider profile, ends in a thrown
`TypeError` (status 500) after `booking.save()`: the stored booking is then
marked paid with method blockchain, and no ledger entry exists.  A review of
the completed booking 30 without a rating ends in a thrown validation error
(status 500) after `booking.save()`: the stored booking then carries the
review text while the provider is as before. -/
theorem failure_after_booking_write :
    legacyStore.findProviderById legacyBooking.provider = none ∧
    (payBooking legacyStore (.token 2) 34 none (some "blockchain") 60 "0xabc"
      1700000001100).res = { status := 500, body := .thrown .typeError } ∧
    ((payBooking legacyStore (.token 2) 34 none (some "blockchain") 60 "0xabc"
      1700000001100).store.findBookingById 34).map
        (fun b => (b.paymentStatus, b.paymentMethod)) =
      some (.paid, some .blockchain) ∧
    (legacyStore.findBookingById 34).map (fun b => (b.paymentStatus, b.paymentMethod)) =
      some (.pending, none) ∧
    (payBooking legacyStore (.token 2) 34 none (some "blockchain") 60 "0xabc"
      1700000001100).store.walletTransactions = [] ∧
    (submitReview testStore (.token 2) 30 none (some "Great")).res =
      { status := 500, body := .thrown .validationError } ∧
    ((submitReview testStore (.token 2) 30 none (some "Great")).store.findBookingById 30).map
        (fun b => b.review) = some (some "Great") ∧
    (testStore.findBookingById 30).map (fun b => b.review) = some none := by
  refine ⟨by decide, rfl, by decide, by decide, rfl, rfl, by decide, by decide⟩

/-- C15, the handler evaluated: the provider accepts the pending booking 32
with `priceMin = 800` and `priceMax = 500`.  The decision is answered with
status 200 and the booking is stored accepted with
`priceRange = { min: 800, max: 500 }` and location sharing on. -/
theorem inverted_range_accepted :
    (jobDecision testStore (.token 1) 32 "accept" none (some 800) (some 500)
      1700000001200).res.status = 200 ∧
    ((jobDecision testStore (.token 1) 32 "accept" none (some 800) (some 500)
      1700000001200).store.findBookingById 32).map
        (fun b => (b.status, b.priceRange, b.isPriceAccepted, b.isLocationShared)) =
      some (.accepted, { min := some 800, max := some 500 }, false, true) ∧
    (testStore.findBookingById 32).map
        (fun b => (b.status, b.priceRange, b.isPriceAccepted, b.isLocationShared)) =
      some (.pending, { min := none, max := none }, false, false) := by
  refine ⟨by decide, by decide, by decide⟩

/-! ## C16, C17: effects of the provider's accept and of the customer's price decision -/

/-- C16. Accept-time effects and their asymmetry: for an authenticated caller
of role provider with profile `P` and the booking `B` the decision query
resolves, an accept with non-zero `priceMin` and `priceMax` is answered with
status 200 and stores `B` with `status = accepted`,
`priceRange = {priceMin, priceMax}`, `isPriceAccepted = false`,
`isLocationShared = true` and every other field, `amount` included, as it
was; an accept without such a pair and with a non-zero amount `a` is answered
with status 200 and stores `B` with `status = accepted`, `amount = a`,
`isLocationShared = true` and every other field, `isPriceAccepted` and
`priceRange` included, as it was. -/
theorem accept_effects (s : Store) (cred : Credential) (bookingId : ObjId)
    (amount priceMin priceMax : Option ℚ) (now : Nat) (user : ReqUser) (P : Provider)
    (B : Booking)
    (hauth : authRequired s cred = .ok user) (hrole : user.role = .provider)
    (hP : s.findProviderByUser user.id = some P)
    (hB : s.findBookingOfEither bookingId P._id P.user = some B) :
    (truthy priceMin = true ∧ truthy priceMax = true →
      (jobDecision s cred bookingId "accept" amount priceMin priceMax now).res =
        { status := 200
          body := .booking
            { B with
              status := .accepted
              priceRange := { min := priceMin, max := priceMax }
              isPriceAccepted := false
              isLocationShared := true } } ∧
      (jobDecision s cred bookingId "accept" amount priceMin priceMax now).store =
        s.saveBooking
          { B with
            status := .accepted
            priceRange := { min := priceMin, max := priceMax }
            isPriceAccepted := false
            isLocationShared := true }) ∧
    (¬ (truthy priceMin = true ∧ truthy priceMax = true) →
      ∀ a : ℚ, amount = some a → a ≠ 0 →
      (jobDecision s cred bookingId "accept" amount priceMin priceMax now).res =
        { status := 200
          body := .booking { B with status := .accepted, amount := a, isLocationShared := true } } ∧
      (jobDecision s cred bookingId "accept" amount priceMin priceMax now).store =
        s.saveBooking { B with status := .accepted, amount := a, isLocationShared := true }) := by
  have hrole' := requireRole_self user .provider hrole
  refine ⟨?_, ?_⟩
  · intro hrange
    simp only [jobDecision, withRole, hauth, hrole', hP, hB, if_true, decisionCommit]
    rw [if_pos hrange]
    exact ⟨rfl, rfl⟩
  · intro hrange a ha hne
    have hamount : truthy amount = true := by
      rw [ha]
      simpa [truthy] using hne
    simp only [jobDecision, withRole, hauth, hrole', hP, hB, if_true, decisionCommit]
    rw [if_neg hrange, if_pos hamount, ha]
    exact ⟨rfl, rfl⟩

/-- Witness of C16: in the scenario store the provider accepts the pending
booking 32 once with the range 500 to 800 and once with the amount 650 only;
the stored bookings differ as stated. -/
theorem accept_effects_witness :
    (jobDecision testStore (.token 1) 32 "accept" none (some 500) (some 800)
      1700000001300).store =
      testStore.saveBooking
        { pendingBooking with
          status := .accepted
          priceRange := { min := some 500, max := some 800 }
          isPriceAccepted := false
          isLocationShared := true } ∧
    (jobDecision testStore (.token 1) 32 "accept" (some 650) none none
      1700000001300).store =
      testStore.saveBooking
        { pendingBooking with status := .accepted, amount := 650, isLocationShared := true } := by
  have h1 := (accept_effects testStore (.token 1) 32 none (some 500) (some 800) 1700000001300
    { id := 1, role := .provider, mobileNumber := "9990000001", fullName := "Test Provider" }
    testProvider pendingBooking rfl rfl (by decide) (by decide)).1 (by decide)
  have h2 := (accept_effects testStore (.token 1) 32 (some 650) none none 1700000001300
    { id := 1, role := .provider, mobileNumber := "9990000001", fullName := "Test Provider" }
    testProvider pendingBooking rfl rfl (by decide) (by decide)).2 (by decide) 650 rfl
    (by norm_num)
  exact ⟨h1.2, h2.2⟩

/-- C17. Price decision effects: for an authenticated caller with a customer
profile and the booking `B` of that profile resolved for `id`, confirm-price
with `accepted = true` is answered with status 200 and stores `B` with
`isPriceAccepted = true`, `isLocationShared = true` and every other field,
`status` included, as it was; with `accepted = false` it is answered with
status 200 and stores `B` with `status = rejected`, `isPriceAccepted = false`
and every other field as it was. -/
theorem confirm_price_effects (s : Store) (cred : Credential) (id : ObjId) (now : Nat)
    (user : ReqUser) (customer : Customer) (B : Booking)
    (hauth : authRequired s cred = .ok user)
    (hc : s.findCustomerByUser user.id = some customer)
    (hb : s.findBookingOfCustomer id customer._id = some B) :
    ((confirmPrice s cred id true now).res =
        { status := 200
          body := .booking { B with isPriceAccepted := true, isLocationShared := true } } ∧
      (confirmPrice s cred id true now).store =
        s.saveBooking { B with isPriceAccepted := true, isLocationShared := true }) ∧
    ((confirmPrice s cred id false now).res =
        { status := 200
          body := .booking { B with status := .rejected, isPriceAccepted := false } } ∧
      (confirmPrice s cred id false now).store =
        s.saveBooking { B with status := .rejected, isPriceAccepted := false }) := by
  simp [confirmPrice, withAuth, hauth, hc, hb]

/-- Witness of C17: in the scenario store the customer's acceptance and
rejection of the price range of booking 31 store the booking as stated. -/
theorem confirm_price_effects_witness :
    (confirmPrice testStore (.token 2) 31 true 1700000001400).store =
      testStore.saveBooking
        { acceptedBooking with isPriceAccepted := true, isLocationShared := true } ∧
    (confirmPrice testStore (.token 2) 31 false 1700000001400).store =
      testStore.saveBooking
        { acceptedBooking with status := .rejected, isPriceAccepted := false } := by
  have h := confirm_price_effects testStore (.token 2) 31 1700000001400
    { id := 2, role := .customer, mobileNumber := "8880000002", fullName := "Test Customer" }
    testCustomer acceptedBooking rfl (by decide) (by decide)
  exact ⟨h.1.2, h.2.2⟩

/-! ## C18: which requests leave the status alone -/

theorem keepsStatus_same {s : Store} {B : Booking} (hB : B ∈ s.bookings)
    (huniq : ∀ b ∈ s.bookings, b._id = B._id → b = B) : s.KeepsStatusOf B :=
  ⟨fun x hx hid => by rw [huniq x hx hid], B, hB, rfl⟩

theorem keepsStatus_saveBooking {s : Store} {B found q : Booking} (hB : B ∈ s.bookings)
    (huniq : ∀ b ∈ s.bookings, b._id = B._id → b = B) (hfound : found ∈ s.bookings)
    (hid : q._id = found._id) (hst : q.status = found.status) :
    (s.saveBooking q).KeepsStatusOf B := by
  refine ⟨?_, ?_⟩
  · intro x hx hxid
    rcases mem_saveBooking hx with rfl | hold
    · have : found = B := huniq found hfound (hid.symm.trans hxid)
      rw [hst, this]
    · rw [huniq x hold hxid]
  · by_cases hq : B._id = q._id
    · refine ⟨q, ?_, hq.symm⟩
      simp only [Store.saveBooking, List.mem_map]
      exact ⟨B, hB, by simp [hq]⟩
    · refine ⟨B, ?_, rfl⟩
      simp only [Store.saveBooking, List.mem_map]
      exact ⟨B, hB, by simp [hq]⟩

theorem keepsStatus_submitReview (s : Store) (cred : Credential) (id : ObjId)
    (rating : Option ℚ) (review : Option String) (B : Booking) (hB : B ∈ s.bookings)
    (huniq : ∀ b ∈ s.bookings, b._id = B._id → b = B) :
    (submitReview s cred id rating review).store.KeepsStatusOf B := by
  have h := keepsStatus_same hB huniq
  unfold submitReview withAuth
  cases authRequired s cred with
  | error r => exact h
  | ok user =>
    simp only
    cases s.findCustomerByUser user.id with
    | none => exact h
    | some customer =>
      simp only
      cases hb : s.findBookingOfCustomer id customer._id with
      | none => exact h
      | some found =>
        have hsaved : (s.saveBooking { found with rating := rating, review := review
            }).KeepsStatusOf B :=
          keepsStatus_saveBooking hB huniq (mem_of_findBookingOfCustomer hb) rfl rfl
        simp only
        split
        · exact h
        · split
          · exact h
          · split
            · exact hsaved
            · cases rating with
              | none => exact hsaved
              | some r => exact hsaved

theorem keepsStatus_payBooking (s : Store) (cred : Credential) (bookingId : ObjId)
    (amount : Option ℚ) (method : Option String) (txId : ObjId) (txHash : String) (now : Nat)
    (B : Booking) (hB : B ∈ s.bookings) (huniq : ∀ b ∈ s.bookings, b._id = B._id → b = B) :
    (payBooking s cred bookingId amount method txId txHash now).store.KeepsStatusOf B := by
  have h := keepsStatus_same hB huniq
  unfold payBooking withAuth
  cases authRequired s cred with
  | error r => exact h
  | ok user =>
    simp only
    cases hb : s.findBookingById bookingId with
    | none => exact h
    | some found =>
      simp only
      split
      · exact h
      · rename_i pm _
        have hsaved : (s.saveBooking { found with
            paymentMethod := some pm
            amount := if truthy amount = true then amount.getD 0 else found.amount
            paymentStatus := .paid }).KeepsStatusOf B :=
          keepsStatus_saveBooking hB huniq (mem_of_findBookingById hb) rfl rfl
        split
        · split
          · exact hsaved
          · exact hsaved
        · exact hsaved

theorem keepsStatus_generateQr (s : Store) (cred : Credential) (id : ObjId) (now : Nat)
    (B : Booking) (hB : B ∈ s.bookings) (huniq : ∀ b ∈ s.bookings, b._id = B._id → b = B) :
    (generateQr s cred id now).store.KeepsStatusOf B := by
  have h := keepsStatus_same hB huniq
  unfold generateQr withAuth
  cases authRequired s cred with
  | error r => exact h
  | ok user =>
    simp only
    cases s.findProviderByUser user.id with
    | none => exact h
    | some provider =>
      simp only
      cases hb : s.findBookingOfProvider id provider._id with
      | none => exact h
      | some found =>
        simp only
        cases s.findUser provider.user with
        | none => exact h
        | some owner =>
          exact keepsStatus_saveBooking hB huniq (mem_of_findBookingOfProvider hb) rfl rfl

theorem keepsStatus_verifyQr (s : Store) (cred : Credential) (qrData : QrText) (now : Nat)
    (B : Booking) (hB : B ∈ s.bookings) (huniq : ∀ b ∈ s.bookings, b._id = B._id → b = B) :
    (verifyQr s cred qrData now).store.KeepsStatusOf B := by
  have h := keepsStatus_same hB huniq
  unfold verifyQr withAuth
  cases authRequired s cred with
  | error r => exact h
  | ok user =>
    simp only
    split
    · exact h
    · cases jsonParse qrData with
      | none => exact h
      | some parsed =>
        simp only
        cases parsed.bookingId with
        | none => exact h
        | some bookingId =>
          simp only
          cases hb : s.findBookingById bookingId with
          | none => exact h
          | some found =>
            simp only
            split
            · exact h
            · exact keepsStatus_saveBooking hB huniq (mem_of_findBookingById hb) rfl rfl

theorem keepsStatus_confirmPrice_accept (s : Store) (cred : Credential) (id : ObjId)
    (now : Nat) (B : Booking) (hB : B ∈ s.bookings)
    (huniq : ∀ b ∈ s.bookings, b._id = B._id → b = B) :
    (confirmPrice s cred id true now).store.KeepsStatusOf B := by
  have h := keepsStatus_same hB huniq
  unfold confirmPrice withAuth
  cases authRequired s cred with
  | error r => exact h
  | ok user =>
    simp only
    cases s.findCustomerByUser user.id with
    | none => exact h
    | some customer =>
      simp only
      cases hb : s.findBookingOfCustomer id customer._id with
      | none => exact h
      | some found =>
        exact keepsStatus_saveBooking hB huniq (mem_of_findBookingOfCustomer hb) rfl rfl

/-- C18 as stated fails: booking 30 of the scenario store is completed, a
terminal state; the provider's decision "reject" on it is answered with
status 200 and stores it rejected, and the customer's confirm-price with
`accepted = false` on it does the same. -/
theorem terminal_status_overwritten :
    (testStore.findBookingById 30).map (fun b => (b.status, b.status.terminal)) =
      some (.completed, true) ∧
    (jobDecision testStore (.token 1) 30 "reject" none none none 1700000001500).res.status =
      200 ∧
    ((jobDecision testStore (.token 1) 30 "reject" none none none
      1700000001500).store.findBookingById 30).map (fun b => b.status) = some .rejected ∧
    ((confirmPrice testStore (.token 2) 30 false 1700000001500).store.findBookingById 30).map
      (fun b => b.status) = some .rejected := by
  refine ⟨by decide, by decide, by decide, by decide⟩

/-- C18, amended. For every stored booking `B` (the only stored booking with
its id), whatever its status and so in particular when it is rejected,
completed or cancelled, a review, a pay, a generate-qr, a booking verify-qr
and a confirm-price with `accepted = true`, by any caller and with any
arguments, leave `B` stored with the status it had. -/
theorem terminal_status_kept (s : Store) (cred : Credential) (now : Nat) (req : Request)
    (B : Booking) (hreq : req.assignsNoStatus = true) (hB : B ∈ s.bookings)
    (huniq : ∀ b ∈ s.bookings, b._id = B._id → b = B) :
    (∀ x ∈ (step s cred now req).store.bookings, x._id = B._id → x.status = B.status) ∧
    ∃ x ∈ (step s cred now req).store.bookings, x._id = B._id := by
  cases req with
  | createBooking providerId description scheduledTime amount serviceType insuranceOpted
      newId rnd => simp [Request.assignsNoStatus] at hreq
  | decision bookingId decision amount priceMin priceMax =>
    simp [Request.assignsNoStatus] at hreq
  | confirmPrice id accepted =>
    simp only [Request.assignsNoStatus] at hreq
    subst hreq
    exact keepsStatus_confirmPrice_accept s cred id now B hB huniq
  | complete id => simp [Request.assignsNoStatus] at hreq
  | generateQr id => exact keepsStatus_generateQr s cred id now B hB huniq
  | verifyQr qrData => exact keepsStatus_verifyQr s cred qrData now B hB huniq
  | review id rating review => exact keepsStatus_submitReview s cred id rating review B hB huniq
  | pay bookingId amount method txId txHash =>
    exact keepsStatus_payBooking s cred bookingId amount method txId txHash now B hB huniq
  | createClaim bookingId type description evidenceImages newId =>
    simp [Request.assignsNoStatus] at hreq

/-- Witness of C18, amended: the completed booking 30 of the scenario store is
still stored completed after the customer pays it. -/
theorem terminal_status_kept_witness :
    (∀ x ∈ (step testStore (.token 2) 1700000001600
        (.pay 30 (some 700) (some "online") 61 "0xdef")).store.bookings,
      x._id = completedBooking._id → x.status = completedBooking.status) ∧
    ∃ x ∈ (step testStore (.token 2) 1700000001600
        (.pay 30 (some 700) (some "online") 61 "0xdef")).store.bookings,
      x._id = completedBooking._id :=
  terminal_status_kept testStore (.token 2) 1700000001600
    (.pay 30 (some 700) (some "online") 61 "0xdef") completedBooking rfl (by decide)
    (by decide)

/-! ## C19, C20: complete and generate-qr do not look at the status -/

/-- C19 as stated fails: booking 32 of the scenario store is pending; the
provider's complete on it is answered with status 200 and stores it
completed. -/
theorem pending_booking_completed :
    (testStore.findBookingById 32).map (fun b => b.status) = some .pending ∧
    (completeBooking testStore (.token 1) 32 1700000001700).res.status = 200 ∧
    ((completeBooking testStore (.token 1) 32 1700000001700).store.findBookingById 32).map
      (fun b => b.status) = some .completed := by
  refine ⟨by decide, by decide, by decide⟩

/-- C19, amended. For an authenticated caller with provider profile `P` and
the booking `B` resolved for `id` among the bookings whose `provider` is
`P`'s id, the complete action is answered with status 200 and stores `B`
with `status = completed` and every other field as it was, whatever the
prior status, pending included. -/
theorem complete_sets_completed (s : Store) (cred : Credential) (id : ObjId) (now : Nat)
    (user : ReqUser) (P : Provider) (B : Booking)
    (hauth : authRequired s cred = .ok user)
    (hP : s.findProviderByUser user.id = some P)
    (hB : s.findBookingOfProvider id P._id = some B) :
    (completeBooking s cred id now).res =
      { status := 200, body := .booking { B with status := .completed } } ∧
    (completeBooking s cred id now).store = s.saveBooking { B with status := .completed } ∧
    (completeBooking s cred id now).store.findBookingById B._id =
      some { B with status := .completed } := by
  have hout : completeBooking s cred id now =
      { store := s.saveBooking { B with status := .completed }
        trace := [.write .bookings B._id,
                  .emit (.booking id) (.statusChanged id .completed now)]
        res := { status := 200, body := .booking { B with status := .completed } } } := by
    simp [completeBooking, withAuth, hauth, hP, hB]
  rw [hout]
  refine ⟨rfl, rfl, ?_⟩
  have hmem : B ∈ s.bookings := mem_of_findBookingOfProvider hB
  cases hfirst : s.findBookingById B._id with
  | none =>
    simp only [Store.findBookingById, List.find?_eq_none] at hfirst
    exact absurd (by simp) (hfirst B hmem)
  | some B0 =>
    exact findBookingById_saveBooking (q := { B with status := .completed }) hfirst

/-- Witness of C19, amended: in the scenario store the provider's complete of
the accepted booking 31 and of the pending booking 32 both store the booking
completed. -/
theorem complete_sets_completed_witness :
    (completeBooking testStore (.token 1) 31 1700000001700).store.findBookingById 31 =
      some { acceptedBooking with status := .completed } ∧
    (completeBooking testStore (.token 1) 32 1700000001700).store.findBookingById 32 =
      some { pendingBooking with status := .completed } :=
  ⟨(complete_sets_completed testStore (.token 1) 31 1700000001700
      { id := 1, role := .provider, mobileNumber := "9990000001", fullName := "Test Provider" }
      testProvider acceptedBooking rfl (by decide) (by decide)).2.2,
   (complete_sets_completed testStore (.token 1) 32 1700000001700
      { id := 1, role := .provider, mobileNumber := "9990000001", fullName := "Test Provider" }
      testProvider pendingBooking rfl (by decide) (by decide)).2.2⟩

/-- C20 as stated fails: booking 32 of the scenario store is pending; the
provider's generate-qr on it is answered with status 200 and a payload, and
the payload is stored in `verificationQrData`, which was empty. -/
theorem pending_booking_gets_qr :
    (testStore.findBookingById 32).map (fun b => (b.status, b.verificationQrData)) =
      some (.pending, none) ∧
    (generateQr testStore (.token 1) 32 1700000001800).res =
      { status := 200
        body := .qr (jsonStringify { genuinePayload with
          bookingId := some 32, timestamp := some 1700000001800 }) } ∧
    ((generateQr testStore (.token 1) 32 1700000001800).store.findBookingById 32).map
      (fun b => b.verificationQrData) =
      some (some (jsonStringify { genuinePayload with
        bookingId := some 32, timestamp := some 1700000001800 })) := by
  refine ⟨by decide, rfl, by decide⟩

/-- C20, amended. For an authenticated caller with provider profile `P` and
the booking `B` resolved for `id` among the bookings whose `provider` is
`P`'s id, whatever the status of `B`, pending and rejected included,
generate-qr is answered with status 200 and a payload that binds `B`'s id,
`P`'s id and `P`'s identity string, and stores that payload text in
`B.verificationQrData`, every other field of `B` as it was. -/
theorem generate_qr_any_status (s : Store) (cred : Credential) (id : ObjId) (now : Nat)
    (user : ReqUser) (P : Provider) (B : Booking)
    (hauth : authRequired s cred = .ok user)
    (hP : s.findProviderByUser user.id = some P)
    (hB : s.findBookingOfProvider id P._id = some B) :
    ∃ payload : QrPayload,
      payload.bookingId = some B._id ∧ payload.providerId = some P._id ∧
      payload.blockchainProviderId = some P.blockchainProviderId ∧
      (generateQr s cred id now).res =
        { status := 200, body := .qr (jsonStringify payload) } ∧
      (generateQr s cred id now).store =
        s.saveBooking { B with verificationQrData := some (jsonStringify payload) } := by
  obtain ⟨owner, howner⟩ := authRequired_ok_inv hauth
  have hPuser : P.user = user.id := by
    have := List.find?_some hP
    simpa using this
  have howner' : s.findUser P.user = some owner := by rw [hPuser]; exact howner
  refine ⟨{ bookingId := some B._id, providerId := some P._id
            blockchainProviderId := some P.blockchainProviderId, name := some owner.fullName
            serviceType := some P.serviceType, specialization := some P.specialization
            experience := some P.experienceYears, rating := some P.rating
            timestamp := some now }, rfl, rfl, rfl, ?_, ?_⟩
  · simp [generateQr, withAuth, hauth, hP, hB, howner']
  · simp [generateQr, withAuth, hauth, hP, hB, howner']

/-- Witness of C20, amended: in the scenario store the provider's generate-qr
of the completed booking 30 is answered with status 200 and a payload that
binds booking 30 and provider 10. -/
theorem generate_qr_any_status_witness :
    ∃ payload : QrPayload,
      payload.bookingId = some 30 ∧ payload.providerId = some 10 ∧
      payload.blockchainProviderId = some "prov_0123456789abcdef" ∧
      (generateQr testStore (.token 1) 30 1700000001800).res =
        { status := 200, body := .qr (jsonStringify payload) } := by
  obtain ⟨payload, h1, h2, h3, h4, _⟩ := generate_qr_any_status testStore (.token 1) 30
    1700000001800
    { id := 1, role := .provider, mobileNumber := "9990000001", fullName := "Test Provider" }
    testProvider completedBooking rfl (by decide) (by decide)
  exact ⟨payload, h1, h2, h3, h4⟩

/-! ## C24: the wallet debit guard -/

/-- Binary64 addition at work: `0.1` is read as `tenth`; a sum that lies
half-way between two values goes to the even significand
(`2 ^ 53 + 1` to `2 ^ 53`, `2 ^ 53 + 3` to `2 ^ 53 + 4`); `0.1 + 0.2` is
`0.30000000000000004`; whole numbers and `0.5` are not rounded. -/
theorem toDouble_values :
    toDouble (1 / 10) = tenth ∧
    toDouble (2 ^ 53 + 1) = 2 ^ 53 ∧
    toDouble (2 ^ 53 + 3) = 2 ^ 53 + 4 ∧
    jsAdd tenth (toDouble (2 / 10)) = 1351079888211149 / 4503599627370496 ∧
    toDouble 500 = 500 ∧ toDouble (-200) = -200 ∧ toDouble (1 / 2) = 1 / 2 := by
  refine ⟨by decide!, by decide!, by decide!, by decide!, by decide!, by decide!, by decide!⟩

/-- An integer is its own nearest integer. -/
theorem roundHalfEven_intCast (z : ℤ) : roundHalfEven (z : ℚ) = z := by
  unfold roundHalfEven
  simp only [Int.floor_intCast, sub_self]
  rw [if_pos (by norm_num)]

theorem log2Floor_le (fuel n : Nat) (hn : 1 ≤ n) : 2 ^ log2Floor fuel n ≤ n := by
  induction fuel generalizing n with
  | zero => simpa [log2Floor] using hn
  | succ f ih =>
    unfold log2Floor
    split
    · rename_i h2
      have h1 : 1 ≤ n / 2 := by omega
      have := ih (n / 2) h1
      rw [pow_succ]
      omega
    · simpa using hn

theorem log2Floor_one_one : log2Floor 1 1 = 0 := rfl

/-- A whole number of magnitude below `2 ^ 53` is a binary64 value. -/
theorem toDouble_intCast (z : ℤ) (hz : |z| < 2 ^ 53) : toDouble (z : ℚ) = z := by
  by_cases h0 : z = 0
  · subst h0; simp [toDouble]
  have hq0 : (z : ℚ) ≠ 0 := by exact_mod_cast h0
  have hn1 : 1 ≤ z.natAbs := Int.natAbs_pos.mpr h0
  obtain ⟨k, hk⟩ : ∃ k, log2Floor z.natAbs z.natAbs = k := ⟨_, rfl⟩
  have hle : 2 ^ k ≤ z.natAbs := by rw [← hk]; exact log2Floor_le _ _ hn1
  have habs : |(z : ℚ)| = (z.natAbs : ℚ) := by
    rw [← Int.cast_abs, Int.abs_eq_natAbs]; exact Int.cast_natCast _
  have hlt : z.natAbs < 2 ^ 53 := by
    have : (z.natAbs : ℤ) < 2 ^ 53 := by rw [← Int.abs_eq_natAbs]; exact hz
    exact_mod_cast this
  have hk52 : k ≤ 52 := by
    by_contra hcon
    have : 2 ^ 53 ≤ 2 ^ k := Nat.pow_le_pow_right (by norm_num) (by omega)
    omega
  have hexp : binExponent (z : ℚ) = (k : ℤ) := by
    unfold binExponent
    simp only [Rat.num_intCast, Rat.den_intCast, log2Floor_one_one, hk, Nat.cast_zero, sub_zero]
    rw [if_pos]
    rw [habs, zpow_natCast]
    exact_mod_cast hle
  obtain ⟨j, hj⟩ : ∃ j : ℕ, k + j = 52 := ⟨52 - k, by omega⟩
  have hulp : (2 : ℚ) ^ (max (k : ℤ) (-1022) - 52) = ((2 : ℚ) ^ j)⁻¹ := by
    have : max (k : ℤ) (-1022) - 52 = -(j : ℤ) := by
      have : max (k : ℤ) (-1022) = k := max_eq_left (by omega)
      rw [this]; omega
    rw [this, zpow_neg, zpow_natCast]
  unfold toDouble
  rw [if_neg hq0]
  simp only [hexp, hulp]
  have hdiv : (z : ℚ) / ((2 : ℚ) ^ j)⁻¹ = ((z * 2 ^ j : ℤ) : ℚ) := by
    push_cast; rw [div_inv_eq_mul]
  rw [hdiv, roundHalfEven_intCast]
  push_cast
  field_simp

/-- The signed sum of whole amounts is a whole number, bounded by the sum of
the absolute values. -/
theorem whole_partial_sum (p : List WalletTransaction) (h : ∀ t ∈ p, t.amount.den = 1) :
    ∃ z : ℤ, (p.map WalletTransaction.signed).sum = z ∧
      |(z : ℚ)| ≤ (p.map (fun t => |t.amount|)).sum := by
  induction p with
  | nil => exact ⟨0, by simp, by simp⟩
  | cons t ts ih =>
    obtain ⟨z, hz, hb⟩ := ih (fun x hx => h x (List.mem_cons_of_mem _ hx))
    have ht : t.amount = (t.amount.num : ℚ) :=
      (Rat.den_eq_one_iff _).mp (h t (List.mem_cons_self _ _)) |>.symm
    by_cases hd : t.direction = .incoming
    · refine ⟨t.amount.num + z, ?_, ?_⟩
      · simp only [List.map_cons, List.sum_cons, WalletTransaction.signed, if_pos hd, hz]
        push_cast; rw [← ht]
      · simp only [List.map_cons, List.sum_cons]
        push_cast; rw [← ht]
        exact (abs_add _ _).trans (add_le_add_left hb _)
    · refine ⟨-t.amount.num + z, ?_, ?_⟩
      · simp only [List.map_cons, List.sum_cons, WalletTransaction.signed, if_neg hd, hz]
        push_cast; rw [← ht]
      · simp only [List.map_cons, List.sum_cons]
        push_cast; rw [← ht]
        refine (abs_add _ _).trans ?_
        rw [abs_neg]
        exact add_le_add_left hb _

/-- Whole amounts whose absolute values sum to less than `2 ^ 53` are summed
without rounding. -/
theorem sumsUnrounded_of_whole (ledger : List WalletTransaction) (user : ObjId)
    (h : wholeAmounts ledger user) : sumsUnrounded ledger user := by
  intro p hp
  obtain ⟨hden, hsum⟩ := h
  obtain ⟨r, hr⟩ := (List.mem_inits _ _).mp hp
  rw [← hr] at hden hsum
  obtain ⟨z, hz, hb⟩ := whole_partial_sum p (fun t ht => hden t (List.mem_append_left _ ht))
  have hr0 : 0 ≤ (r.map (fun t : WalletTransaction => |t.amount|)).sum :=
    List.sum_nonneg (by intro x hx; obtain ⟨t, _, rfl⟩ := List.mem_map.mp hx; exact abs_nonneg _)
  have hlt : |(z : ℚ)| < 2 ^ 53 := by
    rw [List.map_append, List.sum_append] at hsum
    linarith
  rw [hz]
  apply toDouble_intCast
  have : ((|z| : ℤ) : ℚ) < ((2 ^ 53 : ℤ) : ℚ) := by push_cast; exact hlt
  exact_mod_cast this

/-- When no partial sum needs rounding, the fold of the handlers is the sum. -/
theorem foldl_jsAdd_exact (l : List WalletTransaction) (acc : ℚ)
    (h : ∀ p ∈ l.inits, toDouble (acc + (p.map WalletTransaction.signed).sum) =
      acc + (p.map WalletTransaction.signed).sum) :
    l.foldl (fun sum t => jsAdd sum (if t.direction = .incoming then t.amount else -t.amount))
      acc = acc + (l.map WalletTransaction.signed).sum := by
  induction l generalizing acc with
  | nil => simp
  | cons t ts ih =>
    have h1 := h [t] (by simp [List.inits_cons])
    simp only [List.map_cons, List.map_nil, List.sum_cons, List.sum_nil, add_zero] at h1
    have hstep : jsAdd acc (if t.direction = .incoming then t.amount else -t.amount) =
        acc + t.signed := h1
    simp only [List.foldl_cons, List.map_cons, List.sum_cons]
    rw [hstep, ih (acc + t.signed), add_assoc]
    intro p hp
    have h2 := h (t :: p) (by simp [List.inits_cons, hp])
    simp only [List.map_cons, List.sum_cons] at h2
    rw [add_assoc]
    exact h2

/-- When no partial sum needs rounding, the balance the handlers compute is
the balance of the specification. -/
theorem ledgerBalance_eq (s : Store) (user : ObjId)
    (h : sumsUnrounded s.walletTransactions user) :
    ledgerBalance s user = derivedBalance s.walletTransactions user := by
  unfold ledgerBalance derivedBalance
  rw [foldl_jsAdd_exact]
  · simp
  · intro p hp
    simpa using h p hp

theorem recordDebit_spec (s : Store) (cred : Credential) (amount : Option ℚ) (newId : ObjId)
    (now : Nat) (user : ReqUser) (hauth : authRequired s cred = .ok user) :
    (∀ a : ℚ, amount = some a → 0 < a →
      (a ≤ ledgerBalance s user.id →
        (recordDebit s cred amount newId now).res.status = 200 ∧
        (recordDebit s cred amount newId now).store.walletTransactions =
          s.walletTransactions ++
            [{ _id := newId, user := user.id, booking := none, direction := .outgoing
               amount := a, blockchainTxHash := none, status := .confirmed
               createdAt := now }]) ∧
      (ledgerBalance s user.id < a →
        recordDebit s cred amount newId now = refuse s 400 "Insufficient balance")) ∧
    ((amount = none ∨ ∃ a : ℚ, amount = some a ∧ a ≤ 0) →
      recordDebit s cred amount newId now = refuse s 400 "Invalid amount") := by
  refine ⟨?_, ?_⟩
  · intro a ha hpos
    subst ha
    have hvalid : ¬ (a = 0 ∨ a ≤ 0) := by
      rintro (h | h)
      · exact absurd h (ne_of_gt hpos)
      · exact absurd hpos (not_lt.mpr h)
    refine ⟨fun hbal => ?_, fun hbal => ?_⟩
    · have hnot : ¬ ledgerBalance s user.id < a := not_lt.mpr hbal
      simp only [recordDebit, withAuth, hauth]
      rw [if_neg hvalid, if_neg hnot]
      exact ⟨rfl, rfl⟩
    · simp only [recordDebit, withAuth, hauth]
      rw [if_neg hvalid, if_pos hbal]
  · rintro (rfl | ⟨a, rfl, hle⟩)
    · simp only [recordDebit, withAuth, hauth]
    · simp only [recordDebit, withAuth, hauth]
      rw [if_pos (Or.inr hle)]

/-- The running sum of ten deposits of `0.1`, addition by addition, ends at
`0.9999999999999999`, one unit in the last place below 1. -/
theorem tenthsStore_balance :
    ledgerBalance tenthsStore 2 = 9007199254740991 / 9007199254740992 := by
  decide!

/-- C24 as stated fails: after ten deposits of `0.1` the sum of the
customer's signed amounts is at least 1 (it is `10 * tenth`, a little above
1), yet the balance the handlers compute is `0.9999999999999999`, and the
customer's withdrawal of 1 and payout of 1 are both answered with status 400
"Insufficient balance" and record nothing. -/
theorem rounded_balance_refuses_covered_debit :
    derivedBalance tenthsStore.walletTransactions 2 = 10 * tenth ∧
    (1 : ℚ) ≤ derivedBalance tenthsStore.walletTransactions 2 ∧
    ledgerBalance tenthsStore 2 = 9007199254740991 / 9007199254740992 ∧
    ledgerBalance tenthsStore 2 < 1 ∧
    walletWithdraw tenthsStore (.token 2) (some 1) 90 1700000002000 =
      refuse tenthsStore 400 "Insufficient balance" ∧
    walletPayout tenthsStore (.token 2) (some 1) 90 1700000002000 =
      refuse tenthsStore 400 "Insufficient balance" := by
  have hbal : ledgerBalance tenthsStore 2 < 1 := by
    rw [tenthsStore_balance]; norm_num
  have hdebit := ((recordDebit_spec tenthsStore (.token 2) (some 1) 90 1700000002000
    { id := 2, role := .customer, mobileNumber := "8880000002", fullName := "Test Customer" }
    rfl).1 1 rfl (by norm_num)).2 hbal
  exact ⟨by decide!, by decide!, tenthsStore_balance, hbal, hdebit, hdebit⟩

/-- C24, amended. Wallet debit guard: for an authenticated user, with the
balance being the sum the handlers compute, that user's signed amounts
(`+amount` for `in`, `-amount` for `out`) added one by one in the order of the
ledger, each addition rounded to the nearest binary64 value, withdraw and
payout with a positive amount `a` are answered with status 200 and append one
`out` entry of amount `a` for that user when `a ≤ balance`, and are answered
with status 400 "Insufficient balance" with the store left as it was when
`balance < a`; with the amount missing, zero or negative they are answered
with status 400 "Invalid amount" with the store left as it was.  Whenever no
partial sum needs rounding, and so whenever the user's amounts are whole
numbers whose absolute values sum to less than `2 ^ 53`, this balance is the
exact sum of the signed amounts. -/
theorem wallet_debit_guard (s : Store) (cred : Credential) (amount : Option ℚ)
    (newId : ObjId) (now : Nat) (user : ReqUser) (hauth : authRequired s cred = .ok user) :
    (∀ a : ℚ, amount = some a → 0 < a →
      (a ≤ ledgerBalance s user.id →
        ((walletWithdraw s cred amount newId now).res.status = 200 ∧
          (walletWithdraw s cred amount newId now).store.walletTransactions =
            s.walletTransactions ++
              [{ _id := newId, user := user.id, booking := none, direction := .outgoing
                 amount := a, blockchainTxHash := none, status := .confirmed
                 createdAt := now }]) ∧
        ((walletPayout s cred amount newId now).res.status = 200 ∧
          (walletPayout s cred amount newId now).store.walletTransactions =
            s.walletTransactions ++
              [{ _id := newId, user := user.id, booking := none, direction := .outgoing
                 amount := a, blockchainTxHash := none, status := .confirmed
                 createdAt := now }])) ∧
      (ledgerBalance s user.id < a →
        walletWithdraw s cred amount newId now = refuse s 400 "Insufficient balance" ∧
        walletPayout s cred amount newId now = refuse s 400 "Insufficient balance")) ∧
    ((amount = none ∨ ∃ a : ℚ, amount = some a ∧ a ≤ 0) →
      walletWithdraw s cred amount newId now = refuse s 400 "Invalid amount" ∧
      walletPayout s cred amount newId now = refuse s 400 "Invalid amount") ∧
    (sumsUnrounded s.walletTransactions user.id →
      ledgerBalance s user.id = derivedBalance s.walletTransactions user.id) ∧
    (wholeAmounts s.walletTransactions user.id →
      ledgerBalance s user.id = derivedBalance s.walletTransactions user.id) := by
  have h := recordDebit_spec s cred amount newId now user hauth
  refine ⟨fun a ha hpos => ⟨fun hbal => ?_, fun hbal => ?_⟩, fun hbad => ?_,
    ledgerBalance_eq s user.id,
    fun hw => ledgerBalance_eq s user.id (sumsUnrounded_of_whole _ _ hw)⟩
  · exact ⟨(h.1 a ha hpos).1 hbal, (h.1 a ha hpos).1 hbal⟩
  · exact ⟨(h.1 a ha hpos).2 hbal, (h.1 a ha hpos).2 hbal⟩
  · exact ⟨h.2 hbad, h.2 hbad⟩

/-- The balance the handlers compute for the customer in the wallet scenario
is 300. -/
theorem walletStore_balance : ledgerBalance walletStore 2 = 300 := by
  decide!

/-- Witness of C24: in the wallet scenario (500 in, 200 out, whole amounts)
the computed balance is the exact sum 300; the customer's withdrawal of 300 is
recorded, the payout of 301 is refused for insufficient balance and the
withdrawal of -5 is refused as invalid. -/
theorem wallet_debit_guard_witness :
    (walletWithdraw walletStore (.token 2) (some 300) 73 1700000002000).res.status = 200 ∧
    walletPayout walletStore (.token 2) (some 301) 73 1700000002000 =
      refuse walletStore 400 "Insufficient balance" ∧
    walletWithdraw walletStore (.token 2) (some (-5)) 73 1700000002000 =
      refuse walletStore 400 "Invalid amount" ∧
    ledgerBalance walletStore 2 = derivedBalance walletStore.walletTransactions 2 :=
  ⟨(((wallet_debit_guard walletStore (.token 2) (some 300) 73 1700000002000
      { id := 2, role := .customer, mobileNumber := "8880000002", fullName := "Test Customer" }
      rfl).1 300 rfl (by norm_num)).1 (by rw [walletStore_balance])).1.1,
   (((wallet_debit_guard walletStore (.token 2) (some 301) 73 1700000002000
      { id := 2, role := .customer, mobileNumber := "8880000002", fullName := "Test Customer" }
      rfl).1 301 rfl (by norm_num)).2 (by rw [walletStore_balance]; norm_num)).2,
   ((wallet_debit_guard walletStore (.token 2) (some (-5)) 73 1700000002000
      { id := 2, role := .customer, mobileNumber := "8880000002", fullName := "Test Customer" }
      rfl).2.1 (Or.inr ⟨-5, rfl, by norm_num⟩)).1,
   (wallet_debit_guard walletStore (.token 2) none 73 1700000002000
      { id := 2, role := .customer, mobileNumber := "8880000002", fullName := "Test Customer" }
      rfl).2.2.2 (by decide!)⟩

/-! ## C22, C29: the handlers evaluated -/

/-- C22, the handler evaluated: the customer accepts the price range of
booking 31.  The effect trace of confirm-price has the
`booking:price-confirmed` emission to the provider's user room before the
write of the booking, while the traces of the provider's decision and
complete and of the booking creation start with the write. -/
theorem price_confirmed_emitted_before_save :
    (confirmPrice testStore (.token 2) 31 true 1700000002100).trace =
      [.emit (.user 1) (.priceConfirmed 31 1700000002100), .write .bookings 31] ∧
    (completeBooking testStore (.token 1) 31 1700000002100).trace =
      [.write .bookings 31,
       .emit (.booking 31) (.statusChanged 31 .completed 1700000002100)] ∧
    ((jobDecision testStore (.token 1) 32 "reject" none none none 1700000002100).trace.head?) =
      some (.write .bookings 32) ∧
    ((createBooking testStore (.token 2) (some 10) (some "Fix my leak") none none none false
      33 1700000002100 7).trace.head?) = some (.write .bookings 33) := by
  refine ⟨rfl, rfl, rfl, rfl⟩

/-- C29, the handler evaluated: a QR text that is not JSON, sent to the booking
verify-qr, ends in the `SyntaxError` of `JSON.parse` at the global error
handler, status 500; the standalone provider verify-qr, which wraps
`JSON.parse` in try/catch, answers the same text with its own status 404
"Provider not found". -/
theorem unparsable_qr_is_thrown :
    verifyQr testStore (.token 2) (.notJson "not a json text") 1700000002200 =
      throwErr testStore [] .syntaxError ∧
    (verifyQr testStore (.token 2) (.notJson "not a json text") 1700000002200).res =
      { status := 500, body := .thrown .syntaxError } ∧
    (providerVerifyQr testStore (.token 2) (.notJson "not a json text")).res =
      { status := 404, body := .message "Provider not found" } := by
  refine ⟨rfl, rfl, rfl⟩

/-! ## C23: insurance at creation -/

theorem requested_amount (amount : Option ℚ) :
    (if truthy amount = true then amount.getD 0 else 0) = amount.getD 0 := by
  cases amount with
  | none => simp [truthy]
  | some a =>
    by_cases ha : a = 0
    · simp [truthy, ha]
    · simp [truthy, ha]

theorem policyId_ne_empty (now rnd : Nat) :
    "INS-" ++ toString now ++ "-" ++ toString rnd ≠ "" := by
  intro h
  have hlen := congrArg String.length h
  simp only [String.length_append] at hlen
  have h4 : "INS-".length = 4 := by decide
  have h0 : "".length = 0 := by decide
  omega

/-- What a booking creation answered with status 201 has stored. -/
theorem createBooking_ok_inv (s : Store) (cred : Credential) (providerId : Option ObjId)
    (description : Option String) (scheduledTime : Option Nat) (amount : Option ℚ)
    (serviceType : Option String) (insuranceOpted : Bool) (newId : ObjId) (now rnd : Nat)
    (h : (createBooking s cred providerId description scheduledTime amount serviceType
      insuranceOpted newId now rnd).res.status = 201) :
    ∃ b : Booking,
      (createBooking s cred providerId description scheduledTime amount serviceType
        insuranceOpted newId now rnd).res = { status := 201, body := .booking b } ∧
      (createBooking s cred providerId description scheduledTime amount serviceType
        insuranceOpted newId now rnd).store = s.createBooking b ∧
      b._id = newId ∧ b.createdAt = now ∧ b.status = .pending ∧
      (∃ provider ∈ s.providers, b.provider = provider._id) ∧
      b.amount = (if insuranceOpted then amount.getD 0 + insuranceCost else amount.getD 0) ∧
      b.insurance =
        (if insuranceOpted then
          { opted := true, cost := insuranceCost
            policyId := some ("INS-" ++ toString now ++ "-" ++ toString rnd)
            coverageDetails := some "Standard Protection: Damage, Injury, Fraud" }
        else { opted := false, cost := 0, policyId := none, coverageDetails := none }) := by
  unfold createBooking withRole at h ⊢
  cases hauth : authRequired s cred with
  | error e =>
    rw [hauth] at h
    cases cred <;> simp [authRequired] at hauth
    all_goals first
      | (subst hauth; simp at h)
      | (split at hauth <;> simp at hauth; subst hauth; simp at h)
  | ok user =>
    rw [hauth] at h
    simp only at h ⊢
    cases hrole : requireRole [Role.customer] user with
    | error e =>
      rw [hrole] at h
      simp only [requireRole] at hrole
      split at hrole <;> simp at hrole
      subst hrole
      simp at h
    | ok _ =>
      rw [hrole] at h
      simp only at h ⊢
      cases providerId with
      | none => simp [refuse] at h
      | some pid =>
        cases description with
        | none => simp [refuse] at h
        | some text =>
          simp only at h ⊢
          by_cases htext : text = ""
          · simp [htext, refuse] at h
          · rw [if_neg htext] at h ⊢
            cases hc : s.findCustomerByUser user.id with
            | none => rw [hc] at h; simp [refuse] at h
            | some customer =>
              rw [hc] at h
              simp only at h ⊢
              cases hp1 : s.findProviderById pid with
              | some provider =>
                simp only [requested_amount]
                refine ⟨_, rfl, rfl, rfl, rfl, rfl,
                  ⟨provider, List.mem_of_find?_eq_some hp1, rfl⟩, ?_, ?_⟩
                · cases insuranceOpted <;> simp
                · cases insuranceOpted <;> simp
              | none =>
                rw [hp1] at h
                simp only at h ⊢
                cases hp2 : s.findProviderByUser pid with
                | none => rw [hp2] at h; simp [refuse] at h
                | some provider =>
                  simp only [requested_amount]
                  refine ⟨_, rfl, rfl, rfl, rfl, rfl,
                    ⟨provider, List.mem_of_find?_eq_some hp2, rfl⟩, ?_, ?_⟩
                  · cases insuranceOpted <;> simp
                  · cases insuranceOpted <;> simp

/-- C23. Insurance at creation: for every booking creation answered with
status 201, with `a` the requested amount (0 when absent), the stored booking
has, when `insuranceOpted` is set, `amount = a + 49` and
`insurance = {opted: true, cost: 49, policyId, coverageDetails}` with
`policyId` a non-empty string and `coverageDetails` present, and when it is
not set, `amount = a` and `insurance.opted = false`; hence
`insurance.opted = true` implies a non-empty `policyId`. -/
theorem insurance_at_creation (s : Store) (cred : Credential) (providerId : Option ObjId)
    (description : Option String) (scheduledTime : Option Nat) (amount : Option ℚ)
    (serviceType : Option String) (insuranceOpted : Bool) (newId : ObjId) (now rnd : Nat)
    (h : (createBooking s cred providerId description scheduledTime amount serviceType
      insuranceOpted newId now rnd).res.status = 201) :
    ∃ b : Booking,
      (createBooking s cred providerId description scheduledTime amount serviceType
        insuranceOpted newId now rnd).res = { status := 201, body := .booking b } ∧
      (createBooking s cred providerId description scheduledTime amount serviceType
        insuranceOpted newId now rnd).store.bookings = s.bookings ++ [b] ∧
      (insuranceOpted = true →
        b.amount = amount.getD 0 + 49 ∧ b.insurance.opted = true ∧ b.insurance.cost = 49 ∧
        (∃ pid : String, b.insurance.policyId = some pid ∧ pid ≠ "") ∧
        b.insurance.coverageDetails.isSome = true) ∧
      (insuranceOpted = false → b.amount = amount.getD 0 ∧ b.insurance.opted = false) ∧
      (b.insurance.opted = true → ∃ pid : String, b.insurance.policyId = some pid ∧ pid ≠ "") := by
  obtain ⟨b, hres, hstore, _, _, _, _, hamount, hins⟩ :=
    createBooking_ok_inv s cred providerId description scheduledTime amount serviceType
      insuranceOpted newId now rnd h
  refine ⟨b, hres, by rw [hstore]; rfl, ?_, ?_, ?_⟩
  · intro hopt
    subst hopt
    simp only [if_true] at hamount hins
    rw [hamount, hins]
    exact ⟨rfl, rfl, rfl, ⟨_, rfl, policyId_ne_empty now rnd⟩, rfl⟩
  · intro hopt
    subst hopt
    simp only [Bool.false_eq_true, if_false] at hamount hins
    rw [hamount, hins]
    exact ⟨rfl, rfl⟩
  · intro hopted
    cases insuranceOpted with
    | true =>
      simp only [if_true] at hins
      rw [hins]
      exact ⟨_, rfl, policyId_ne_empty now rnd⟩
    | false =>
      simp only [Bool.false_eq_true, if_false] at hins
      rw [hins] at hopted
      simp at hopted

/-- Witness of C23: the scenario of the specification, a booking created with
`amount = 0` and `insuranceOpted = true`, is answered with status 201 and
stores amount 49 and an opted insurance with a policy id. -/
theorem insurance_at_creation_witness :
    ∃ b : Booking,
      (createBooking testStore (.token 2) (some 10) (some "Fix my leak") none (some 0) none
        true 33 1700000002300 7).res = { status := 201, body := .booking b } ∧
      b.amount = 49 ∧ b.insurance.opted = true ∧
      ∃ pid : String, b.insurance.policyId = some pid ∧ pid ≠ "" := by
  obtain ⟨b, hres, _, hopt, _, _⟩ := insurance_at_creation testStore (.token 2) (some 10)
    (some "Fix my leak") none (some 0) none true 33 1700000002300 7 (by decide)
  obtain ⟨hamount, hopted, _, hpid, _⟩ := hopt rfl
  refine ⟨b, hres, ?_, hopted, hpid⟩
  rw [hamount]
  norm_num

/-! ## C28: the sign of the booking amount -/

theorem amounts_saveBooking {s : Store} {x : Booking} (h : s.AmountsNonneg)
    (hx : 0 ≤ x.amount) : (s.saveBooking x).AmountsNonneg := by
  intro b hb
  rcases mem_saveBooking hb with rfl | hmem
  · exact hx
  · exact h b hmem

theorem amounts_completeBooking (s : Store) (cred : Credential) (id : ObjId) (now : Nat)
    (h : s.AmountsNonneg) : (completeBooking s cred id now).store.AmountsNonneg := by
  unfold completeBooking withAuth
  cases authRequired s cred with
  | error r => exact h
  | ok user =>
    simp only
    cases s.findProviderByUser user.id with
    | none => exact h
    | some provider =>
      simp only
      cases hb : s.findBookingOfProvider id provider._id with
      | none => exact h
      | some found => exact amounts_saveBooking h (h found (mem_of_findBookingOfProvider hb))

theorem amounts_confirmPrice (s : Store) (cred : Credential) (id : ObjId) (accepted : Bool)
    (now : Nat) (h : s.AmountsNonneg) :
    (confirmPrice s cred id accepted now).store.AmountsNonneg := by
  unfold confirmPrice withAuth
  cases authRequired s cred with
  | error r => exact h
  | ok user =>
    simp only
    cases s.findCustomerByUser user.id with
    | none => exact h
    | some customer =>
      simp only
      cases hb : s.findBookingOfCustomer id customer._id with
      | none => exact h
      | some found =>
        have hf := h found (mem_of_findBookingOfCustomer hb)
        cases accepted with
        | true => exact amounts_saveBooking h hf
        | false => exact amounts_saveBooking h hf

theorem amounts_generateQr (s : Store) (cred : Credential) (id : ObjId) (now : Nat)
    (h : s.AmountsNonneg) : (generateQr s cred id now).store.AmountsNonneg := by
  unfold generateQr withAuth
  cases authRequired s cred with
  | error r => exact h
  | ok user =>
    simp only
    cases s.findProviderByUser user.id with
    | none => exact h
    | some provider =>
      simp only
      cases hb : s.findBookingOfProvider id provider._id with
      | none => exact h
      | some found =>
        simp only
        cases s.findUser provider.user with
        | none => exact h
        | some owner =>
          exact amounts_saveBooking h (h found (mem_of_findBookingOfProvider hb))

theorem amounts_verifyQr (s : Store) (cred : Credential) (qrData : QrText) (now : Nat)
    (h : s.AmountsNonneg) : (verifyQr s cred qrData now).store.AmountsNonneg := by
  unfold verifyQr withAuth
  cases authRequired s cred with
  | error r => exact h
  | ok user =>
    simp only
    split
    · exact h
    · cases jsonParse qrData with
      | none => exact h
      | some parsed =>
        simp only
        cases parsed.bookingId with
        | none => exact h
        | some bookingId =>
          simp only
          cases hb : s.findBookingById bookingId with
          | none => exact h
          | some found =>
            simp only
            split
            · exact h
            · exact amounts_saveBooking h (h found (mem_of_findBookingById hb))

theorem amounts_submitReview (s : Store) (cred : Credential) (id : ObjId) (rating : Option ℚ)
    (review : Option String) (h : s.AmountsNonneg) :
    (submitReview s cred id rating review).store.AmountsNonneg := by
  unfold submitReview withAuth
  cases authRequired s cred with
  | error r => exact h
  | ok user =>
    simp only
    cases s.findCustomerByUser user.id with
    | none => exact h
    | some customer =>
      simp only
      cases hb : s.findBookingOfCustomer id customer._id with
      | none => exact h
      | some found =>
        have hsaved : (s.saveBooking { found with rating := rating, review := review
            }).AmountsNonneg :=
          amounts_saveBooking h (h found (mem_of_findBookingOfCustomer hb))
        simp only
        split
        · exact h
        · split
          · exact h
          · split
            · exact hsaved
            · cases rating with
              | none => exact hsaved
              | some r => exact hsaved

theorem amounts_jobDecision (s : Store) (cred : Credential) (bookingId : ObjId)
    (decision : String) (amount priceMin priceMax : Option ℚ) (now : Nat)
    (h : s.AmountsNonneg) (hin : ∀ a : ℚ, amount = some a → 0 ≤ a) :
    (jobDecision s cred bookingId decision amount priceMin priceMax now
      ).store.AmountsNonneg := by
  unfold jobDecision withRole
  cases authRequired s cred with
  | error r => exact h
  | ok user =>
    simp only
    cases requireRole [Role.provider] user with
    | error r => exact h
    | ok _ =>
      simp only
      cases s.findProviderByUser user.id with
      | none => exact h
      | some provider =>
        simp only
        cases hb : s.findBookingOfEither bookingId provider._id provider.user with
        | none => exact h
        | some found =>
          have hf := h found (mem_of_findBookingOfEither hb)
          simp only
          by_cases hacc : decision = "accept"
          · rw [if_pos hacc]
            apply amounts_saveBooking h
            by_cases hr : (truthy priceMin = true ∧ truthy priceMax = true)
            · rw [if_pos hr]; exact hf
            · rw [if_neg hr]
              by_cases ha : truthy amount = true
              · rw [if_pos ha]
                cases amount with
                | none => simp [truthy] at ha
                | some a => exact hin a rfl
              · rw [if_neg ha]; exact hf
          · rw [if_neg hacc]
            by_cases hrej : decision = "reject"
            · rw [if_pos hrej]
              exact amounts_saveBooking h hf
            · rw [if_neg hrej]; exact h

theorem amounts_payBooking (s : Store) (cred : Credential) (bookingId : ObjId)
    (amount : Option ℚ) (method : Option String) (txId : ObjId) (txHash : String) (now : Nat)
    (h : s.AmountsNonneg) (hin : ∀ a : ℚ, amount = some a → 0 ≤ a) :
    (payBooking s cred bookingId amount method txId txHash now).store.AmountsNonneg := by
  unfold payBooking withAuth
  cases authRequired s cred with
  | error r => exact h
  | ok user =>
    simp only
    cases hb : s.findBookingById bookingId with
    | none => exact h
    | some found =>
      have hf := h found (mem_of_findBookingById hb)
      simp only
      split
      · exact h
      · rename_i pm _
        have hnew : 0 ≤ (if truthy amount = true then amount.getD 0 else found.amount) := by
          split
          · cases amount with
            | none => simp
            | some a => exact hin a rfl
          · exact hf
        have hsaved : (s.saveBooking { found with
            paymentMethod := some pm
            amount := if truthy amount = true then amount.getD 0 else found.amount
            paymentStatus := .paid }).AmountsNonneg :=
          amounts_saveBooking h hnew
        split
        · split
          · exact hsaved
          · exact hsaved
        · exact hsaved

theorem createBooking_refused_or_created (s : Store) (cred : Credential)
    (providerId : Option ObjId) (description : Option String) (scheduledTime : Option Nat)
    (amount : Option ℚ) (serviceType : Option String) (insuranceOpted : Bool) (newId : ObjId)
    (now rnd : Nat) :
    (createBooking s cred providerId description scheduledTime amount serviceType
      insuranceOpted newId now rnd).store = s ∨
    (createBooking s cred providerId description scheduledTime amount serviceType
      insuranceOpted newId now rnd).res.status = 201 := by
  unfold createBooking withRole
  cases authRequired s cred with
  | error r => exact Or.inl rfl
  | ok user =>
    simp only
    cases requireRole [Role.customer] user with
    | error r => exact Or.inl rfl
    | ok _ =>
      simp only
      split
      · split
        · exact Or.inl rfl
        · cases s.findCustomerByUser user.id with
          | none => exact Or.inl rfl
          | some customer =>
            simp only
            split
            · exact Or.inl rfl
            · exact Or.inr rfl
      · exact Or.inl rfl

theorem amounts_createBooking (s : Store) (cred : Credential) (providerId : Option ObjId)
    (description : Option String) (scheduledTime : Option Nat) (amount : Option ℚ)
    (serviceType : Option String) (insuranceOpted : Bool) (newId : ObjId) (now rnd : Nat)
    (h : s.AmountsNonneg) (hin : ∀ a : ℚ, amount = some a → 0 ≤ a) :
    (createBooking s cred providerId description scheduledTime amount serviceType
      insuranceOpted newId now rnd).store.AmountsNonneg := by
  by_cases hok : (createBooking s cred providerId description scheduledTime amount serviceType
      insuranceOpted newId now rnd).res.status = 201
  · obtain ⟨b, _, hstore, _, _, _, _, hamount, _⟩ :=
      createBooking_ok_inv s cred providerId description scheduledTime amount serviceType
        insuranceOpted newId now rnd hok
    rw [hstore]
    have hreq : 0 ≤ amount.getD 0 := by
      cases amount with
      | none => simp
      | some a => exact hin a rfl
    intro x hx
    simp only [Store.createBooking, List.mem_append, List.mem_singleton] at hx
    rcases hx with hmem | rfl
    · exact h x hmem
    · rw [hamount]
      split
      · have : (0 : ℚ) ≤ insuranceCost := by unfold insuranceCost; norm_num
        linarith
      · exact hreq
  · rcases createBooking_refused_or_created s cred providerId description scheduledTime amount
      serviceType insuranceOpted newId now rnd with hsame | hcreated
    · rw [hsame]; exact h
    · exact absurd hcreated hok

theorem amounts_createClaim (s : Store) (cred : Credential) (bookingId : Option ObjId)
    (type description : Option String) (evidenceImages : Option (List String))
    (newId : ObjId) (now : Nat) (h : s.AmountsNonneg) :
    (createClaim s cred bookingId type description evidenceImages newId now
      ).store.AmountsNonneg := by
  unfold createClaim withRole
  cases authRequired s cred with
  | error r => exact h
  | ok user =>
    simp only
    cases requireRole [Role.customer] user with
    | error r => exact h
    | ok _ =>
      simp only
      cases s.findCustomerByUser user.id with
      | none => exact h
      | some customer =>
        simp only
        split
        · exact h
        · split
          · exact h
          · split
            · exact h
            · split
              · split
                · exact h
                · exact h
              · exact h

/-- C28 as stated fails: in the scenario store, whose bookings all have a
non-negative amount, a booking created with the requested amount -100 is
stored with amount -100, the provider's accept of booking 32 with the direct
amount -5 stores amount -5, and a pay of booking 31 with amount -5 stores
amount -5; all three are answered with a success status. -/
theorem negative_amount_stored :
    testStore.AmountsNonneg ∧
    (createBooking testStore (.token 2) (some 10) (some "Fix my leak") none (some (-100))
      none false 33 1700000002400 7).res.status = 201 ∧
    ((createBooking testStore (.token 2) (some 10) (some "Fix my leak") none (some (-100))
      none false 33 1700000002400 7).store.findBookingById 33).map (fun b => b.amount) =
      some (-100) ∧
    (jobDecision testStore (.token 1) 32 "accept" (some (-5)) none none
      1700000002400).res.status = 200 ∧
    ((jobDecision testStore (.token 1) 32 "accept" (some (-5)) none none
      1700000002400).store.findBookingById 32).map (fun b => b.amount) = some (-5) ∧
    (payBooking testStore (.token 2) 31 (some (-5)) none 62 "0x0" 1700000002400).res.status =
      200 ∧
    ((payBooking testStore (.token 2) 31 (some (-5)) none 62 "0x0"
      1700000002400).store.findBookingById 31).map (fun b => b.amount) = some (-5) ∧
    ¬ (payBooking testStore (.token 2) 31 (some (-5)) none 62 "0x0"
      1700000002400).store.AmountsNonneg := by
  refine ⟨by decide, by decide, ?_, by decide, ?_, by decide, ?_, ?_⟩
  · simp [createBooking, withRole, authRequired, requireRole, Store.findUser,
      Store.findCustomerByUser, Store.findProviderById, Store.createBooking,
      Store.findBookingById, truthy, testStore, providerUser, customerUser, testProvider,
      testCustomer, completedBooking, acceptedBooking, pendingBooking]
  · simp [jobDecision, withRole, authRequired, requireRole, Store.findUser,
      Store.findProviderByUser, Store.findBookingOfEither, decisionCommit, Store.saveBooking,
      Store.findBookingById, truthy, testStore, providerUser, customerUser, testProvider,
      testCustomer, completedBooking, acceptedBooking, pendingBooking]
  · simp [payBooking, withAuth, authRequired, Store.findUser, parsePaymentMethod,
      Store.saveBooking, Store.findBookingById, truthy, testStore, providerUser, customerUser,
      testProvider, testCustomer, completedBooking, acceptedBooking, pendingBooking]
  · intro hall
    have hmem : ({ acceptedBooking with
        paymentMethod := some .offline, amount := -5, paymentStatus := .paid } : Booking) ∈
        (payBooking testStore (.token 2) 31 (some (-5)) none 62 "0x0"
          1700000002400).store.bookings := by
      simp [payBooking, withAuth, authRequired, Store.findUser, parsePaymentMethod,
        Store.saveBooking, Store.findBookingById, truthy, testStore, providerUser,
        customerUser, testProvider, testCustomer, completedBooking, acceptedBooking,
        pendingBooking]
    have := hall _ hmem
    norm_num at this

/-- C28, amended. When every stored booking has a non-negative amount and the
amount a request carries (the requested amount of a creation, the direct
amount of a provider decision, the amount of a pay) is absent or
non-negative, every booking of the store the request leaves has a
non-negative amount, a newly created booking included; a negative amount is
stored as it is given. -/
theorem amount_nonneg_preserved (s : Store) (cred : Credential) (now : Nat) (req : Request)
    (h : s.AmountsNonneg) (hin : ∀ a : ℚ, req.amountInput = some a → 0 ≤ a) :
    (step s cred now req).store.AmountsNonneg := by
  cases req with
  | createBooking providerId description scheduledTime amount serviceType insuranceOpted
      newId rnd => exact amounts_createBooking _ _ _ _ _ _ _ _ _ _ _ h hin
  | decision bookingId decision amount priceMin priceMax =>
    exact amounts_jobDecision _ _ _ _ _ _ _ _ h hin
  | confirmPrice id accepted => exact amounts_confirmPrice _ _ _ _ _ h
  | complete id => exact amounts_completeBooking _ _ _ _ h
  | generateQr id => exact amounts_generateQr _ _ _ _ h
  | verifyQr qrData => exact amounts_verifyQr _ _ _ _ h
  | review id rating review => exact amounts_submitReview _ _ _ _ _ h
  | pay bookingId amount method txId txHash => exact amounts_payBooking _ _ _ _ _ _ _ _ h hin
  | createClaim bookingId type description evidenceImages newId =>
    exact amounts_createClaim _ _ _ _ _ _ _ _ h

/-- Witness of C28, amended: the scenario store keeps its amounts non-negative
when booking 31 is paid with amount 700. -/
theorem amount_nonneg_preserved_witness :
    testStore.AmountsNonneg ∧
    (step testStore (.token 2) 1700000002500
      (.pay 31 (some 700) (some "online") 62 "0x0")).store.AmountsNonneg :=
  ⟨by decide,
   amount_nonneg_preserved testStore (.token 2) 1700000002500
     (.pay 31 (some 700) (some "online") 62 "0x0") (by decide)
     (fun a ha => by
       simp only [Request.amountInput, Option.some.injEq] at ha
       rw [← ha]; norm_num)⟩

/-! ## C25: payment recording -/

/-- Payment recording where the provider reference resolves: for an
authenticated caller and the booking `B` resolved for `bookingId`, with `pm`
the given method of the enum (offline
when the method is absent): when the method is not "blockchain", pay is
answered with status 200 and no wallet transaction, stores `B` with
`paymentStatus = paid`, `paymentMethod = pm`, the given non-zero amount (the
amount `B` had otherwise) and every other field, `status` included, as it
was, and leaves the ledger as it was; when the method is "blockchain" and
`B.provider` resolves to the profile `p`, it stores `B` in the same way and
appends one wallet transaction with direction `in`, user `p.user`, booking
`B._id` and the amount stored on the booking. -/
theorem payment_recording (s : Store) (cred : Credential) (bookingId : ObjId)
    (amount : Option ℚ) (method : Option String) (txId : ObjId) (txHash : String) (now : Nat)
    (user : ReqUser) (B : Booking) (pm : PaymentMethod)
    (hauth : authRequired s cred = .ok user)
    (hB : s.findBookingById bookingId = some B)
    (hmethod : (method = none ∧ pm = .offline) ∨
      ∃ m : String, method = some m ∧ parsePaymentMethod m = some pm) :
    (method ≠ some "blockchain" →
      (payBooking s cred bookingId amount method txId txHash now).res =
        { status := 200
          body := .paid
            { B with
              paymentMethod := some pm
              amount := if truthy amount = true then amount.getD 0 else B.amount
              paymentStatus := .paid } none } ∧
      (payBooking s cred bookingId amount method txId txHash now).store =
        s.saveBooking
          { B with
            paymentMethod := some pm
            amount := if truthy amount = true then amount.getD 0 else B.amount
            paymentStatus := .paid } ∧
      (payBooking s cred bookingId amount method txId txHash now).store.walletTransactions =
        s.walletTransactions) ∧
    (method = some "blockchain" → ∀ p : Provider, s.findProviderById B.provider = some p →
      (payBooking s cred bookingId amount method txId txHash now).store.bookings =
        (s.saveBooking
          { B with
            paymentMethod := some pm
            amount := if truthy amount = true then amount.getD 0 else B.amount
            paymentStatus := .paid }).bookings ∧
      (payBooking s cred bookingId amount method txId txHash now).store.walletTransactions =
        s.walletTransactions ++
          [{ _id := txId
             user := p.user
             booking := some B._id
             direction := .incoming
             amount := if truthy amount = true then amount.getD 0 else B.amount
             blockchainTxHash := some txHash
             status := .confirmed
             createdAt := now }] ∧
      (payBooking s cred bookingId amount method txId txHash now).res.status = 200) := by
  have hoff : parsePaymentMethod "offline" = some PaymentMethod.offline := rfl
  rcases hmethod with ⟨rfl, rfl⟩ | ⟨m, rfl, hm⟩
  · refine ⟨?_, ?_⟩
    · intro hnot
      simp only [payBooking, withAuth, hauth, hB, hoff]
      rw [if_neg hnot]
      exact ⟨rfl, rfl, rfl⟩
    · intro hchain
      simp at hchain
  · have hne : m ≠ "" := by
      intro h0
      rw [h0] at hm
      simp [parsePaymentMethod] at hm
    refine ⟨?_, ?_⟩
    · intro hnot
      simp only [payBooking, withAuth, hauth, hB, if_neg hne, hm]
      rw [if_neg hnot]
      exact ⟨rfl, rfl, rfl⟩
    · intro hchain p hp
      have hp' : (s.saveBooking
          { B with
            paymentMethod := some pm
            amount := if truthy amount = true then amount.getD 0 else B.amount
            paymentStatus := .paid }).findProviderById B.provider = some p := hp
      simp only [payBooking, withAuth, hauth, hB, if_neg hne, hm]
      rw [if_pos hchain]
      simp only [hp']
      refine ⟨?_, ?_, ?_⟩ <;> first | rfl | trivial

/-- In the scenario store a pay of booking 31 with amount 700 and method
"blockchain" marks it paid and appends one ledger entry of 700 for the
provider's user 1; with no method it is stored as offline and the ledger stays
empty. -/
theorem payment_recording_witness :
    (payBooking testStore (.token 2) 31 (some 700) (some "blockchain") 62 "0xabc"
      1700000002600).store.walletTransactions =
      [{ _id := 62, user := 1, booking := some 31, direction := .incoming, amount := 700
         blockchainTxHash := some "0xabc", status := .confirmed
         createdAt := 1700000002600 }] ∧
    (payBooking testStore (.token 2) 31 (some 700) none 62 "0xabc"
      1700000002600).res =
      { status := 200
        body := .paid
          { acceptedBooking with
            paymentMethod := some .offline, amount := 700, paymentStatus := .paid } none } := by
  have h1 := (payment_recording testStore (.token 2) 31 (some 700) (some "blockchain") 62
    "0xabc" 1700000002600
    { id := 2, role := .customer, mobileNumber := "8880000002", fullName := "Test Customer" }
    acceptedBooking .blockchain rfl (by decide) (Or.inr ⟨"blockchain", rfl, by decide⟩)).2 rfl
    testProvider (by decide)
  have h2 := (payment_recording testStore (.token 2) 31 (some 700) none 62
    "0xabc" 1700000002600
    { id := 2, role := .customer, mobileNumber := "8880000002", fullName := "Test Customer" }
    acceptedBooking .offline rfl (by decide) (Or.inl ⟨rfl, rfl⟩)).1 (by simp)
  refine ⟨?_, ?_⟩
  · rw [h1.2.1]
    simp [testStore, truthy, testProvider, acceptedBooking]
  · rw [h2.1]
    simp [truthy]

/-- C25, the handler evaluated: booking 34 exists and its `provider` field
resolves to no provider profile.  A pay of it with amount 650 and method
"blockchain" appends no wallet transaction: the booking is saved as paid with
method blockchain and amount 650, then reading `provider.user` throws a
`TypeError`, which is answered with status 500, the save of the booking being
the only write. -/
theorem blockchain_pay_appends_nothing :
    legacyStore.findBookingById 34 = some legacyBooking ∧
    legacyStore.findProviderById legacyBooking.provider = none ∧
    (payBooking legacyStore (.token 2) 34 (some 650) (some "blockchain") 63 "0xdef"
      1700000002700).res = { status := 500, body := .thrown .typeError } ∧
    (payBooking legacyStore (.token 2) 34 (some 650) (some "blockchain") 63 "0xdef"
      1700000002700).trace = [.write .bookings 34] ∧
    (payBooking legacyStore (.token 2) 34 (some 650) (some "blockchain") 63 "0xdef"
      1700000002700).store.walletTransactions = legacyStore.walletTransactions ∧
    ((payBooking legacyStore (.token 2) 34 (some 650) (some "blockchain") 63 "0xdef"
      1700000002700).store.findBookingById 34).map
        (fun b => (b.paymentStatus, b.paymentMethod, b.amount, b.status)) =
      some (.paid, some .blockchain, 650, legacyBooking.status) := by
  refine ⟨by decide, by decide, rfl, rfl, rfl, by decide⟩

/-! ## C26: the jobs listing -/

theorem authRequired_createBooking (s : Store) (b : Booking) (cred : Credential) :
    authRequired (s.createBooking b) cred = authRequired s cred := by
  cases cred <;> rfl

/-- In a list sorted by `createdAt` descending, a member that is strictly
newer than every other member is the head. -/
theorem head_of_sorted_newest (L : List Booking) (b : Booking)
    (hsorted : L.Sorted (fun x y => y.createdAt ≤ x.createdAt)) (hb : b ∈ L)
    (hnewest : ∀ x ∈ L, x ≠ b → x.createdAt < b.createdAt) : L.head? = some b := by
  cases L with
  | nil => simp at hb
  | cons x xs =>
    simp only [List.head?_cons, Option.some.injEq]
    by_contra hne
    have hbx : b ∈ xs := by
      rcases List.mem_cons.mp hb with h | h
      · exact absurd h.symm hne
      · exact h
    have h1 : b.createdAt ≤ x.createdAt := List.rel_of_sorted_cons hsorted b hbx
    have h2 := hnewest x (List.mem_cons_self _ _) hne
    omega

/-- C26. Provider sees a new booking first: when a booking creation is answered
with status 201 and the booking `b`, created at `now` for the provider
profile `P` (`b.provider = P._id`), and every booking stored before that
refers to `P` by profile id or by owner user id was created before `now`,
then the jobs listing of `P`'s owner on the resulting store is answered with
status 200 and a list that holds exactly the stored bookings whose `provider`
is `P`'s id or the id of `P`'s owning user, is ordered by `createdAt`
descending, and has `b` as its first element. -/
theorem new_booking_listed_first (s : Store) (credC : Credential) (providerId : Option ObjId)
    (description : Option String) (scheduledTime : Option Nat) (amount : Option ℚ)
    (serviceType : Option String) (insuranceOpted : Bool) (newId : ObjId) (now rnd : Nat)
    (credP : Credential) (userP : ReqUser) (P : Provider) (b : Booking)
    (hcreate : (createBooking s credC providerId description scheduledTime amount serviceType
      insuranceOpted newId now rnd).res = { status := 201, body := .booking b })
    (hauthP : authRequired s credP = .ok userP) (hroleP : userP.role = .provider)
    (hP : s.findProviderByUser userP.id = some P)
    (hfor : b.provider = P._id)
    (hlatest : ∀ x ∈ s.bookings, x.provider = P._id ∨ x.provider = P.user →
      x.createdAt < now) :
    ∃ L : List Booking,
      (getJobs (createBooking s credC providerId description scheduledTime amount serviceType
        insuranceOpted newId now rnd).store credP).res = { status := 200, body := .jobs L } ∧
      L.Perm ((createBooking s credC providerId description scheduledTime amount serviceType
        insuranceOpted newId now rnd).store.bookings.filter
          (fun x => x.provider = P._id ∨ x.provider = P.user)) ∧
      L.Sorted (fun x y => y.createdAt ≤ x.createdAt) ∧
      L.head? = some b := by
  have hstatus : (createBooking s credC providerId description scheduledTime amount
      serviceType insuranceOpted newId now rnd).res.status = 201 := by rw [hcreate]
  obtain ⟨b', hres, hstore, _, hcreated, _, _, _, _⟩ :=
    createBooking_ok_inv s credC providerId description scheduledTime amount serviceType
      insuranceOpted newId now rnd hstatus
  have hbb : b' = b := by
    rw [hres] at hcreate
    simpa using hcreate
  subst hbb
  rw [hstore]
  have hrole' := requireRole_self userP .provider hroleP
  have hP' : (s.createBooking b').findProviderByUser userP.id = some P := hP
  have htotal : IsTotal Booking (fun x y => y.createdAt ≤ x.createdAt) :=
    ⟨fun x y => Nat.le_total y.createdAt x.createdAt⟩
  have htrans : IsTrans Booking (fun x y => y.createdAt ≤ x.createdAt) :=
    ⟨fun _ _ _ hxy hyz => Nat.le_trans hyz hxy⟩
  refine ⟨((s.createBooking b').bookings.filter
      (fun x => x.provider = P._id ∨ x.provider = P.user)).insertionSort
      (fun x y => y.createdAt ≤ x.createdAt), ?_, ?_, ?_, ?_⟩
  · simp only [getJobs, withRole, authRequired_createBooking, hauthP, hrole', hP']
  · exact List.perm_insertionSort _ _
  · exact List.sorted_insertionSort _ _
  · apply head_of_sorted_newest _ _ (List.sorted_insertionSort _ _)
    · rw [(List.perm_insertionSort _ _).mem_iff]
      simp [Store.createBooking, hfor]
    · intro x hx hne
      rw [(List.perm_insertionSort _ _).mem_iff] at hx
      simp only [Store.createBooking, List.mem_filter, List.mem_append, List.mem_singleton,
        decide_eq_true_eq] at hx
      rcases hx.1 with hold | hnew
      · rw [hcreated]
        exact hlatest x hold hx.2
      · exact absurd hnew hne

/-- Witness of C26, the scenario of `test_booking_flow.js`: after the customer
has created a booking for provider 10, the provider's jobs listing is
answered with status 200 and the new booking 33 is its first element. -/
theorem new_booking_listed_first_witness :
    ∃ L : List Booking,
      (getJobs (createBooking testStore (.token 2) (some 10) (some "Fix my leak")
        (some 1700000002700) none (some "Home Repair & Maintenance") false 33 1700000002700
        7).store (.token 1)).res = { status := 200, body := .jobs L } ∧
      L.head?.map (fun b => b._id) = some 33 := by
  obtain ⟨b, hres, _, hid, _, _, ⟨provider, hmem, hprov⟩, _, _⟩ :=
    createBooking_ok_inv testStore (.token 2) (some 10) (some "Fix my leak")
      (some 1700000002700) none (some "Home Repair & Maintenance") false 33 1700000002700 7
      (by decide)
  have hp : provider = testProvider := by simpa [testStore] using hmem
  obtain ⟨L, hL, _, _, hhead⟩ := new_booking_listed_first testStore (.token 2) (some 10)
    (some "Fix my leak") (some 1700000002700) none (some "Home Repair & Maintenance") false 33
    1700000002700 7 (.token 1)
    { id := 1, role := .provider, mobileNumber := "9990000001", fullName := "Test Provider" }
    testProvider b hres rfl rfl (by decide) (by rw [hprov, hp]) (by decide)
  exact ⟨L, hL, by rw [hhead]; simp [hid]⟩

/-! ## C27: what a verification response depends on -/

theorem findUser_view {s1 s2 : Store}
    (h : s1.users.map User.withoutPassword = s2.users.map User.withoutPassword) (id : ObjId) :
    (s1.findUser id).map User.withoutPassword = (s2.findUser id).map User.withoutPassword := by
  have hfind : ∀ l : List User,
      (l.find? (fun u => decide (u._id = id))).map User.withoutPassword =
        (l.map User.withoutPassword).find? (fun u => decide (u._id = id)) := by
    intro l
    induction l with
    | nil => rfl
    | cons u us ih =>
      by_cases hu : u._id = id
      · simp [List.find?, hu, User.withoutPassword]
      · simp only [List.find?, List.map_cons, hu, decide_False, User.withoutPassword]
        exact ih
  unfold Store.findUser
  rw [hfind, hfind, h]

theorem userView_withoutPassword (u : User) : userView u.withoutPassword = userView u := rfl

theorem findUser_userView {s1 s2 : Store}
    (h : s1.users.map User.withoutPassword = s2.users.map User.withoutPassword) (id : ObjId) :
    (s1.findUser id).map userView = (s2.findUser id).map userView := by
  have := congrArg (Option.map userView) (findUser_view h id)
  simpa [Option.map_map, Function.comp_def, userView_withoutPassword] using this

theorem authRequired_samePasswords {s1 s2 : Store}
    (h : s1.users.map User.withoutPassword = s2.users.map User.withoutPassword)
    (cred : Credential) : authRequired s1 cred = authRequired s2 cred := by
  cases cred with
  | missing => rfl
  | expired => rfl
  | invalid => rfl
  | token userId =>
    have hv := findUser_view h userId
    simp only [authRequired]
    cases h1 : s1.findUser userId with
    | none =>
      rw [h1] at hv
      cases h2 : s2.findUser userId with
      | none => rfl
      | some u2 => rw [h2] at hv; simp at hv
    | some u1 =>
      rw [h1] at hv
      cases h2 : s2.findUser userId with
      | none => rw [h2] at hv; simp at hv
      | some u2 =>
        rw [h2] at hv
        simp only [Option.map_some', Option.some.injEq, User.withoutPassword,
          User.mk.injEq] at hv
        obtain ⟨hid, hname, hmobile, _, hrole⟩ := hv
        simp only [hid, hname, hmobile, hrole]

theorem providerView_samePasswords {s1 s2 : Store}
    (h : s1.users.map User.withoutPassword = s2.users.map User.withoutPassword)
    (p : Provider) : providerView s1 p = providerView s2 p := by
  unfold providerView
  rw [findUser_userView h p.user]

/-- C27. Display-safe verification result: two stores that differ at most in
the `passwordHash` values of their users give the same response to the same
booking verify-qr request and to the same standalone provider verify-qr
request, whoever the caller; the provider record of a successful response is
a `ProviderView`, whose fields and whose populated user carry no password or
hash. -/
theorem verification_ignores_passwords (s1 s2 : Store) (cred : Credential) (qrData : QrText)
    (now : Nat) (h : s1.SameUpToPasswords s2) :
    (verifyQr s1 cred qrData now).res = (verifyQr s2 cred qrData now).res ∧
    (providerVerifyQr s1 cred qrData).res = (providerVerifyQr s2 cred qrData).res := by
  obtain ⟨hu, hp, _, hb, _, _⟩ := h
  have hauth := authRequired_samePasswords hu cred
  have hview : providerView s1 = providerView s2 := funext (providerView_samePasswords hu)
  refine ⟨?_, ?_⟩
  · simp only [verifyQr, withAuth, hauth, Store.findBookingById, Store.findProviderById, hp,
      hb, hview]
    cases authRequired s2 cred with
    | error e => rfl
    | ok user =>
      simp only
      split
      · rfl
      · cases jsonParse qrData with
        | none => rfl
        | some parsed =>
          simp only
          cases parsed.bookingId with
          | none => rfl
          | some bookingId =>
            simp only
            cases s2.bookings.find? (fun b => decide (b._id = bookingId)) with
            | none => rfl
            | some found =>
              simp only
              split
              · rfl
              · rfl
  · simp only [providerVerifyQr, withAuth, hauth, hp, hview]
    cases authRequired s2 cred with
    | error e => rfl
    | ok user =>
      simp only
      split
      · rfl
      · split
        · rfl
        · split
          · rfl
          · rfl

/-- Witness of C27: the scenario store and its copy with other password
hashes differ, and the customer's verification of the genuine payload of
booking 31 is answered alike on both, with status 200. -/
theorem verification_ignores_passwords_witness :
    testStore ≠ rehashedStore ∧
    (verifyQr testStore (.token 2) (.object genuinePayload) 1700000002800).res =
      (verifyQr rehashedStore (.token 2) (.object genuinePayload) 1700000002800).res ∧
    (verifyQr testStore (.token 2) (.object genuinePayload) 1700000002800).res.status = 200 ∧
    (providerVerifyQr testStore (.token 2) (.notJson "prov_0123456789abcdef")).res =
      (providerVerifyQr rehashedStore (.token 2) (.notJson "prov_0123456789abcdef")).res ∧
    (providerVerifyQr testStore (.token 2) (.notJson "prov_0123456789abcdef")).res.status =
      200 := by
  have h := verification_ignores_passwords testStore rehashedStore (.token 2)
    (.object genuinePayload) 1700000002800 ⟨rfl, rfl, rfl, rfl, rfl, rfl⟩
  have h' := verification_ignores_passwords testStore rehashedStore (.token 2)
    (.notJson "prov_0123456789abcdef") 1700000002800 ⟨rfl, rfl, rfl, rfl, rfl, rfl⟩
  exact ⟨by decide, h.1, by decide, h'.2, by decide⟩

/-! ## C30: the rating stays within the scale -/

theorem submitReviews_ratings_valid :
    ∀ (reqs : List ReviewRequest) (s s' : Store), submitReviews s reqs = some s' →
      ∀ q ∈ reqs, 1 ≤ q.rating ∧ q.rating ≤ 5 := by
  intro reqs
  induction reqs with
  | nil => intro s s' _ q hq; simp at hq
  | cons r rs ih =>
    intro s s' hrun q hq
    simp only [submitReviews] at hrun
    by_cases hok : (submitReview s r.cred r.id (some r.rating) r.review).res.status = 200
    · rw [if_pos hok] at hrun
      rcases List.mem_cons.mp hq with rfl | hmem
      · obtain ⟨_, _, _, _, _, _, _, hr⟩ :=
          submitReview_ok_inv s q.cred q.id q.rating q.review hok
        exact hr
      · exact ih _ s' hrun q hmem
    · rw [if_neg hok] at hrun
      exact absurd hrun (by simp)

theorem ratings_sum_bounds (reqs : List ReviewRequest)
    (h : ∀ q ∈ reqs, 1 ≤ q.rating ∧ q.rating ≤ 5) :
    (reqs.length : ℚ) ≤ (reqs.map (fun q => q.rating)).sum ∧
    (reqs.map (fun q => q.rating)).sum ≤ 5 * (reqs.length : ℚ) := by
  induction reqs with
  | nil => simp
  | cons r rs ih =>
    have hr := h r (List.mem_cons_self _ _)
    have hrest := ih (fun q hq => h q (List.mem_cons_of_mem _ hq))
    simp only [List.length_cons, List.map_cons, List.sum_cons, Nat.cast_add, Nat.cast_one]
    constructor
    · linarith [hr.1, hrest.1]
    · linarith [hr.2, hrest.2]

/-- C30. Provider rating stays within the rating scale: when the provider
`pid` is stored with rating 0 and ratingCount 0 and a sequence of reviews,
each naming a booking of that provider, is submitted one after another and
every one is answered with status 200 (which the handler does only for
ratings within 1 to 5), the provider stored at the end has ratingCount equal
to the number of reviews and, when that number is at least 1, a rating
between 1 and 5. -/
theorem rating_within_scale (s s' : Store) (pid : ObjId) (p : Provider)
    (reqs : List ReviewRequest) (hp : s.findProviderById pid = some p)
    (hrating : p.rating = 0) (hcount : p.ratingCount = 0)
    (htarget : ∀ q ∈ reqs, ∀ b ∈ s.bookings, b._id = q.id → b.provider = pid)
    (hrun : submitReviews s reqs = some s') :
    (∀ q ∈ reqs, 1 ≤ q.rating ∧ q.rating ≤ 5) ∧
    ∃ p', s'.findProviderById pid = some p' ∧
      p'.ratingCount = reqs.length ∧
      (1 ≤ p'.ratingCount → 1 ≤ p'.rating ∧ p'.rating ≤ 5) := by
  have hvalid := submitReviews_ratings_valid reqs s s' hrun
  obtain ⟨p', hfind, hc, hsum⟩ := submitReviews_sum pid reqs s s' p hp htarget hrun
  have hc' : p'.ratingCount = reqs.length := by rw [hc, hcount]; simp
  refine ⟨hvalid, p', hfind, hc', ?_⟩
  intro hone
  rw [hc', hrating, zero_mul, zero_add] at hsum
  rw [hc'] at hone
  have hpos : (0 : ℚ) < (reqs.length : ℚ) := by exact_mod_cast hone
  obtain ⟨hlo, hhi⟩ := ratings_sum_bounds reqs hvalid
  constructor
  · by_contra hlt
    push_neg at hlt
    have := mul_lt_mul_of_pos_right hlt hpos
    linarith
  · by_contra hgt
    push_neg at hgt
    have := mul_lt_mul_of_pos_right hgt hpos
    linarith

/-- Witness of C30: the five reviews 5, 4, 3, 5, 4 of the unrated provider
leave ratingCount 5 and a rating between 1 and 5. -/
theorem rating_within_scale_witness :
    ∃ s' p', submitReviews reviewStore fiveReviews = some s' ∧
      s'.findProviderById 10 = some p' ∧ p'.ratingCount = 5 ∧
      1 ≤ p'.rating ∧ p'.rating ≤ 5 := by
  have hsome : (submitReviews reviewStore fiveReviews).isSome = true := by decide
  obtain ⟨s', hs'⟩ := Option.isSome_iff_exists.mp hsome
  obtain ⟨_, p', hfind, hc, hr⟩ := rating_within_scale reviewStore s' 10 unratedProvider
    fiveReviews (by decide) rfl rfl (by decide) hs'
  have hc5 : p'.ratingCount = 5 := by simpa [fiveReviews] using hc
  exact ⟨s', p', hs', hfind, hc5, hr (by omega)⟩

/-! ## C21: an earlier QR payload after a later one -/

/-- Saving `q` makes a query that fixes the id of `q`, and that `q` satisfies,
return `q`, when the query had a result before. -/
theorem find_replace_pred {α : Type} (key : α → ObjId) (p : α → Bool) (q : α)
    (hp : ∀ x, p x = true → key x = key q) (hq : p q = true) :
    ∀ (xs : List α) (b : α), xs.find? p = some b →
      (xs.map (fun x => if key x = key q then q else x)).find? p = some q := by
  intro xs
  induction xs with
  | nil => intro b h; simp at h
  | cons x xs ih =>
    intro b h
    by_cases hx : key x = key q
    · simp [List.find?, hx, hq]
    · have hpx : p x = false := by
        cases hpx : p x with
        | false => rfl
        | true => exact absurd (hp x hpx) hx
      simp only [List.find?, hpx] at h
      simp only [List.map_cons, if_neg hx, List.find?, hpx]
      exact ih b h

theorem authRequired_saveBooking (s : Store) (b : Booking) (cred : Credential) :
    authRequired (s.saveBooking b) cred = authRequired s cred := by
  cases cred <;> rfl

theorem findBookingOfProvider_saveBooking {s : Store} {id pid : ObjId} {b q : Booking}
    (h : s.findBookingOfProvider id pid = some b) (hid : q._id = id) (hprov : q.provider = pid) :
    (s.saveBooking q).findBookingOfProvider id pid = some q := by
  refine find_replace_pred (fun x : Booking => x._id)
    (fun x => decide (x._id = id ∧ x.provider = pid)) q ?_ ?_ s.bookings b h
  · intro x hx
    simp only [decide_eq_true_eq] at hx
    show x._id = q._id
    rw [hx.1, hid]
  · simp [hid, hprov]

theorem findBookingById_saveBooking_of_mem {s : Store} {q b : Booking} (hb : b ∈ s.bookings)
    (hid : b._id = q._id) : (s.saveBooking q).findBookingById q._id = some q := by
  cases hfirst : s.findBookingById q._id with
  | none =>
    simp only [Store.findBookingById, List.find?_eq_none] at hfirst
    exact absurd (by simp [hid]) (hfirst b hb)
  | some b0 => exact findBookingById_saveBooking hfirst

/-- The outcome of generate-qr for the owner of the booking. -/
theorem generateQr_ok (s : Store) (cred : Credential) (id : ObjId) (now : Nat)
    (user : ReqUser) (P : Provider) (B : Booking) (owner : User)
    (hauth : authRequired s cred = .ok user)
    (hP : s.findProviderByUser user.id = some P)
    (hB : s.findBookingOfProvider id P._id = some B)
    (howner : s.findUser P.user = some owner) :
    generateQr s cred id now =
      { store := s.saveBooking
          { B with verificationQrData := some (jsonStringify
              { bookingId := some B._id, providerId := some P._id
                blockchainProviderId := some P.blockchainProviderId
                name := some owner.fullName, serviceType := some P.serviceType
                specialization := some P.specialization
                experience := some P.experienceYears, rating := some P.rating
                timestamp := some now }) }
        trace := [.write .bookings B._id]
        res := { status := 200
                 body := .qr (jsonStringify
                  { bookingId := some B._id, providerId := some P._id
                    blockchainProviderId := some P.blockchainProviderId
                    name := some owner.fullName, serviceType := some P.serviceType
                    specialization := some P.specialization
                    experience := some P.experienceYears, rating := some P.rating
                    timestamp := some now }) } } := by
  simp [generateQr, withAuth, hauth, hP, hB, howner]

/-- C21 as stated fails: in the scenario store the provider generates the QR
text of booking 31 twice, at two times; the two texts differ and the second
is the one stored, yet the customer's verification of the first text against
the resulting store is answered with status 200, `verified`. -/
theorem earlier_qr_verifies :
    (generateQr testStore (.token 1) 31 1700000000700).res =
      { status := 200, body := .qr (.object genuinePayload) } ∧
    (generateQr (generateQr testStore (.token 1) 31 1700000000700).store (.token 1) 31
      1700000000750).res =
      { status := 200
        body := .qr (.object { genuinePayload with timestamp := some 1700000000750 }) } ∧
    QrText.object genuinePayload ≠
      QrText.object { genuinePayload with timestamp := some 1700000000750 } ∧
    ((generateQr (generateQr testStore (.token 1) 31 1700000000700).store (.token 1) 31
      1700000000750).store.findBookingById 31).map (fun b => b.verificationQrData) =
      some (some (.object { genuinePayload with timestamp := some 1700000000750 })) ∧
    (verifyQr (generateQr (generateQr testStore (.token 1) 31 1700000000700).store
      (.token 1) 31 1700000000750).store (.token 2) (.object genuinePayload)
      1700000000800).res.status = 200 := by
  refine ⟨rfl, rfl, by decide, by decide, by decide⟩

/-- C21, amended. When the caller's provider profile is `P` (the profile `P`'s
id resolves to) and `id` resolves to a booking `B` of `P`, two generate-qr
calls one after the other, at times `now1` and `now2`, are answered with
payload texts `p1` and `p2` that differ when the times differ; afterwards
`B.verificationQrData` equals `p2`, and booking verify-qr of the earlier text
`p1` by any authenticated caller is still answered with status 200: the
verification compares the payload with the booking's provider, not with the
stored text. -/
theorem earlier_qr_still_verifies (s : Store) (cred : Credential) (id : ObjId)
    (now1 now2 : Nat) (user : ReqUser) (P : Provider) (B : Booking)
    (hauth : authRequired s cred = .ok user)
    (hP : s.findProviderByUser user.id = some P)
    (hB : s.findBookingOfProvider id P._id = some B)
    (hPid : s.findProviderById P._id = some P) :
    ∃ p1 p2 : QrText,
      (generateQr s cred id now1).res = { status := 200, body := .qr p1 } ∧
      (generateQr (generateQr s cred id now1).store cred id now2).res =
        { status := 200, body := .qr p2 } ∧
      (now1 ≠ now2 → p1 ≠ p2) ∧
      ((generateQr (generateQr s cred id now1).store cred id now2).store.findBookingById
        B._id).map (fun b => b.verificationQrData) = some (some p2) ∧
      ∀ (cred' : Credential) (now' : Nat) (user' : ReqUser),
        authRequired s cred' = .ok user' →
        (verifyQr (generateQr (generateQr s cred id now1).store cred id now2).store cred' p1
          now').res.status = 200 := by
  obtain ⟨owner, howner⟩ := authRequired_ok_inv hauth
  have hPuser : P.user = user.id := by
    have := List.find?_some hP
    simpa using this
  have howner' : s.findUser P.user = some owner := by rw [hPuser]; exact howner
  have hkey := List.find?_some hB
  simp only [decide_eq_true_eq] at hkey
  have hmem : B ∈ s.bookings := mem_of_findBookingOfProvider hB
  -- the first call
  have h1 := generateQr_ok s cred id now1 user P B owner hauth hP hB howner'
  generalize hB1 : ({ B with verificationQrData := some (jsonStringify
      { bookingId := some B._id, providerId := some P._id
        blockchainProviderId := some P.blockchainProviderId
        name := some owner.fullName, serviceType := some P.serviceType
        specialization := some P.specialization
        experience := some P.experienceYears, rating := some P.rating
        timestamp := some now1 }) } : Booking) = B1 at h1
  have hB1id : B1._id = B._id := by rw [← hB1]
  have hB1prov : B1.provider = B.provider := by rw [← hB1]
  -- the second call, on the store the first one left
  have hauth1 : authRequired (s.saveBooking B1) cred = .ok user := by
    rw [authRequired_saveBooking]; exact hauth
  have hP1 : (s.saveBooking B1).findProviderByUser user.id = some P := hP
  have hfind1 : (s.saveBooking B1).findBookingOfProvider id P._id = some B1 :=
    findBookingOfProvider_saveBooking hB (hB1id.trans hkey.1) (hB1prov.trans hkey.2)
  have howner1 : (s.saveBooking B1).findUser P.user = some owner := howner'
  have h2 := generateQr_ok (s.saveBooking B1) cred id now2 user P B1 owner hauth1 hP1 hfind1
    howner1
  generalize hB2 : ({ B1 with verificationQrData := some (jsonStringify
      { bookingId := some B1._id, providerId := some P._id
        blockchainProviderId := some P.blockchainProviderId
        name := some owner.fullName, serviceType := some P.serviceType
        specialization := some P.specialization
        experience := some P.experienceYears, rating := some P.rating
        timestamp := some now2 }) } : Booking) = B2 at h2
  have hB2id : B2._id = B._id := by rw [← hB2]; exact hB1id
  have hB2prov : B2.provider = P._id := by rw [← hB2]; exact hB1prov.trans hkey.2
  have hB2qr : B2.verificationQrData = some (jsonStringify
      { bookingId := some B1._id, providerId := some P._id
        blockchainProviderId := some P.blockchainProviderId
        name := some owner.fullName, serviceType := some P.serviceType
        specialization := some P.specialization
        experience := some P.experienceYears, rating := some P.rating
        timestamp := some now2 }) := by rw [← hB2]
  -- the booking stored at the end
  have hmem1 : B1 ∈ (s.saveBooking B1).bookings := by
    simp only [Store.saveBooking, List.mem_map]
    exact ⟨B, hmem, by simp [hB1id]⟩
  have hfinal : ((s.saveBooking B1).saveBooking B2).findBookingById B._id = some B2 := by
    have := findBookingById_saveBooking_of_mem (q := B2) hmem1 (hB1id.trans hB2id.symm)
    rw [hB2id] at this
    exact this
  rw [h1]
  simp only
  rw [h2]
  simp only
  refine ⟨_, _, rfl, rfl, ?_, ?_, ?_⟩
  · intro hne heq
    simp only [jsonStringify, QrText.object.injEq, QrPayload.mk.injEq, Option.some.injEq] at heq
    exact hne heq.2.2.2.2.2.2.2.2
  · rw [hfinal]
    simp only [Option.map_some', hB2qr]
  · intro cred' now' user' hauth'
    have hauth2 : authRequired ((s.saveBooking B1).saveBooking B2) cred' = .ok user' := by
      rw [authRequired_saveBooking, authRequired_saveBooking]; exact hauth'
    have hprov2 : ((s.saveBooking B1).saveBooking B2).findProviderById B2.provider =
        some P := by
      rw [hB2prov]; exact hPid
    simp [verifyQr, withAuth, hauth2, jsonStringify, jsonParse, hfinal, hprov2]

/-- Witness of C21, amended: in the scenario store, after two generate-qr calls
for booking 31 the text of the first call, the genuine payload, is still
verified with status 200. -/
theorem earlier_qr_still_verifies_witness :
    ∃ p1 : QrText,
      (generateQr testStore (.token 1) 31 1700000000700).res =
        { status := 200, body := .qr p1 } ∧
      (verifyQr (generateQr (generateQr testStore (.token 1) 31 1700000000700).store
        (.token 1) 31 1700000000750).store (.token 2) p1 1700000000800).res.status = 200 := by
  obtain ⟨p1, _, h1, _, _, _, hverify⟩ := earlier_qr_still_verifies testStore (.token 1) 31
    1700000000700 1700000000750
    { id := 1, role := .provider, mobileNumber := "9990000001", fullName := "Test Provider" }
    testProvider acceptedBooking rfl (by decide) (by decide) (by decide)
  exact ⟨p1, h1, hverify (.token 2) 1700000000800
    { id := 2, role := .customer, mobileNumber := "8880000002", fullName := "Test Customer" }
    rfl⟩

end SmartBooking
